import Mathlib

/-!
# GBA game (`game.c`): entity simulation and tile collision

A shallow embedding of `src/game.c`.

* C `int` values are mathematical integers (`Int`). The two counters that every pass of
  the main loop changes whatever the buttons, `kills` (four `kills++`) and
  `player.invincible` (one decrement), reach the end of the `int` range on every run;
  their stores reduce the value into the 32-bit two's-complement range (`wrap_int`), as
  the target does. The other `int` variables are bounded or move only with the buttons,
  and their overflow (undefined behaviour in C) is outside the model.
* `unsigned short` values (sprite attributes, tiles, the button register) are natural
  numbers; a store of an `int` expression into an `unsigned short` truncates modulo `2^16`.
* A `struct Sprite*` held by an entity always points into the global `sprites[NUM_SPRITES]`
  array, so it is a `Fin 128` index into the sprite table (a vector of 128 sprites).
* The four `while` loops of `tile_lookup` take a fuel argument (the maximal number of loop
  tests of each loop); running out of fuel, reading outside the tile map and allocating a
  sprite outside the sprite table give `none`.
* `ForestBackground`, `ForestBackground_width`, `ForestBackground_height` (from
  `ForestBackground.h`) and `calc_wave` (declared, never defined) are not in the source;
  they are parameters, collected in `Env`.
* The display port (`wait_vblank`, the scroll registers, `sprite_update_all`, `delay`) only
  publishes state and is not part of the model.
-/

namespace GBAGame

/-! ## Constants -/

def SCREEN_WIDTH : Int := 240
def SCREEN_HEIGHT : Int := 160
def NUM_SPRITES : Nat := 128

def BUTTON_A : Nat := 1 <<< 0
def BUTTON_B : Nat := 1 <<< 1
def BUTTON_SELECT : Nat := 1 <<< 2
def BUTTON_START : Nat := 1 <<< 3
def BUTTON_RIGHT : Nat := 1 <<< 4
def BUTTON_LEFT : Nat := 1 <<< 5
def BUTTON_UP : Nat := 1 <<< 6
def BUTTON_DOWN : Nat := 1 <<< 7
def BUTTON_R : Nat := 1 <<< 8
def BUTTON_L : Nat := 1 <<< 9

/-- Conversion of an `int` value to `unsigned short` (reduction modulo `2^16`). -/
def to_u16 (v : Int) : Nat := (v % 65536).toNat

/-- The value that a 32-bit two's-complement `int` holds after a store of `v`: `v` reduced
modulo `2^32` into `-2^31 .. 2^31 - 1`. -/
def wrap_int (v : Int) : Int := (v + 2147483648) % 4294967296 - 2147483648

/-- The function `button_pressed(button)`, when the read of the (volatile, active-low)
button register `*buttons` gives `buttons`. -/
def button_pressed (buttons : Nat) (button : Nat) : Nat :=
  let pressed := (buttons &&& button) % 65536
  if pressed = 0 then 1 else 0

/-! ## Sprite table -/

/-- The `struct Sprite`: four 16-bit attribute words. -/
structure Sprite where
  attribute0 : Nat
  attribute1 : Nat
  attribute2 : Nat
  attribute3 : Nat
deriving DecidableEq

/-- The globals `sprites[NUM_SPRITES]` and `next_sprite_index`. -/
structure Pool where
  sprites : Mathlib.Vector Sprite 128
  next_sprite_index : Int
deriving DecidableEq

/-- The `enum SpriteSize`. -/
inductive SpriteSize where
  | SIZE_8_8 | SIZE_16_16 | SIZE_32_32 | SIZE_64_64
  | SIZE_16_8 | SIZE_32_8 | SIZE_32_16 | SIZE_64_32
  | SIZE_8_16 | SIZE_8_32 | SIZE_16_32 | SIZE_32_64
deriving DecidableEq

/-- The `switch (size)` of `sprite_init`: the pair `(size_bits, shape_bits)`. -/
def size_shape_bits : SpriteSize → Int × Int
  | .SIZE_8_8 => (0, 0)
  | .SIZE_16_16 => (1, 0)
  | .SIZE_32_32 => (2, 0)
  | .SIZE_64_64 => (3, 0)
  | .SIZE_16_8 => (0, 1)
  | .SIZE_32_8 => (1, 1)
  | .SIZE_32_16 => (2, 1)
  | .SIZE_64_32 => (3, 1)
  | .SIZE_8_16 => (0, 2)
  | .SIZE_8_32 => (1, 2)
  | .SIZE_16_32 => (2, 2)
  | .SIZE_32_64 => (3, 2)

/-- C left shift `a << n` of an `int` by a constant (no overflow). -/
def shl (a : Int) (n : Nat) : Int := a * 2 ^ n

/-- The function `sprite_init`: takes the slot `next_sprite_index++`, writes its three
attribute words and returns a pointer to it. An index outside `sprites[]` gives `none`. -/
def sprite_init (pool : Pool) (x y : Int) (size : SpriteSize)
    (horizontal_flip vertical_flip tile_index priority : Int) : Option (Pool × Fin 128) :=
  let index := pool.next_sprite_index
  let next := index + 1
  let size_bits := (size_shape_bits size).1
  let shape_bits := (size_shape_bits size).2
  let h : Int := if horizontal_flip ≠ 0 then 1 else 0
  let v : Int := if vertical_flip ≠ 0 then 1 else 0
  let attribute0 := to_u16
    (Int.lor y (Int.lor (shl 0 8) (Int.lor (shl 0 10) (Int.lor (shl 0 12)
      (Int.lor (shl 1 13) (shl shape_bits 14))))))
  let attribute1 := to_u16
    (Int.lor x (Int.lor (shl 0 9) (Int.lor (shl h 12) (Int.lor (shl v 13) (shl size_bits 14)))))
  let attribute2 := to_u16 (Int.lor tile_index (Int.lor (shl priority 10) (shl 0 12)))
  if hi : 0 ≤ index ∧ index < 128 then
    let slot : Fin 128 := ⟨index.toNat, by omega⟩
    let s := pool.sprites.get slot
    let s1 := { s with attribute0 := attribute0, attribute1 := attribute1,
                       attribute2 := attribute2 }
    some ({ sprites := pool.sprites.set slot s1, next_sprite_index := next }, slot)
  else none

/-- The body of the `for` loop of `sprite_clear` for slot `i`. -/
def sprite_clear_slot (sprites : Mathlib.Vector Sprite 128) (i : Fin 128) :
    Mathlib.Vector Sprite 128 :=
  let s := sprites.get i
  let s1 := { s with attribute0 := to_u16 SCREEN_HEIGHT, attribute1 := to_u16 SCREEN_WIDTH }
  sprites.set i s1

/-- The function `sprite_clear`: reset the allocation counter and move all the sprites
off screen, slot 0 to slot 127 in turn. -/
def sprite_clear (pool : Pool) : Pool :=
  { sprites := (List.finRange 128).foldl sprite_clear_slot pool.sprites,
    next_sprite_index := 0 }

/-- The function `sprite_position`. -/
def sprite_position (pool : Pool) (sprite : Fin 128) (x y : Int) : Pool :=
  let s := pool.sprites.get sprite
  let a0 := s.attribute0 &&& 0xff00
  let a0 := a0 ||| (Int.land y 0xff).toNat
  let a1 := s.attribute1 &&& 0xfe00
  let a1 := a1 ||| (Int.land x 0x1ff).toNat
  let s1 := { s with attribute0 := a0, attribute1 := a1 }
  { pool with sprites := pool.sprites.set sprite s1 }

/-- The function `sprite_move`. -/
def sprite_move (pool : Pool) (sprite : Fin 128) (dx dy : Int) : Pool :=
  let y : Int := ((pool.sprites.get sprite).attribute0 &&& 0xff : Nat)
  let x : Int := ((pool.sprites.get sprite).attribute1 &&& 0x1ff : Nat)
  sprite_position pool sprite (x + dx) (y + dy)

/-- The function `sprite_set_vertical_flip`. -/
def sprite_set_vertical_flip (pool : Pool) (sprite : Fin 128) (vertical_flip : Int) : Pool :=
  let s := pool.sprites.get sprite
  if vertical_flip ≠ 0 then
    let s1 := { s with attribute1 := s.attribute1 ||| 0x2000 }
    { pool with sprites := pool.sprites.set sprite s1 }
  else
    let s1 := { s with attribute1 := s.attribute1 &&& 0xdfff }
    { pool with sprites := pool.sprites.set sprite s1 }

/-- The function `sprite_set_horizontal_flip`. -/
def sprite_set_horizontal_flip (pool : Pool) (sprite : Fin 128) (horizontal_flip : Int) :
    Pool :=
  let s := pool.sprites.get sprite
  if horizontal_flip ≠ 0 then
    let s1 := { s with attribute1 := s.attribute1 ||| 0x1000 }
    { pool with sprites := pool.sprites.set sprite s1 }
  else
    let s1 := { s with attribute1 := s.attribute1 &&& 0xefff }
    { pool with sprites := pool.sprites.set sprite s1 }

/-- The function `sprite_set_offset`. -/
def sprite_set_offset (pool : Pool) (sprite : Fin 128) (offset : Int) : Pool :=
  let s := pool.sprites.get sprite
  let a2 := s.attribute2 &&& 0xfc00
  let a2 := a2 ||| (Int.land offset 0x03ff).toNat
  let s1 := { s with attribute2 := a2 }
  { pool with sprites := pool.sprites.set sprite s1 }

/-! ## Entities -/

/-- The `struct Player`. -/
structure Player where
  sprite : Fin 128
  x : Int
  y : Int
  frame : Int
  animation_delay : Int
  animation_state : Int
  counter : Int
  move : Int
  facing : Int
  border : Int
  health : Int
  invincible : Int
deriving DecidableEq

/-- The `struct Bullet`. -/
structure Bullet where
  sprite : Fin 128
  x : Int
  y : Int
  dx : Int
  dy : Int
  transparent : Int
deriving DecidableEq

/-- The `struct Slime`. -/
structure Slime where
  sprite : Fin 128
  x : Int
  y : Int
  health : Int
  frame : Int
  animation_delay : Int
  animation_state : Int
  wait : Int
  dead : Int
  delay : Int
  id : Int
deriving DecidableEq

/-- The function `player_init`; it assigns every field of the player. -/
def player_init (pool : Pool) : Option (Pool × Player) :=
  let x : Int := 100
  let y : Int := 113
  let frame : Int := 0
  match sprite_init pool x y .SIZE_16_16 0 0 frame 1 with
  | none => none
  | some (pool, sprite) =>
    some (pool, { sprite := sprite, x := x, y := y, border := 40, frame := frame, move := 0,
                  counter := 0, animation_delay := 8, animation_state := 0, facing := 0,
                  health := 3, invincible := 0 })

/-- The function `bullet_init`; it assigns every field of the bullet. -/
def bullet_init (pool : Pool) : Option (Pool × Bullet) :=
  let x : Int := 0
  let y : Int := 0
  match sprite_init pool x y .SIZE_8_8 0 0 90 1 with
  | none => none
  | some (pool, sprite) =>
    some (pool, { sprite := sprite, x := x, y := y, dx := 0, dy := 0, transparent := 1 })

/-- The function `slime_init`; it assigns every field of the slime. -/
def slime_init (pool : Pool) (id delay : Int) : Option (Pool × Slime) :=
  let x : Int := 240
  let y : Int := 240
  let frame : Int := 64
  match sprite_init pool x y .SIZE_16_16 0 0 frame 2 with
  | none => none
  | some (pool, sprite) =>
    some (pool, { sprite := sprite, x := x, y := y, health := 1, frame := frame,
                  animation_delay := 8, animation_state := 0, wait := 6, dead := 0,
                  delay := delay, id := id })

/-! ## Tile lookup -/

/-- The loop `while (x >= tilemap_w) { x -= tilemap_w; }`, with at most `fuel` loop tests. -/
def wrap_high : Nat → Int → Int → Option Int
  | 0, _, _ => none
  | fuel + 1, x, tilemap_w => if x ≥ tilemap_w then wrap_high fuel (x - tilemap_w) tilemap_w
      else some x

/-- The loop `while (x < 0) { x += tilemap_w; }`, with at most `fuel` loop tests. -/
def wrap_low : Nat → Int → Int → Option Int
  | 0, _, _ => none
  | fuel + 1, x, tilemap_w => if x < 0 then wrap_low fuel (x + tilemap_w) tilemap_w
      else some x

/-- The flat index `index + offset` that `tile_lookup` reads in `tilemap`. -/
def tile_index (fuel : Nat) (x y xscroll yscroll tilemap_w tilemap_h : Int) : Option Int :=
  let x := x + xscroll
  let y := y + yscroll
  let x := Int.shiftRight x 3
  let y := Int.shiftRight y 3
  match wrap_high fuel x tilemap_w with
  | none => none
  | some x =>
  match wrap_high fuel y tilemap_h with
  | none => none
  | some y =>
  match wrap_low fuel x tilemap_w with
  | none => none
  | some x =>
  match wrap_low fuel y tilemap_h with
  | none => none
  | some y =>
  let offset : Int := 0
  let xo : Int × Int := if tilemap_w = 64 ∧ x ≥ 32 then (x - 32, offset + 0x400) else (x, offset)
  let x := xo.1
  let offset := xo.2
  let yo : Int × Int :=
    if tilemap_h = 64 ∧ y ≥ 32 then
      (y - 32, if tilemap_w = 64 then offset + 0x800 else offset + 0x400)
    else (y, offset)
  let y := yo.1
  let offset := yo.2
  let index := y * 32 + x
  some (index + offset)

/-- The function `tile_lookup`: the entry `tilemap[index + offset]`. -/
def tile_lookup (fuel : Nat) (x y xscroll yscroll : Int) (tilemap : List Nat)
    (tilemap_w tilemap_h : Int) : Option Nat :=
  match tile_index fuel x y xscroll yscroll tilemap_w tilemap_h with
  | none => none
  | some i => if 0 ≤ i then tilemap[i.toNat]? else none

/-- What the source takes from outside: the tile map of `ForestBackground.h` with its
dimensions, and the difficulty curve `calc_wave`. -/
structure Env where
  ForestBackground : List Nat
  ForestBackground_width : Int
  ForestBackground_height : Int
  calc_wave : Int → Int → Int

/-- A tile lookup in `ForestBackground`, as every movement probe does it. -/
def forest_lookup (fuel : Nat) (env : Env) (x y xscroll yscroll : Int) : Option Nat :=
  tile_lookup fuel x y xscroll yscroll env.ForestBackground env.ForestBackground_width
    env.ForestBackground_height

/-- The test `tile == 1 || tile == 2 || tile == 5 || tile == 6` of the movement probes. -/
def blocking (tile : Nat) : Bool :=
  tile == 1 || tile == 2 || tile == 5 || tile == 6

/-! ## Player movement -/

/-- The function `player_left`; the result is the return value, the sprite table and the
player. -/
def player_left (fuel : Nat) (env : Env) (pool : Pool) (player : Player)
    (xscroll yscroll : Int) : Option (Int × Pool × Player) :=
  let pool := sprite_set_horizontal_flip pool player.sprite 1
  let player := { player with move := 1 }
  let player := { player with facing := 1 }
  match forest_lookup fuel env player.x (player.y + 1) xscroll yscroll with
  | none => none
  | some tile =>
  if blocking tile then some (0, pool, player) else
  match forest_lookup fuel env player.x (player.y + 15) xscroll yscroll with
  | none => none
  | some tile2 =>
  if blocking tile2 then some (0, pool, player) else
  if player.x < player.border then some (1, pool, player)
  else some (0, pool, { player with x := player.x - 1 })

/-- The function `player_right`. -/
def player_right (fuel : Nat) (env : Env) (pool : Pool) (player : Player)
    (xscroll yscroll : Int) : Option (Int × Pool × Player) :=
  let pool := sprite_set_horizontal_flip pool player.sprite 0
  let player := { player with move := 1 }
  let player := { player with facing := 2 }
  match forest_lookup fuel env (player.x + 16) (player.y + 1) xscroll yscroll with
  | none => none
  | some tile =>
  if blocking tile then some (0, pool, player) else
  match forest_lookup fuel env (player.x + 16) (player.y + 15) xscroll yscroll with
  | none => none
  | some tile2 =>
  if blocking tile2 then some (0, pool, player) else
  if player.x > SCREEN_WIDTH - 16 - player.border then some (1, pool, player)
  else some (0, pool, { player with x := player.x + 1 })

/-- The function `player_up`. -/
def player_up (fuel : Nat) (env : Env) (pool : Pool) (player : Player)
    (xscroll yscroll : Int) : Option (Int × Pool × Player) :=
  let pool := sprite_set_horizontal_flip pool player.sprite 0
  let player := { player with move := 2 }
  let player := { player with facing := 3 }
  match forest_lookup fuel env (player.x + 1) player.y xscroll yscroll with
  | none => none
  | some tile =>
  if blocking tile then some (0, pool, player) else
  match forest_lookup fuel env (player.x + 15) player.y xscroll yscroll with
  | none => none
  | some tile2 =>
  if blocking tile2 then some (0, pool, player) else
  if player.y < player.border then some (1, pool, player)
  else some (0, pool, { player with y := player.y - 1 })

/-- The function `player_down`. -/
def player_down (fuel : Nat) (env : Env) (pool : Pool) (player : Player)
    (xscroll yscroll : Int) : Option (Int × Pool × Player) :=
  let pool := sprite_set_horizontal_flip pool player.sprite 0
  let player := { player with move := 3 }
  let player := { player with facing := 0 }
  match forest_lookup fuel env (player.x + 1) (player.y + 16) xscroll yscroll with
  | none => none
  | some tile =>
  if blocking tile then some (0, pool, player) else
  match forest_lookup fuel env (player.x + 15) (player.y + 16) xscroll yscroll with
  | none => none
  | some tile2 =>
  if blocking tile2 then some (0, pool, player) else
  if player.y > SCREEN_HEIGHT - 16 - player.border then some (1, pool, player)
  else some (0, pool, { player with y := player.y + 1 })

/-- The function `player_stop`. -/
def player_stop (pool : Pool) (player : Player) : Pool × Player :=
  let player := { player with move := 0 }
  let player := if player.facing = 0 then { player with frame := 0 } else player
  let player :=
    if player.facing = 1 ∨ player.facing = 2 then { player with frame := 24 } else player
  let player := if player.facing = 3 then { player with frame := 40 } else player
  let player := { player with counter := 7 }
  (sprite_set_offset pool player.sprite player.frame, player)

/-- The function `shoot`. -/
def shoot (pool : Pool) (player : Player) (bullet : Bullet) : Pool × Bullet :=
  let bullet := { bullet with x := player.x + 8 }
  let bullet := { bullet with y := player.y + 8 }
  let bullet := if player.facing = 0 then { bullet with dy := 1 } else bullet
  let bullet := if player.facing = 1 then { bullet with dx := -1 } else bullet
  let bullet := if player.facing = 2 then { bullet with dx := 1 } else bullet
  let bullet := if player.facing = 3 then { bullet with dy := -1 } else bullet
  let pool := sprite_set_offset pool bullet.sprite 88
  (pool, { bullet with transparent := 0 })

/-! ## Slimes, bullets and collisions -/

/-- One movement attempt of `slime_move`: the two tile probes at `(x1, y1)` and `(x2, y2)`,
each followed by `return` on a blocking tile, then the step (`moved`) and, after the
`if` chain, `slime->wait = 6-wave`. -/
def slime_try (fuel : Nat) (env : Env) (x1 y1 x2 y2 xscroll yscroll wave : Int)
    (slime moved : Slime) : Option Slime :=
  match forest_lookup fuel env x1 y1 xscroll yscroll with
  | none => none
  | some tile =>
  if blocking tile then some slime else
  match forest_lookup fuel env x2 y2 xscroll yscroll with
  | none => none
  | some tile2 =>
  if blocking tile2 then some slime else
  some { moved with wait := 6 - wave }

/-- The function `slime_move`. -/
def slime_move (fuel : Nat) (env : Env) (slime : Slime) (player : Player)
    (xscroll yscroll wave : Int) : Option Slime :=
  if slime.wait > 0 then some { slime with wait := slime.wait - 1 } else
  if player.x > slime.x then
    if player.y > slime.y ∧ player.y - slime.y > player.x - slime.x then
      slime_try fuel env (slime.x + 1) (slime.y + 16) (player.x + 15) (player.y + 16)
        xscroll yscroll wave slime { slime with y := slime.y + 1 }
    else if player.y < slime.y ∧ slime.y - player.y > player.x - slime.x then
      slime_try fuel env (slime.x + 1) slime.y (player.x + 15) player.y
        xscroll yscroll wave slime { slime with y := slime.y - 1 }
    else
      slime_try fuel env (slime.x + 16) (slime.y + 1) (player.x + 16) (player.y + 15)
        xscroll yscroll wave slime { slime with x := slime.x + 1 }
  else if player.x < slime.x then
    if player.y > slime.y ∧ player.y - slime.y > slime.x - player.x then
      slime_try fuel env (slime.x + 1) (slime.y + 16) (player.x + 15) (player.y + 16)
        xscroll yscroll wave slime { slime with y := slime.y + 1 }
    else if player.y < slime.y ∧ slime.y - player.y > slime.x - player.x then
      slime_try fuel env (slime.x + 1) slime.y (player.x + 15) player.y
        xscroll yscroll wave slime { slime with y := slime.y - 1 }
    else
      slime_try fuel env slime.x (slime.y + 1) player.x (player.y + 15)
        xscroll yscroll wave slime { slime with x := slime.x - 1 }
  else
    if player.y < slime.y then
      slime_try fuel env (slime.x + 1) slime.y (player.x + 15) player.y
        xscroll yscroll wave slime { slime with y := slime.y - 1 }
    else
      slime_try fuel env (slime.x + 1) (slime.y + 16) (player.x + 15) (player.y + 16)
        xscroll yscroll wave slime { slime with y := slime.y + 1 }

/-- The function `bullet_check` (its `int` result is never set nor used). -/
def bullet_check (pool : Pool) (bullet : Bullet) (slime : Slime) : Pool × Bullet × Slime :=
  if bullet.x + 4 > slime.x ∧ bullet.x + 4 < slime.x + 16 ∧ bullet.y + 4 > slime.y ∧
      bullet.y + 4 < slime.y + 16 ∧ slime.dead = 0 then
    let bullet := { bullet with x := 0, y := 0, dx := 0, dy := 0, transparent := 1 }
    let pool := sprite_set_offset pool bullet.sprite 90
    let slime := { slime with x := 240, y := 240, dead := 1 }
    (pool, bullet, slime)
  else (pool, bullet, slime)

/-- One of the three blocks of `player_update`: the walk cycle for movement mode `mode`,
with animation frames `frame_a` and `frame_b`. -/
def player_animate (pool : Pool) (player : Player) (mode frame_a frame_b : Int) :
    Pool × Player :=
  if player.move = mode then
    let player := { player with counter := player.counter + 1 }
    if player.counter ≥ player.animation_delay then
      let player :=
        if player.animation_state = 0 then { player with frame := frame_a, animation_state := 1 }
        else { player with frame := frame_b, animation_state := 0 }
      let pool := sprite_set_offset pool player.sprite player.frame
      (pool, { player with counter := 0 })
    else (pool, player)
  else (pool, player)

/-- The function `player_update`. -/
def player_update (pool : Pool) (player : Player) (_xscroll : Int) : Pool × Player :=
  let r := player_animate pool player 1 24 32
  let r := player_animate r.1 r.2 2 48 56
  let r := player_animate r.1 r.2 3 8 16
  (sprite_position r.1 r.2.sprite r.2.x r.2.y, r.2)

/-- The function `update_bullet`. -/
def update_bullet (pool : Pool) (bullet : Bullet) : Pool × Bullet :=
  if bullet.transparent = 0 then
    let bullet := { bullet with x := bullet.x + bullet.dx }
    let bullet := { bullet with y := bullet.y + bullet.dy }
    let r : Pool × Bullet :=
      if bullet.x > SCREEN_WIDTH ∨ bullet.y > SCREEN_HEIGHT ∨ bullet.x < 0 ∨ bullet.y < 0 then
        let bullet := { bullet with x := 0, y := 0, dx := 0, dy := 0, transparent := 1 }
        (sprite_set_offset pool bullet.sprite 90, bullet)
      else (pool, bullet)
    (sprite_position r.1 r.2.sprite r.2.x r.2.y, r.2)
  else (pool, bullet)

/-- One `if (slime->id == id)` block of `update_slime`: teleport to the spawn point. -/
def slime_spawn (r : Pool × Slime) (id x y : Int) : Pool × Slime :=
  if r.2.id = id then
    (sprite_position r.1 r.2.sprite x y, { r.2 with x := x, y := y })
  else r

/-- The function `update_slime`. -/
def update_slime (pool : Pool) (slime : Slime) : Pool × Slime :=
  let slime := if slime.dead = 1 then { slime with delay := 500, dead := 0 } else slime
  if slime.delay = 0 then
    let r := slime_spawn (pool, slime) 1 120 0
    let r := slime_spawn r 2 120 144
    let r := slime_spawn r 3 16 80
    let r := slime_spawn r 4 224 80
    (r.1, { r.2 with delay := -1 })
  else if slime.delay < 0 then
    (sprite_position pool slime.sprite slime.x slime.y, slime)
  else
    (sprite_position pool slime.sprite 240 240, { slime with delay := slime.delay - 1 })

/-- The function `collision_check`. Its two inner statements, `player->health ==
player->health-1;` and `player->invincible == 30;`, are comparisons whose values are
discarded: they change nothing. -/
def collision_check (player : Player) (slime : Slime) : Player × Slime :=
  if (player.x ≥ slime.x ∧ player.x < slime.x + 16 ∧ player.y ≥ slime.y ∧
        player.y < slime.y + 16) ∨
     (player.x + 16 ≥ slime.x ∧ player.x + 16 < slime.x + 16 ∧ player.y ≥ slime.y ∧
        player.y < slime.y + 16) ∨
     (player.x ≥ slime.x ∧ player.x < slime.x + 16 ∧ player.y + 16 ≥ slime.y ∧
        player.y + 16 < slime.y + 16) ∨
     (player.x + 16 ≥ slime.x ∧ player.x + 16 < slime.x + 16 ∧ player.y + 16 ≥ slime.y ∧
        player.y + 16 < slime.y + 16) then
    if player.invincible = 0 then
      let _c1 : Bool := decide (player.health = player.health - 1)
      let _c2 : Bool := decide (player.invincible = 30)
      (player, slime)
    else (player, slime)
  else (player, slime)

/-! ## The main loop -/

/-- The values read from the volatile button register at the polls of one pass of the
main loop: `button_pressed(BUTTON_RIGHT)`, `(BUTTON_LEFT)`, `(BUTTON_UP)`, `(BUTTON_DOWN)`
and `(BUTTON_A)`. -/
structure Input where
  poll_right : Nat
  poll_left : Nat
  poll_up : Nat
  poll_down : Nat
  poll_a : Nat
deriving DecidableEq

/-- The state of the program: the sprite globals and the local variables of `main`. -/
structure Game where
  pool : Pool
  player : Player
  bullet1 : Bullet
  bullet2 : Bullet
  bullet3 : Bullet
  slime1 : Slime
  slime2 : Slime
  slime3 : Slime
  slime4 : Slime
  bullet_delay : Int
  xscroll : Int
  yscroll : Int
  kills : Int
  wave : Int
deriving DecidableEq

/-- The sprite globals when `main` starts: zero-initialised. -/
def pool_zero : Pool :=
  { sprites := Mathlib.Vector.replicate 128
      { attribute0 := 0, attribute1 := 0, attribute2 := 0, attribute3 := 0 },
    next_sprite_index := 0 }

/-- The start of `main` up to the loop: `sprite_clear()`, the eight `*_init` calls and the
initial values of the other local variables. -/
def game_start : Option Game :=
  let pool := sprite_clear pool_zero
  match player_init pool with
  | none => none
  | some (pool, player) =>
  match bullet_init pool with
  | none => none
  | some (pool, bullet1) =>
  match bullet_init pool with
  | none => none
  | some (pool, bullet2) =>
  match bullet_init pool with
  | none => none
  | some (pool, bullet3) =>
  match slime_init pool 1 100 with
  | none => none
  | some (pool, slime1) =>
  match slime_init pool 2 400 with
  | none => none
  | some (pool, slime2) =>
  match slime_init pool 3 800 with
  | none => none
  | some (pool, slime3) =>
  match slime_init pool 4 1000 with
  | none => none
  | some (pool, slime4) =>
  some { pool := pool, player := player, bullet1 := bullet1, bullet2 := bullet2,
         bullet3 := bullet3, slime1 := slime1, slime2 := slime2, slime3 := slime3,
         slime4 := slime4, bullet_delay := 0, xscroll := 0, yscroll := 0, kills := 0,
         wave := 0 }

/-- The sprite updates at the top of the loop: `player_update`, three `update_bullet`,
four `update_slime`. -/
def update_step (g : Game) : Game :=
  let p := player_update g.pool g.player g.xscroll
  let b1 := update_bullet p.1 g.bullet1
  let b2 := update_bullet b1.1 g.bullet2
  let b3 := update_bullet b2.1 g.bullet3
  let s1 := update_slime b3.1 g.slime1
  let s2 := update_slime s1.1 g.slime2
  let s3 := update_slime s2.1 g.slime3
  let s4 := update_slime s3.1 g.slime4
  { g with pool := s4.1, player := p.2, bullet1 := b1.2, bullet2 := b2.2, bullet3 := b3.2,
           slime1 := s1.2, slime2 := s2.2, slime3 := s3.2, slime4 := s4.2 }

/-- The four statements `slime1.x--; slime2.x--; slime3.x--; slime4.x--;` of a scroll
(`d = -1`), or the same with `++` (`d = 1`). -/
def shift_slimes_x (g : Game) (d : Int) : Game :=
  { g with slime1 := { g.slime1 with x := g.slime1.x + d },
           slime2 := { g.slime2 with x := g.slime2.x + d },
           slime3 := { g.slime3 with x := g.slime3.x + d },
           slime4 := { g.slime4 with x := g.slime4.x + d } }

/-- The four statements `slime1.y--; slime2.y--; slime3.y--; slime4.y--;` of a scroll
(`d = -1`), or the same with `++` (`d = 1`). -/
def shift_slimes_y (g : Game) (d : Int) : Game :=
  { g with slime1 := { g.slime1 with y := g.slime1.y + d },
           slime2 := { g.slime2 with y := g.slime2.y + d },
           slime3 := { g.slime3 with y := g.slime3.y + d },
           slime4 := { g.slime4 with y := g.slime4.y + d } }

/-- The arrow-key block of the loop: the first pressed of right, left, up, down moves the
player or, when the move returns non-zero, scrolls; with none pressed the player stops. -/
def move_step (fuel : Nat) (env : Env) (input : Input) (g : Game) : Option Game :=
  if button_pressed input.poll_right BUTTON_RIGHT ≠ 0 then
    match player_right fuel env g.pool g.player g.xscroll g.yscroll with
    | none => none
    | some r =>
      let g := { g with pool := r.2.1, player := r.2.2 }
      if r.1 ≠ 0 then some (shift_slimes_x { g with xscroll := g.xscroll + 1 } (-1))
      else some g
  else if button_pressed input.poll_left BUTTON_LEFT ≠ 0 then
    match player_left fuel env g.pool g.player g.xscroll g.yscroll with
    | none => none
    | some r =>
      let g := { g with pool := r.2.1, player := r.2.2 }
      if r.1 ≠ 0 then some (shift_slimes_x { g with xscroll := g.xscroll - 1 } 1)
      else some g
  else if button_pressed input.poll_up BUTTON_UP ≠ 0 then
    match player_up fuel env g.pool g.player g.xscroll g.yscroll with
    | none => none
    | some r =>
      let g := { g with pool := r.2.1, player := r.2.2 }
      if r.1 ≠ 0 then some (shift_slimes_y { g with yscroll := g.yscroll - 1 } 1)
      else some g
  else if button_pressed input.poll_down BUTTON_DOWN ≠ 0 then
    match player_down fuel env g.pool g.player g.xscroll g.yscroll with
    | none => none
    | some r =>
      let g := { g with pool := r.2.1, player := r.2.2 }
      if r.1 ≠ 0 then some (shift_slimes_y { g with yscroll := g.yscroll + 1 } (-1))
      else some g
  else
    let r := player_stop g.pool g.player
    some { g with pool := r.1, player := r.2 }

/-- The firing block of the loop. The flag tells whether `shoot` was called. -/
def fire_block (input : Input) (g : Game) : Game × Bool :=
  if button_pressed input.poll_a BUTTON_A ≠ 0 ∧ g.bullet_delay = 0 then
    let r : Game × Bool :=
      if g.bullet1.transparent = 1 then
        let b := shoot g.pool g.player g.bullet1
        ({ g with pool := b.1, bullet1 := b.2 }, true)
      else if g.bullet2.transparent = 1 then
        let b := shoot g.pool g.player g.bullet2
        ({ g with pool := b.1, bullet2 := b.2 }, true)
      else if g.bullet3.transparent = 1 then
        let b := shoot g.pool g.player g.bullet3
        ({ g with pool := b.1, bullet3 := b.2 }, true)
      else (g, false)
    ({ r.1 with bullet_delay := 20 }, r.2)
  else (g, false)

/-- The firing block of the loop, as a state change. -/
def fire_step (input : Input) (g : Game) : Game := (fire_block input g).1

/-- One gate `if (slime.dead==0 && slime.delay < 0) slime_move(...)` of the loop. -/
def slime_gate (fuel : Nat) (env : Env) (g : Game) (slime : Slime) : Option Slime :=
  if slime.dead = 0 ∧ slime.delay < 0 then
    slime_move fuel env slime g.player g.xscroll g.yscroll g.wave
  else some slime

/-- The four gated `slime_move` calls of the loop. -/
def slime_step (fuel : Nat) (env : Env) (g : Game) : Option Game :=
  match slime_gate fuel env g g.slime1 with
  | none => none
  | some s1 =>
  match slime_gate fuel env g g.slime2 with
  | none => none
  | some s2 =>
  match slime_gate fuel env g g.slime3 with
  | none => none
  | some s3 =>
  match slime_gate fuel env g g.slime4 with
  | none => none
  | some s4 => some { g with slime1 := s1, slime2 := s2, slime3 := s3, slime4 := s4 }

/-- The three `bullet_check` calls of the loop for one slime: bullet1, bullet2, bullet3. -/
def bullet_check3 (r : Pool × (Bullet × Bullet × Bullet)) (slime : Slime) :
    (Pool × (Bullet × Bullet × Bullet)) × Slime :=
  let c1 := bullet_check r.1 r.2.1 slime
  let c2 := bullet_check c1.1 r.2.2.1 c1.2.2
  let c3 := bullet_check c2.1 r.2.2.2 c2.2.2
  ((c3.1, (c1.2.1, c2.2.1, c3.2.1)), c3.2.2)

/-- The twelve `bullet_check` calls of the loop: slime1 to slime4 in turn. -/
def bullet_check_step (g : Game) : Game :=
  let r1 := bullet_check3 (g.pool, (g.bullet1, g.bullet2, g.bullet3)) g.slime1
  let r2 := bullet_check3 r1.1 g.slime2
  let r3 := bullet_check3 r2.1 g.slime3
  let r4 := bullet_check3 r3.1 g.slime4
  { g with pool := r4.1.1, bullet1 := r4.1.2.1, bullet2 := r4.1.2.2.1, bullet3 := r4.1.2.2.2,
           slime1 := r1.2, slime2 := r2.2, slime3 := r3.2, slime4 := r4.2 }

/-- The kill counting of the loop: each `if (slime.dead=1) { kills++; }` assigns 1 to
`dead`, and the value of the assignment, 1, makes the test succeed. Each `kills++` stores
`kills + 1` in the 32-bit `int`. -/
def kill_step (g : Game) : Game :=
  let g := { g with slime1 := { g.slime1 with dead := 1 } }
  let g := if (1 : Int) ≠ 0 then { g with kills := wrap_int (g.kills + 1) } else g
  let g := { g with slime2 := { g.slime2 with dead := 1 } }
  let g := if (1 : Int) ≠ 0 then { g with kills := wrap_int (g.kills + 1) } else g
  let g := { g with slime3 := { g.slime3 with dead := 1 } }
  let g := if (1 : Int) ≠ 0 then { g with kills := wrap_int (g.kills + 1) } else g
  let g := { g with slime4 := { g.slime4 with dead := 1 } }
  let g := if (1 : Int) ≠ 0 then { g with kills := wrap_int (g.kills + 1) } else g
  g

/-- The statement `if (bullet_delay != 0) { bullet_delay = bullet_delay-1; }`. -/
def cooldown_step (g : Game) : Game :=
  if g.bullet_delay ≠ 0 then { g with bullet_delay := g.bullet_delay - 1 } else g

/-- The statement `wave = calc_wave(kills, wave);`. -/
def wave_step (env : Env) (g : Game) : Game :=
  { g with wave := env.calc_wave g.kills g.wave }

/-- The four `collision_check` calls and `player.invincible = player.invincible-1;`, a
store in the 32-bit `int`. -/
def collision_step (g : Game) : Game :=
  let c1 := collision_check g.player g.slime1
  let c2 := collision_check c1.1 g.slime2
  let c3 := collision_check c2.1 g.slime3
  let c4 := collision_check c3.1 g.slime4
  let player := c4.1
  { g with player := { player with invincible := wrap_int (player.invincible - 1) },
           slime1 := c1.2, slime2 := c2.2, slime3 := c3.2, slime4 := c4.2 }

/-- The reset block `if (player.health==0) { ... }` of the loop. -/
def reset_step (g : Game) : Option Game :=
  if g.player.health = 0 then
    let pool := sprite_clear g.pool
    match player_init pool with
    | none => none
    | some (pool, player) =>
    match bullet_init pool with
    | none => none
    | some (pool, bullet1) =>
    match bullet_init pool with
    | none => none
    | some (pool, bullet2) =>
    match bullet_init pool with
    | none => none
    | some (pool, bullet3) =>
    match slime_init pool 1 100 with
    | none => none
    | some (pool, slime1) =>
    match slime_init pool 1 400 with
    | none => none
    | some (pool, slime2) =>
    match slime_init pool 1 800 with
    | none => none
    | some (pool, slime3) =>
    match slime_init pool 1 1000 with
    | none => none
    | some (pool, slime4) =>
    some { g with pool := pool, player := player, bullet1 := bullet1, bullet2 := bullet2,
                  bullet3 := bullet3, slime1 := slime1, slime2 := slime2, slime3 := slime3,
                  slime4 := slime4, kills := 0, wave := 0 }
  else some g

/-- The part of one pass of the loop before the firing block. -/
def before_fire (fuel : Nat) (env : Env) (input : Input) (g : Game) : Option Game :=
  move_step fuel env input (update_step g)

/-- The part of one pass of the loop after the firing block. -/
def after_fire (fuel : Nat) (env : Env) (g : Game) : Option Game :=
  match slime_step fuel env g with
  | none => none
  | some g => reset_step (collision_step (wave_step env (cooldown_step (kill_step
      (bullet_check_step g)))))

/-- One pass of the `while (1)` loop of `main`: one tick. -/
def tick (fuel : Nat) (env : Env) (input : Input) (g : Game) : Option Game :=
  match before_fire fuel env input g with
  | none => none
  | some g => after_fire fuel env (fire_step input g)

/-- Whether the tick that starts in `g` calls `shoot`. -/
def tick_shoots (fuel : Nat) (env : Env) (input : Input) (g : Game) : Option Bool :=
  match before_fire fuel env input g with
  | none => none
  | some g => some (fire_block input g).2

/-- The state after `n` ticks from `g`, tick `i` reading the buttons `inputs i`. -/
def run (fuel : Nat) (env : Env) (inputs : Nat → Input) : Nat → Game → Option Game
  | 0, g => some g
  | n + 1, g =>
    match run fuel env inputs n g with
    | none => none
    | some g1 => tick fuel env (inputs n) g1

/-! ## Definitions used by the statements -/

/-- The flat index of the looked-up tile as the specification describes it: tile
coordinates by floor division by 8, reduced modulo the map size, plus the offset of the
32x32 quadrant block. -/
def spec_tile_index (x y xscroll yscroll tilemap_w tilemap_h : Int) : Int :=
  let tx := ((x + xscroll) / 8) % tilemap_w
  let ty := ((y + yscroll) / 8) % tilemap_h
  let off : Int :=
    (if tilemap_w = 64 ∧ tx ≥ 32 then 0x400 else 0) +
    (if tilemap_h = 64 ∧ ty ≥ 32 then (if tilemap_w = 64 then 0x800 else 0x400) else 0)
  off + (ty % 32) * 32 + tx % 32

/-- A number of loop tests that lets the four wrap loops of `tile_lookup` finish. -/
def tile_fuel (x y xscroll yscroll : Int) : Nat :=
  (Int.shiftRight (x + xscroll) 3).natAbs + (Int.shiftRight (y + yscroll) 3).natAbs + 1

/-- The blocking tile set `{1, 2, 5, 6}` of the specification. -/
def blocking_set : Finset Nat := {1, 2, 5, 6}

/-- A designed tile map: 32 or 64 tiles on each axis and `width * height` entries. -/
def map_ok (env : Env) : Prop :=
  (env.ForestBackground_width = 32 ∨ env.ForestBackground_width = 64) ∧
  (env.ForestBackground_height = 32 ∨ env.ForestBackground_height = 64) ∧
  env.ForestBackground.length = (env.ForestBackground_width * env.ForestBackground_height).toNat

/-- The bullet `b` as `shoot` leaves it for `player`: active, at the centre of the player,
with the unit velocity of the facing (0 down, 1 left, 2 right, 3 up). -/
def fired_from (player : Player) (b : Bullet) : Prop :=
  b.transparent = 0 ∧ b.x = player.x + 8 ∧ b.y = player.y + 8 ∧
  (player.facing = 0 → b.dx = 0 ∧ b.dy = 1) ∧
  (player.facing = 1 → b.dx = -1 ∧ b.dy = 0) ∧
  (player.facing = 2 → b.dx = 1 ∧ b.dy = 0) ∧
  (player.facing = 3 → b.dx = 0 ∧ b.dy = -1)

/-- The player `q` has the position, border and health of the player `p`. -/
def same_place (p q : Player) : Prop :=
  q.x = p.x ∧ q.y = p.y ∧ q.border = p.border ∧ q.health = p.health

/-- The slime is not about to become active: it is flagged dead (the next `update_slime`
re-arms its countdown) or its countdown has at least two ticks left. -/
def slime_waiting (s : Slime) : Prop := s.dead = 1 ∨ 2 ≤ s.delay

/-- The gate `slime.dead==0 && slime.delay < 0` of the main loop is closed for the slime. -/
def gate_closed (s : Slime) : Prop := ¬ (s.dead = 0 ∧ s.delay < 0)

/-- The buttons of a tick that moves left: right is read as not pressed, left as pressed. -/
def holds_left (input : Input) : Prop :=
  button_pressed input.poll_right BUTTON_RIGHT = 0 ∧
  button_pressed input.poll_left BUTTON_LEFT ≠ 0

instance (env : Env) : Decidable (map_ok env) := by
  unfold map_ok
  exact inferInstance

instance (player : Player) (b : Bullet) : Decidable (fired_from player b) := by
  unfold fired_from
  exact inferInstance

instance (p q : Player) : Decidable (same_place p q) := by
  unfold same_place
  exact inferInstance

instance (s : Slime) : Decidable (slime_waiting s) := by
  unfold slime_waiting
  exact inferInstance

instance (s : Slime) : Decidable (gate_closed s) := by
  unfold gate_closed
  exact inferInstance

instance (input : Input) : Decidable (holds_left input) := by
  unfold holds_left
  exact inferInstance

/-- The y coordinate field of a sprite (attribute0 bits 0-7), as `sprite_move` reads it. -/
def sprite_y (s : Sprite) : Nat := s.attribute0 &&& 0xff

/-- The x coordinate field of a sprite (attribute1 bits 0-8), as `sprite_move` reads it. -/
def sprite_x (s : Sprite) : Nat := s.attribute1 &&& 0x1ff

/-- The tile offset field of a sprite (attribute2 bits 0-9), the field that
`sprite_set_offset` writes. -/
def sprite_tile (s : Sprite) : Nat := s.attribute2 &&& 0x03ff

/-- The four single-pixel steps that `slime_move` can attempt. -/
inductive SlimeStep where
  | down | up | right | left
deriving DecidableEq

/-- The branch that the `if` chain of `slime_move` takes (for a slime with `wait` not
positive): the step it attempts. -/
def slime_choice (slime : Slime) (player : Player) : SlimeStep :=
  if player.x > slime.x then
    if player.y > slime.y ∧ player.y - slime.y > player.x - slime.x then .down
    else if player.y < slime.y ∧ slime.y - player.y > player.x - slime.x then .up
    else .right
  else if player.x < slime.x then
    if player.y > slime.y ∧ player.y - slime.y > slime.x - player.x then .down
    else if player.y < slime.y ∧ slime.y - player.y > slime.x - player.x then .up
    else .left
  else
    if player.y < slime.y then .up else .down

/-- The point of the first tile probe of `slime_move` for a step: a corner of the slime. -/
def slime_probe1 : SlimeStep → Slime → Int × Int
  | .down, slime => (slime.x + 1, slime.y + 16)
  | .up, slime => (slime.x + 1, slime.y)
  | .right, slime => (slime.x + 16, slime.y + 1)
  | .left, slime => (slime.x, slime.y + 1)

/-- The point of the second tile probe of `slime_move` for a step: the source computes it
from `player->x` and `player->y`. -/
def slime_probe2 : SlimeStep → Player → Int × Int
  | .down, player => (player.x + 15, player.y + 16)
  | .up, player => (player.x + 15, player.y)
  | .right, player => (player.x + 16, player.y + 15)
  | .left, player => (player.x, player.y + 15)

/-- The second leading-edge corner of the slime itself for a step: the second probe offset
of the player move functions applied to the slime position. -/
def slime_corner2 : SlimeStep → Slime → Int × Int
  | .down, slime => (slime.x + 15, slime.y + 16)
  | .up, slime => (slime.x + 15, slime.y)
  | .right, slime => (slime.x + 16, slime.y + 15)
  | .left, slime => (slime.x, slime.y + 15)

/-- The slime after a step: `slime->y++`, `slime->y--`, `slime->x++` or `slime->x--`. -/
def slime_stepped : SlimeStep → Slime → Slime
  | .down, slime => { slime with y := slime.y + 1 }
  | .up, slime => { slime with y := slime.y - 1 }
  | .right, slime => { slime with x := slime.x + 1 }
  | .left, slime => { slime with x := slime.x - 1 }

/-- The slime after `n` successive `slime_move` calls (one per tick), call `i` seeing the
player `players i` and the scroll `(xscrolls i, yscrolls i)`. -/
def slime_calls (fuel : Nat) (env : Env) (players : Nat → Player) (xscrolls yscrolls : Nat → Int)
    (wave : Int) : Nat → Slime → Option Slime
  | 0, slime => some slime
  | n + 1, slime =>
    match slime_calls fuel env players xscrolls yscrolls wave n slime with
    | none => none
    | some s1 => slime_move fuel env s1 (players n) (xscrolls n) (yscrolls n) wave

/-- The slime after `n` successive `update_slime` calls (one per tick) and no other
change, call `i` finding the sprite table `pools i`. -/
def slime_updates (pools : Nat → Pool) : Nat → Slime → Slime
  | 0, slime => slime
  | n + 1, slime => (update_slime (pools n) (slime_updates pools n slime)).2

/-- The sprite of the slime right after the `update_slime` call number `n` (counted from
0) of `slime_updates`. -/
def slime_sprite_after (pools : Nat → Pool) (n : Nat) (slime : Slime) : Sprite :=
  (update_slime (pools n) (slime_updates pools n slime)).1.sprites.get slime.sprite

/-- The spawn point of a slime identity in `update_slime`. -/
def spawn_point (id : Int) : Int × Int :=
  if id = 1 then (120, 0) else if id = 2 then (120, 144) else if id = 3 then (16, 80)
  else (224, 80)

/-- The operations on one bullet: `shoot` for a player, `update_bullet`, and `bullet_check`
against a slime. -/
inductive BulletOp where
  | shoot (player : Player)
  | update
  | check (slime : Slime)

/-- One operation on a bullet and the sprite table. `shoot` is allowed only on an inactive
bullet (`transparent = 1`) and with a facing in 0..3, as the main loop calls it. -/
def bullet_op (r : Pool × Bullet) : BulletOp → Option (Pool × Bullet)
  | .shoot player =>
    if r.2.transparent = 1 ∧ (player.facing = 0 ∨ player.facing = 1 ∨ player.facing = 2 ∨
        player.facing = 3) then some (shoot r.1 player r.2)
    else none
  | .update => some (update_bullet r.1 r.2)
  | .check slime => some ((bullet_check r.1 r.2 slime).1, (bullet_check r.1 r.2 slime).2.1)

/-- A sequence of operations on a bullet. -/
def bullet_ops : List BulletOp → Pool × Bullet → Option (Pool × Bullet)
  | [], r => some r
  | op :: ops, r =>
    match bullet_op r op with
    | none => none
    | some r1 => bullet_ops ops r1

/-- The bullet invariant: the bullet is inactive or active; inactive, it has velocity (0, 0)
and its sprite has tile offset 90; active, exactly one of `dx`, `dy` is not zero and that
one is 1 or -1. -/
def bullet_inv (r : Pool × Bullet) : Prop :=
  (r.2.transparent = 1 ∨ r.2.transparent = 0) ∧
  (r.2.transparent = 1 →
    r.2.dx = 0 ∧ r.2.dy = 0 ∧ sprite_tile (r.1.sprites.get r.2.sprite) = 90) ∧
  (r.2.transparent = 0 →
    (r.2.dx = 0 ∧ (r.2.dy = 1 ∨ r.2.dy = -1)) ∨ (r.2.dy = 0 ∧ (r.2.dx = 1 ∨ r.2.dx = -1)))

instance (r : Pool × Bullet) : Decidable (bullet_inv r) := by
  unfold bullet_inv
  exact inferInstance

/-- A number of loop tests that lets every tile probe of the arrow-key block finish: the
probes are made at most 16 pixels right of and below the player. -/
def move_fuel (g : Game) : Nat :=
  (g.player.x + g.xscroll).natAbs + (g.player.y + g.yscroll).natAbs + 6

/-- From `g` to `g1` the scroll counters change by `(dx, dy)` and the coordinates of each
of the four slimes change by `(-dx, -dy)`. -/
def scrolled (g g1 : Game) (dx dy : Int) : Prop :=
  g1.xscroll = g.xscroll + dx ∧ g1.yscroll = g.yscroll + dy ∧
  g1.slime1.x = g.slime1.x - dx ∧ g1.slime2.x = g.slime2.x - dx ∧
  g1.slime3.x = g.slime3.x - dx ∧ g1.slime4.x = g.slime4.x - dx ∧
  g1.slime1.y = g.slime1.y - dy ∧ g1.slime2.y = g.slime2.y - dy ∧
  g1.slime3.y = g.slime3.y - dy ∧ g1.slime4.y = g.slime4.y - dy

instance (g g1 : Game) (dx dy : Int) : Decidable (scrolled g g1 dx dy) := by
  unfold scrolled
  exact inferInstance

/-- The state at the reset check `if (player.health==0)` of a tick, from the state `g` after
the gated `slime_move` calls: after the bullet checks, the kill counting, the cooldown, the
wave update and the collision checks. -/
def at_reset_check (env : Env) (g : Game) : Game :=
  collision_step (wave_step env (cooldown_step (kill_step (bullet_check_step g))))

/-- The call `update_slime(&slime)` on the sprite table `pool` parks the slime: it puts the
sprite at (240, 240), does not move the slime (no teleport to a spawn point) and leaves a
positive countdown `delay`. -/
def slime_parks (pool : Pool) (s : Slime) : Prop :=
  (update_slime pool s).1 = sprite_position pool s.sprite 240 240 ∧
  (update_slime pool s).2.x = s.x ∧ (update_slime pool s).2.y = s.y ∧
  0 < (update_slime pool s).2.delay

instance (pool : Pool) (s : Slime) : Decidable (slime_parks pool s) := by
  unfold slime_parks
  exact inferInstance

/-- The Manhattan distance `|player.x - slime.x| + |player.y - slime.y|` between a slime
and the player. -/
def manhattan (slime : Slime) (player : Player) : Nat :=
  (player.x - slime.x).natAbs + (player.y - slime.y).natAbs

/-- The overlap condition of `collision_check`: one of the four corner tests of its `if`. -/
def overlap (player : Player) (slime : Slime) : Prop :=
  (player.x ≥ slime.x ∧ player.x < slime.x + 16 ∧ player.y ≥ slime.y ∧
    player.y < slime.y + 16) ∨
  (player.x + 16 ≥ slime.x ∧ player.x + 16 < slime.x + 16 ∧ player.y ≥ slime.y ∧
    player.y < slime.y + 16) ∨
  (player.x ≥ slime.x ∧ player.x < slime.x + 16 ∧ player.y + 16 ≥ slime.y ∧
    player.y + 16 < slime.y + 16) ∨
  (player.x + 16 ≥ slime.x ∧ player.x + 16 < slime.x + 16 ∧ player.y + 16 ≥ slime.y ∧
    player.y + 16 < slime.y + 16)

instance (player : Player) (slime : Slime) : Decidable (overlap player slime) := by
  unfold overlap
  exact inferInstance

/-- The state in which the four `collision_check` calls of a tick run, from the state `g`
after the gated `slime_move` calls: after the bullet checks, the kill counting, the
cooldown and the wave update. -/
def at_collision_check (env : Env) (g : Game) : Game :=
  wave_step env (cooldown_step (kill_step (bullet_check_step g)))

/-! ## Concrete inputs -/

/-- A 32x32 tile map filled with tile 0 (no blocking tile), with an identity wave curve. -/
def open_env : Env :=
  { ForestBackground := List.replicate 1024 0, ForestBackground_width := 32,
    ForestBackground_height := 32, calc_wave := fun _ wave => wave }

/-- A 32x32 tile map filled with the blocking tile 1, with an identity wave curve. -/
def walled_env : Env :=
  { ForestBackground := List.replicate 1024 1, ForestBackground_width := 32,
    ForestBackground_height := 32, calc_wave := fun _ wave => wave }

/-- A player with the field values of `player_init`, at position `(x, y)`. -/
def player_at (x y : Int) : Player :=
  { sprite := 0, x := x, y := y, frame := 0, animation_delay := 8, animation_state := 0,
    counter := 0, move := 0, facing := 0, border := 40, health := 3, invincible := 0 }

/-- A bullet in flight to the right at `(x, y)` (`transparent = 0`). -/
def bullet_flying (sprite : Fin 128) (x y : Int) : Bullet :=
  { sprite := sprite, x := x, y := y, dx := 1, dy := 0, transparent := 0 }

/-- A bullet with the field values of `bullet_init` (`transparent = 1`). -/
def bullet_idle (sprite : Fin 128) : Bullet :=
  { sprite := sprite, x := 0, y := 0, dx := 0, dy := 0, transparent := 1 }

/-- A slime with the field values of `slime_init`. -/
def slime_new (sprite : Fin 128) (id delay : Int) : Slime :=
  { sprite := sprite, x := 240, y := 240, health := 1, frame := 64, animation_delay := 8,
    animation_state := 0, wait := 6, dead := 0, delay := delay, id := id }

/-- A game state with the player at (100, 113), the three given bullets, four new slimes,
no cooldown and no scroll. -/
def game_with (bullet1 bullet2 bullet3 : Bullet) : Game :=
  { pool := pool_zero, player := player_at 100 113, bullet1 := bullet1, bullet2 := bullet2,
    bullet3 := bullet3, slime1 := slime_new 4 1 100, slime2 := slime_new 5 2 400,
    slime3 := slime_new 6 3 800, slime4 := slime_new 7 4 1000, bullet_delay := 0,
    xscroll := 0, yscroll := 0, kills := 0, wave := 0 }

/-- A game state with the player at `(x, y)`, three idle bullets, four new slimes, no
cooldown and no scroll. -/
def game_at (x y : Int) : Game :=
  { game_with (bullet_idle 1) (bullet_idle 2) (bullet_idle 3) with player := player_at x y }

/-- Button register value (active low) with only A held, at every poll. -/
def input_fire : Input :=
  { poll_right := 0x3ff, poll_left := 0x3ff, poll_up := 0x3ff, poll_down := 0x3ff,
    poll_a := 0x3fe }

/-- Button register value (active low) with only left held, at its poll. -/
def input_left : Input :=
  { poll_right := 0x3ff, poll_left := 0x3df, poll_up := 0x3ff, poll_down := 0x3ff,
    poll_a := 0x3ff }

/-- A 32x32 tile map with the blocking tile 1 at tile (1, 2), entry 65, and tile 0
elsewhere, with an identity wave curve. -/
def post_env : Env :=
  { ForestBackground := (List.range 1024).map (fun i => if i = 65 then 1 else 0),
    ForestBackground_width := 32, ForestBackground_height := 32,
    calc_wave := fun _ wave => wave }

/-- An active slime (`dead = 0`, `delay = -1`, identity 1) at `(x, y)` with move cooldown
`wait`. -/
def slime_at (x y wait : Int) : Slime :=
  { sprite := 4, x := x, y := y, health := 1, frame := 64, animation_delay := 8,
    animation_state := 0, wait := wait, dead := 0, delay := -1, id := 1 }

/-- A slime just flagged dead, parked at (240, 240), with identity `id`. -/
def slime_dead (id : Int) : Slime :=
  { sprite := 4, x := 240, y := 240, health := 1, frame := 64, animation_delay := 8,
    animation_state := 0, wait := 6, dead := 1, delay := -1, id := id }

/-- A game state in which the active slime1 sits on the player, at (100, 113); its move
cooldown `wait` is 6. -/
def game_overlap : Game :=
  { game_at 100 113 with slime1 := slime_at 100 113 6 }

/-- The start state of `main` with the health of the player set to 0, and the sprite table
still zero-initialised. -/
def game_dying : Game :=
  { game_at 100 113 with player := { player_at 100 113 with health := 0 } }

/-- Button register value (active low) with no button held, at every poll. -/
def input_none : Input :=
  { poll_right := 0x3ff, poll_left := 0x3ff, poll_up := 0x3ff, poll_down := 0x3ff,
    poll_a := 0x3ff }

/-- The game state `game_at 100 113` with the kill counter at `kills`. -/
def game_kills (kills : Int) : Game :=
  { game_at 100 113 with kills := kills }

/-! ## Tile lookup: the wrap loops -/

theorem wrap_high_eq (tilemap_w : Int) (hw : 0 < tilemap_w) :
    ∀ (fuel : Nat) (x : Int), x.toNat < fuel →
      wrap_high fuel x tilemap_w = some (if x < tilemap_w then x else x % tilemap_w) := by
  intro fuel
  induction fuel with
  | zero => intro x hx; omega
  | succ n ih =>
    intro x hx
    unfold wrap_high
    by_cases hge : x ≥ tilemap_w
    · have hlt : ¬ x < tilemap_w := by omega
      rw [if_pos hge, ih (x - tilemap_w) (by omega), if_neg hlt]
      have hmod : (x - tilemap_w) % tilemap_w = x % tilemap_w := by
        rw [Int.sub_emod, Int.emod_self, sub_zero, Int.emod_emod_of_dvd _ dvd_rfl]
      by_cases h2 : x - tilemap_w < tilemap_w
      · rw [if_pos h2, ← hmod, Int.emod_eq_of_lt (by omega) h2]
      · rw [if_neg h2, hmod]
    · have hlt : x < tilemap_w := by omega
      rw [if_neg hge, if_pos hlt]

theorem wrap_low_eq (tilemap_w : Int) (hw : 0 < tilemap_w) :
    ∀ (fuel : Nat) (x : Int), (-x).toNat < fuel →
      wrap_low fuel x tilemap_w = some (if x < 0 then x % tilemap_w else x) := by
  intro fuel
  induction fuel with
  | zero => intro x hx; omega
  | succ n ih =>
    intro x hx
    unfold wrap_low
    by_cases hneg : x < 0
    · rw [if_pos hneg, ih (x + tilemap_w) (by omega), if_pos hneg]
      have hmod : (x + tilemap_w) % tilemap_w = x % tilemap_w := Int.add_emod_self
      by_cases h2 : x + tilemap_w < 0
      · rw [if_pos h2, hmod]
      · rw [if_neg h2, ← hmod, Int.emod_eq_of_lt (by omega) (by omega)]
    · rw [if_neg hneg, if_neg hneg]

/-- Both wrap loops of one axis, with enough fuel, reduce the tile coordinate modulo the
map size. -/
theorem wrap_both_eq (tilemap_w : Int) (hw : 0 < tilemap_w) (fuel : Nat) (x : Int)
    (hx : x.natAbs < fuel) :
    ∃ x1, wrap_high fuel x tilemap_w = some x1 ∧ (-x1).toNat < fuel ∧
      wrap_low fuel x1 tilemap_w = some (x % tilemap_w) := by
  refine ⟨_, wrap_high_eq tilemap_w hw fuel x (by omega), ?_, ?_⟩
  · have := Int.emod_nonneg x (ne_of_gt hw)
    split <;> omega
  · have h0 := Int.emod_nonneg x (ne_of_gt hw)
    by_cases hlt : x < tilemap_w
    · rw [if_pos hlt, wrap_low_eq tilemap_w hw fuel x (by omega)]
      by_cases hneg : x < 0
      · rw [if_pos hneg]
      · rw [if_neg hneg, Int.emod_eq_of_lt (by omega) hlt]
    · rw [if_neg hlt, wrap_low_eq tilemap_w hw fuel _ (by omega), if_neg (by omega)]

theorem shiftRight_three (x : Int) : Int.shiftRight x 3 = x / 8 := by
  have h := Int.shiftRight_eq_div_pow x 3
  simpa using h

theorem tile_index_eq (fuel : Nat) (x y xscroll yscroll tilemap_w tilemap_h : Int)
    (hw : tilemap_w = 32 ∨ tilemap_w = 64) (hh : tilemap_h = 32 ∨ tilemap_h = 64)
    (hfuel : tile_fuel x y xscroll yscroll ≤ fuel) :
    tile_index fuel x y xscroll yscroll tilemap_w tilemap_h =
      some (spec_tile_index x y xscroll yscroll tilemap_w tilemap_h) := by
  unfold tile_fuel at hfuel
  have hwpos : 0 < tilemap_w := by omega
  have hhpos : 0 < tilemap_h := by omega
  obtain ⟨x1, hx1, hx1f, hx2⟩ :=
    wrap_both_eq tilemap_w hwpos fuel (Int.shiftRight (x + xscroll) 3) (by omega)
  obtain ⟨y1, hy1, hy1f, hy2⟩ :=
    wrap_both_eq tilemap_h hhpos fuel (Int.shiftRight (y + yscroll) 3) (by omega)
  rw [shiftRight_three] at hx1 hx2 hy1 hy2
  unfold tile_index
  simp only [shiftRight_three, hx1, hy1, hx2, hy2, spec_tile_index]
  clear hfuel hx1 hx1f hx2 hy1 hy1f hy2
  have hxm := Int.emod_nonneg ((x + xscroll) / 8) (ne_of_gt hwpos)
  have hxl := Int.emod_lt_of_pos ((x + xscroll) / 8) hwpos
  have hym := Int.emod_nonneg ((y + yscroll) / 8) (ne_of_gt hhpos)
  have hyl := Int.emod_lt_of_pos ((y + yscroll) / 8) hhpos
  generalize ((x + xscroll) / 8) % tilemap_w = tx at *
  generalize ((y + yscroll) / 8) % tilemap_h = ty at *
  rcases hw with rfl | rfl <;> rcases hh with rfl | rfl
  · simp
    omega
  · simp
    split <;> simp <;> omega
  · simp
    split <;> simp <;> omega
  · simp
    split <;> split <;> simp <;> omega

theorem spec_tile_index_range (x y xscroll yscroll tilemap_w tilemap_h : Int)
    (hw : tilemap_w = 32 ∨ tilemap_w = 64) (hh : tilemap_h = 32 ∨ tilemap_h = 64) :
    0 ≤ spec_tile_index x y xscroll yscroll tilemap_w tilemap_h ∧
      spec_tile_index x y xscroll yscroll tilemap_w tilemap_h < tilemap_w * tilemap_h := by
  unfold spec_tile_index
  rcases hw with rfl | rfl <;> rcases hh with rfl | rfl <;> simp only [] <;>
    constructor <;> split_ifs <;> omega

theorem tile_lookup_eq (fuel : Nat) (tilemap : List Nat)
    (x y xscroll yscroll tilemap_w tilemap_h : Int)
    (hw : tilemap_w = 32 ∨ tilemap_w = 64) (hh : tilemap_h = 32 ∨ tilemap_h = 64)
    (hfuel : tile_fuel x y xscroll yscroll ≤ fuel) :
    tile_lookup fuel x y xscroll yscroll tilemap tilemap_w tilemap_h =
      tilemap[(spec_tile_index x y xscroll yscroll tilemap_w tilemap_h).toNat]? := by
  unfold tile_lookup
  rw [tile_index_eq fuel x y xscroll yscroll tilemap_w tilemap_h hw hh hfuel]
  simp only []
  rw [if_pos (spec_tile_index_range x y xscroll yscroll tilemap_w tilemap_h hw hh).1]

theorem tile_lookup_isSome (fuel : Nat) (tilemap : List Nat)
    (x y xscroll yscroll tilemap_w tilemap_h : Int)
    (hw : tilemap_w = 32 ∨ tilemap_w = 64) (hh : tilemap_h = 32 ∨ tilemap_h = 64)
    (hfuel : tile_fuel x y xscroll yscroll ≤ fuel)
    (hlen : tilemap.length = (tilemap_w * tilemap_h).toNat) :
    ∃ tile, tile ∈ tilemap ∧
      tile_lookup fuel x y xscroll yscroll tilemap tilemap_w tilemap_h = some tile := by
  rw [tile_lookup_eq fuel tilemap x y xscroll yscroll tilemap_w tilemap_h hw hh hfuel]
  have hr := spec_tile_index_range x y xscroll yscroll tilemap_w tilemap_h hw hh
  have hlt : (spec_tile_index x y xscroll yscroll tilemap_w tilemap_h).toNat < tilemap.length := by
    omega
  exact ⟨tilemap[(spec_tile_index x y xscroll yscroll tilemap_w tilemap_h).toNat],
    List.getElem_mem _, List.getElem?_eq_getElem hlt⟩

/-! ## Tile lookup: the claims -/

/-- C1: for map sizes 32 or 64 on each axis and enough loop fuel, `tile_lookup` returns the
entry of `tilemap` at the index `off + (ty mod 32) * 32 + (tx mod 32)` of the specification
(`spec_tile_index`: floor division by 8, non-negative remainders, quadrant offsets `0x400`
and `0x400`/`0x800`); the index is not negative, it is inside a tile map of
`tilemap_w * tilemap_h` entries, where the lookup returns a tile; and on a 64x64 map the tile
coordinate (33, 10) reads the entry at `0x400 + 10 * 32 + 1`. -/
theorem tile_lookup_spec (fuel : Nat) (tilemap : List Nat)
    (x y xscroll yscroll tilemap_w tilemap_h : Int)
    (hw : tilemap_w = 32 ∨ tilemap_w = 64) (hh : tilemap_h = 32 ∨ tilemap_h = 64)
    (hfuel : tile_fuel x y xscroll yscroll ≤ fuel) :
    0 ≤ spec_tile_index x y xscroll yscroll tilemap_w tilemap_h ∧
    tile_lookup fuel x y xscroll yscroll tilemap tilemap_w tilemap_h =
      tilemap[(spec_tile_index x y xscroll yscroll tilemap_w tilemap_h).toNat]? ∧
    (tilemap.length = (tilemap_w * tilemap_h).toNat →
      ∃ tile, tile_lookup fuel x y xscroll yscroll tilemap tilemap_w tilemap_h = some tile) ∧
    (tilemap_w = 64 → tilemap_h = 64 →
      ((x + xscroll) / 8) % 64 = 33 → ((y + yscroll) / 8) % 64 = 10 →
      tile_lookup fuel x y xscroll yscroll tilemap tilemap_w tilemap_h =
        tilemap[0x400 + 10 * 32 + 1]?) := by
  refine ⟨(spec_tile_index_range x y xscroll yscroll tilemap_w tilemap_h hw hh).1,
    tile_lookup_eq fuel tilemap x y xscroll yscroll tilemap_w tilemap_h hw hh hfuel, ?_, ?_⟩
  · intro hlen
    obtain ⟨tile, _, ht⟩ :=
      tile_lookup_isSome fuel tilemap x y xscroll yscroll tilemap_w tilemap_h hw hh hfuel hlen
    exact ⟨tile, ht⟩
  · intro hw64 hh64 hx hy
    rw [tile_lookup_eq fuel tilemap x y xscroll yscroll tilemap_w tilemap_h hw hh hfuel]
    subst hw64 hh64
    have hi : spec_tile_index x y xscroll yscroll 64 64 = 0x400 + 10 * 32 + 1 := by
      unfold spec_tile_index
      simp only [hx, hy]
      decide
    rw [hi]
    rfl

/-- C1, at a concrete input: on the 64x64 map whose entry `i` is `i`, the pixel (264, 80)
with scroll (4, 7), tile coordinate (33, 10), reads entry 1345. -/
theorem tile_lookup_spec_witness :
    tile_fuel 264 80 4 7 ≤ 50 ∧
    tile_lookup 50 264 80 4 7 (List.range 4096) 64 64 = some 1345 := by
  have h := tile_lookup_spec 50 (List.range 4096) 264 80 4 7 64 64 (by decide) (by decide)
    (by decide)
  refine ⟨by decide, ?_⟩
  rw [h.2.2.2 rfl rfl (by decide) (by decide)]
  simp [List.getElem?_range]

/-- C2: wraparound law. For map sizes 32 or 64 on each axis, every tile map and enough loop
fuel, `tile_lookup` gives the same result at `x + 8 * tilemap_w` as at `x`, and at
`y + 8 * tilemap_h` as at `y`; on a tile map of `tilemap_w * tilemap_h` entries that result
is a tile. -/
theorem tile_lookup_wraparound (fuel : Nat) (tilemap : List Nat)
    (x y xscroll yscroll tilemap_w tilemap_h : Int)
    (hw : tilemap_w = 32 ∨ tilemap_w = 64) (hh : tilemap_h = 32 ∨ tilemap_h = 64)
    (hfuel : tile_fuel x y xscroll yscroll ≤ fuel)
    (hfuelx : tile_fuel (x + 8 * tilemap_w) y xscroll yscroll ≤ fuel)
    (hfuely : tile_fuel x (y + 8 * tilemap_h) xscroll yscroll ≤ fuel) :
    tile_lookup fuel (x + 8 * tilemap_w) y xscroll yscroll tilemap tilemap_w tilemap_h =
      tile_lookup fuel x y xscroll yscroll tilemap tilemap_w tilemap_h ∧
    tile_lookup fuel x (y + 8 * tilemap_h) xscroll yscroll tilemap tilemap_w tilemap_h =
      tile_lookup fuel x y xscroll yscroll tilemap tilemap_w tilemap_h ∧
    (tilemap.length = (tilemap_w * tilemap_h).toNat →
      ∃ tile, tile_lookup fuel x y xscroll yscroll tilemap tilemap_w tilemap_h = some tile) := by
  have hx : spec_tile_index (x + 8 * tilemap_w) y xscroll yscroll tilemap_w tilemap_h =
      spec_tile_index x y xscroll yscroll tilemap_w tilemap_h := by
    unfold spec_tile_index
    have h1 : ∀ w : Int, (w = 32 ∨ w = 64) → ((x + 8 * w + xscroll) / 8) % w =
        ((x + xscroll) / 8) % w := by
      intro w hw1
      rcases hw1 with rfl | rfl <;> omega
    simp only [h1 tilemap_w hw]
  have hy : spec_tile_index x (y + 8 * tilemap_h) xscroll yscroll tilemap_w tilemap_h =
      spec_tile_index x y xscroll yscroll tilemap_w tilemap_h := by
    unfold spec_tile_index
    have h1 : ∀ w : Int, (w = 32 ∨ w = 64) → ((y + 8 * w + yscroll) / 8) % w =
        ((y + yscroll) / 8) % w := by
      intro w hw1
      rcases hw1 with rfl | rfl <;> omega
    simp only [h1 tilemap_h hh]
  refine ⟨?_, ?_, ?_⟩
  · rw [tile_lookup_eq fuel tilemap _ y xscroll yscroll tilemap_w tilemap_h hw hh hfuelx,
      tile_lookup_eq fuel tilemap x y xscroll yscroll tilemap_w tilemap_h hw hh hfuel, hx]
  · rw [tile_lookup_eq fuel tilemap x _ xscroll yscroll tilemap_w tilemap_h hw hh hfuely,
      tile_lookup_eq fuel tilemap x y xscroll yscroll tilemap_w tilemap_h hw hh hfuel, hy]
  · intro hlen
    obtain ⟨tile, _, ht⟩ :=
      tile_lookup_isSome fuel tilemap x y xscroll yscroll tilemap_w tilemap_h hw hh hfuel hlen
    exact ⟨tile, ht⟩

/-- C2, at a concrete input: a 32x64 map, the pixel (-5, 300) with scroll (3, -2). -/
theorem tile_lookup_wraparound_witness :
    tile_lookup 200 (-5 + 8 * 32) 300 3 (-2) (List.range 2048) 32 64 =
      tile_lookup 200 (-5) 300 3 (-2) (List.range 2048) 32 64 ∧
    tile_lookup 200 (-5) (300 + 8 * 64) 3 (-2) (List.range 2048) 32 64 =
      tile_lookup 200 (-5) 300 3 (-2) (List.range 2048) 32 64 ∧
    ∃ tile, tile_lookup 200 (-5) 300 3 (-2) (List.range 2048) 32 64 = some tile := by
  have h := tile_lookup_wraparound 200 (List.range 2048) (-5) 300 3 (-2) 32 64 (by decide)
    (by decide) (by decide) (by decide) (by decide)
  exact ⟨h.1, h.2.1, h.2.2 (by simp)⟩

/-- C3: for map sizes 32 or 64 on each axis and enough loop fuel (`tile_fuel`, which is
finite for every input), the four wrap loops of `tile_lookup` finish and the flat index
read, `index + offset`, is at least 0 and less than `tilemap_w * tilemap_h`; so the read
is inside every tile map of that many entries. -/
theorem tile_index_in_range (fuel : Nat) (x y xscroll yscroll tilemap_w tilemap_h : Int)
    (hw : tilemap_w = 32 ∨ tilemap_w = 64) (hh : tilemap_h = 32 ∨ tilemap_h = 64)
    (hfuel : tile_fuel x y xscroll yscroll ≤ fuel) :
    (∃ i, tile_index fuel x y xscroll yscroll tilemap_w tilemap_h = some i ∧
      0 ≤ i ∧ i < tilemap_w * tilemap_h) ∧
    ∀ tilemap : List Nat, tilemap.length = (tilemap_w * tilemap_h).toNat →
      ∃ tile, tile_lookup fuel x y xscroll yscroll tilemap tilemap_w tilemap_h = some tile := by
  have hr := spec_tile_index_range x y xscroll yscroll tilemap_w tilemap_h hw hh
  refine ⟨⟨_, tile_index_eq fuel x y xscroll yscroll tilemap_w tilemap_h hw hh hfuel,
    hr.1, hr.2⟩, ?_⟩
  intro tilemap hlen
  obtain ⟨tile, _, ht⟩ :=
    tile_lookup_isSome fuel tilemap x y xscroll yscroll tilemap_w tilemap_h hw hh hfuel hlen
  exact ⟨tile, ht⟩

/-- C3, at a concrete input: a 64x32 map, the pixel (-1000, 5000) with scroll (-7, 9);
the index read is 578. -/
theorem tile_index_in_range_witness :
    tile_fuel (-1000) 5000 (-7) 9 ≤ 800 ∧
    tile_index 800 (-1000) 5000 (-7) 9 64 32 = some 578 ∧
    ∃ i, tile_index 800 (-1000) 5000 (-7) 9 64 32 = some i ∧ 0 ≤ i ∧ i < 64 * 32 :=
  ⟨by decide, by decide,
    (tile_index_in_range 800 (-1000) 5000 (-7) 9 64 32 (by decide) (by decide) (by decide)).1⟩

/-! ## Player movement: the claims -/

theorem forest_lookup_mem (fuel : Nat) (env : Env) (hmap : map_ok env)
    (x y xscroll yscroll : Int) (hfuel : tile_fuel x y xscroll yscroll ≤ fuel) :
    ∃ tile, tile ∈ env.ForestBackground ∧
      forest_lookup fuel env x y xscroll yscroll = some tile :=
  tile_lookup_isSome fuel env.ForestBackground x y xscroll yscroll env.ForestBackground_width
    env.ForestBackground_height hmap.1 hmap.2.1 hfuel hmap.2.2

theorem open_env_ok : map_ok open_env := by
  refine ⟨Or.inl rfl, Or.inl rfl, ?_⟩
  exact List.length_replicate 1024 0

theorem walled_env_ok : map_ok walled_env := by
  refine ⟨Or.inl rfl, Or.inl rfl, ?_⟩
  exact List.length_replicate 1024 1

theorem open_env_lookup (fuel : Nat) (x y xscroll yscroll : Int)
    (hfuel : tile_fuel x y xscroll yscroll ≤ fuel) :
    forest_lookup fuel open_env x y xscroll yscroll = some 0 := by
  obtain ⟨tile, hmem, h⟩ := forest_lookup_mem fuel open_env open_env_ok x y xscroll yscroll hfuel
  rw [h, List.eq_of_mem_replicate hmem]

theorem walled_env_lookup (fuel : Nat) (x y xscroll yscroll : Int)
    (hfuel : tile_fuel x y xscroll yscroll ≤ fuel) :
    forest_lookup fuel walled_env x y xscroll yscroll = some 1 := by
  obtain ⟨tile, hmem, h⟩ :=
    forest_lookup_mem fuel walled_env walled_env_ok x y xscroll yscroll hfuel
  rw [h, List.eq_of_mem_replicate hmem]

theorem blocking_iff (tile : Nat) : blocking tile = true ↔ tile ∈ blocking_set := by
  simp [blocking, blocking_set, or_assoc]

theorem not_blocking_iff (tile : Nat) : blocking tile = false ↔ tile ∉ blocking_set := by
  rw [← blocking_iff]
  simp

theorem player_left_eq (fuel : Nat) (env : Env) (pool : Pool) (player : Player)
    (xscroll yscroll : Int) (t1 t2 : Nat)
    (h1 : forest_lookup fuel env player.x (player.y + 1) xscroll yscroll = some t1)
    (h2 : forest_lookup fuel env player.x (player.y + 15) xscroll yscroll = some t2) :
    player_left fuel env pool player xscroll yscroll =
      some (if blocking t1 = true ∨ blocking t2 = true then
          (0, sprite_set_horizontal_flip pool player.sprite 1,
            { player with move := 1, facing := 1 })
        else if player.x < player.border then
          (1, sprite_set_horizontal_flip pool player.sprite 1,
            { player with move := 1, facing := 1 })
        else
          (0, sprite_set_horizontal_flip pool player.sprite 1,
            { player with move := 1, facing := 1, x := player.x - 1 })) := by
  unfold player_left
  simp only [h1, h2]
  by_cases hb1 : blocking t1 = true
  · simp [hb1]
  · by_cases hb2 : blocking t2 = true
    · simp [hb1, hb2]
    · by_cases hc : player.x < player.border
      · simp [hb1, hb2, hc]
      · simp [hb1, hb2, hc]

theorem player_right_eq (fuel : Nat) (env : Env) (pool : Pool) (player : Player)
    (xscroll yscroll : Int) (t1 t2 : Nat)
    (h1 : forest_lookup fuel env (player.x + 16) (player.y + 1) xscroll yscroll = some t1)
    (h2 : forest_lookup fuel env (player.x + 16) (player.y + 15) xscroll yscroll = some t2) :
    player_right fuel env pool player xscroll yscroll =
      some (if blocking t1 = true ∨ blocking t2 = true then
          (0, sprite_set_horizontal_flip pool player.sprite 0,
            { player with move := 1, facing := 2 })
        else if player.x > SCREEN_WIDTH - 16 - player.border then
          (1, sprite_set_horizontal_flip pool player.sprite 0,
            { player with move := 1, facing := 2 })
        else
          (0, sprite_set_horizontal_flip pool player.sprite 0,
            { player with move := 1, facing := 2, x := player.x + 1 })) := by
  unfold player_right
  simp only [h1, h2]
  by_cases hb1 : blocking t1 = true
  · simp [hb1]
  · by_cases hb2 : blocking t2 = true
    · simp [hb1, hb2]
    · by_cases hc : player.x > SCREEN_WIDTH - 16 - player.border
      · simp [hb1, hb2, hc]
      · simp [hb1, hb2, hc]

theorem player_up_eq (fuel : Nat) (env : Env) (pool : Pool) (player : Player)
    (xscroll yscroll : Int) (t1 t2 : Nat)
    (h1 : forest_lookup fuel env (player.x + 1) player.y xscroll yscroll = some t1)
    (h2 : forest_lookup fuel env (player.x + 15) player.y xscroll yscroll = some t2) :
    player_up fuel env pool player xscroll yscroll =
      some (if blocking t1 = true ∨ blocking t2 = true then
          (0, sprite_set_horizontal_flip pool player.sprite 0,
            { player with move := 2, facing := 3 })
        else if player.y < player.border then
          (1, sprite_set_horizontal_flip pool player.sprite 0,
            { player with move := 2, facing := 3 })
        else
          (0, sprite_set_horizontal_flip pool player.sprite 0,
            { player with move := 2, facing := 3, y := player.y - 1 })) := by
  unfold player_up
  simp only [h1, h2]
  by_cases hb1 : blocking t1 = true
  · simp [hb1]
  · by_cases hb2 : blocking t2 = true
    · simp [hb1, hb2]
    · by_cases hc : player.y < player.border
      · simp [hb1, hb2, hc]
      · simp [hb1, hb2, hc]

theorem player_down_eq (fuel : Nat) (env : Env) (pool : Pool) (player : Player)
    (xscroll yscroll : Int) (t1 t2 : Nat)
    (h1 : forest_lookup fuel env (player.x + 1) (player.y + 16) xscroll yscroll = some t1)
    (h2 : forest_lookup fuel env (player.x + 15) (player.y + 16) xscroll yscroll = some t2) :
    player_down fuel env pool player xscroll yscroll =
      some (if blocking t1 = true ∨ blocking t2 = true then
          (0, sprite_set_horizontal_flip pool player.sprite 0,
            { player with move := 3, facing := 0 })
        else if player.y > SCREEN_HEIGHT - 16 - player.border then
          (1, sprite_set_horizontal_flip pool player.sprite 0,
            { player with move := 3, facing := 0 })
        else
          (0, sprite_set_horizontal_flip pool player.sprite 0,
            { player with move := 3, facing := 0, y := player.y + 1 })) := by
  unfold player_down
  simp only [h1, h2]
  by_cases hb1 : blocking t1 = true
  · simp [hb1]
  · by_cases hb2 : blocking t2 = true
    · simp [hb1, hb2]
    · by_cases hc : player.y > SCREEN_HEIGHT - 16 - player.border
      · simp [hb1, hb2, hc]
      · simp [hb1, hb2, hc]

theorem player_right_blocked_first (fuel : Nat) (env : Env) (pool : Pool) (player : Player)
    (xscroll yscroll : Int) (t1 : Nat)
    (h1 : forest_lookup fuel env (player.x + 16) (player.y + 1) xscroll yscroll = some t1)
    (hb : blocking t1 = true) :
    player_right fuel env pool player xscroll yscroll =
      some (0, sprite_set_horizontal_flip pool player.sprite 0,
        { player with move := 1, facing := 2 }) := by
  unfold player_right
  simp only [h1]
  simp [hb]

/-- C4: for each of `player_left`, `player_right`, `player_up` and `player_down`, every
player, sprite table and scroll offset: when the two tiles probed along the movement
direction are `t1` and `t2` and one of them is in the blocking set `{1, 2, 5, 6}`, the call
returns 0 and the player keeps its `x` and `y`. Instance: `player_right` with a blocking tile
at `(x + 16, y + 1)` keeps `x`. -/
theorem blocked_move_keeps_position (fuel : Nat) (env : Env) (pool : Pool) (player : Player)
    (xscroll yscroll : Int) :
    (∀ t1 t2, forest_lookup fuel env player.x (player.y + 1) xscroll yscroll = some t1 →
      forest_lookup fuel env player.x (player.y + 15) xscroll yscroll = some t2 →
      t1 ∈ blocking_set ∨ t2 ∈ blocking_set →
      ∃ pool1 player1, player_left fuel env pool player xscroll yscroll =
        some (0, pool1, player1) ∧ player1.x = player.x ∧ player1.y = player.y) ∧
    (∀ t1 t2, forest_lookup fuel env (player.x + 16) (player.y + 1) xscroll yscroll = some t1 →
      forest_lookup fuel env (player.x + 16) (player.y + 15) xscroll yscroll = some t2 →
      t1 ∈ blocking_set ∨ t2 ∈ blocking_set →
      ∃ pool1 player1, player_right fuel env pool player xscroll yscroll =
        some (0, pool1, player1) ∧ player1.x = player.x ∧ player1.y = player.y) ∧
    (∀ t1 t2, forest_lookup fuel env (player.x + 1) player.y xscroll yscroll = some t1 →
      forest_lookup fuel env (player.x + 15) player.y xscroll yscroll = some t2 →
      t1 ∈ blocking_set ∨ t2 ∈ blocking_set →
      ∃ pool1 player1, player_up fuel env pool player xscroll yscroll =
        some (0, pool1, player1) ∧ player1.x = player.x ∧ player1.y = player.y) ∧
    (∀ t1 t2, forest_lookup fuel env (player.x + 1) (player.y + 16) xscroll yscroll = some t1 →
      forest_lookup fuel env (player.x + 15) (player.y + 16) xscroll yscroll = some t2 →
      t1 ∈ blocking_set ∨ t2 ∈ blocking_set →
      ∃ pool1 player1, player_down fuel env pool player xscroll yscroll =
        some (0, pool1, player1) ∧ player1.x = player.x ∧ player1.y = player.y) ∧
    (∀ t1, forest_lookup fuel env (player.x + 16) (player.y + 1) xscroll yscroll = some t1 →
      t1 ∈ blocking_set →
      ∃ pool1 player1, player_right fuel env pool player xscroll yscroll =
        some (0, pool1, player1) ∧ player1.x = player.x) := by
  refine ⟨?_, ?_, ?_, ?_, ?_⟩
  · intro t1 t2 h1 h2 hb
    rw [player_left_eq fuel env pool player xscroll yscroll t1 t2 h1 h2,
      if_pos (by simpa only [blocking_iff] using hb)]
    exact ⟨_, _, rfl, rfl, rfl⟩
  · intro t1 t2 h1 h2 hb
    rw [player_right_eq fuel env pool player xscroll yscroll t1 t2 h1 h2,
      if_pos (by simpa only [blocking_iff] using hb)]
    exact ⟨_, _, rfl, rfl, rfl⟩
  · intro t1 t2 h1 h2 hb
    rw [player_up_eq fuel env pool player xscroll yscroll t1 t2 h1 h2,
      if_pos (by simpa only [blocking_iff] using hb)]
    exact ⟨_, _, rfl, rfl, rfl⟩
  · intro t1 t2 h1 h2 hb
    rw [player_down_eq fuel env pool player xscroll yscroll t1 t2 h1 h2,
      if_pos (by simpa only [blocking_iff] using hb)]
    exact ⟨_, _, rfl, rfl, rfl⟩
  · intro t1 h1 hb
    rw [player_right_blocked_first fuel env pool player xscroll yscroll t1 h1
      ((blocking_iff t1).2 hb)]
    exact ⟨_, _, rfl, rfl⟩

/-- C4, at a concrete input: on a map of blocking tiles, `player_right` from (0, 0) returns 0
and the player stays at `x = 0`. -/
theorem blocked_move_keeps_position_witness :
    forest_lookup 5 walled_env (0 + 16) (0 + 1) 0 0 = some 1 ∧ 1 ∈ blocking_set ∧
    ∃ pool1 player1, player_right 5 walled_env pool_zero (player_at 0 0) 0 0 =
      some (0, pool1, player1) ∧ player1.x = 0 :=
  ⟨walled_env_lookup 5 _ _ 0 0 (by decide), by decide,
    (blocked_move_keeps_position 5 walled_env pool_zero (player_at 0 0) 0 0).2.2.2.2 1
      (walled_env_lookup 5 _ _ 0 0 (by decide)) (by decide)⟩

/-- C5: for each of `player_left`, `player_right`, `player_up` and `player_down`, when the
two probed tiles `t1` and `t2` are both outside the blocking set, the call returns `r` with
exactly one of two outcomes (they differ in `r`): either `r = 1` (scroll signal) and the
player keeps `x` and `y`, or `r = 0` and the coordinate on the movement axis changes by
exactly 1 in the direction of travel while the other one is unchanged. The scroll signal is
given exactly when the player is less than `border` pixels from the screen edge it moves
toward: `x < border` (left), `SCREEN_WIDTH - (x + 16) < border` (right), `y < border` (up),
`SCREEN_HEIGHT - (y + 16) < border` (down). -/
theorem free_move_scrolls_or_steps (fuel : Nat) (env : Env) (pool : Pool) (player : Player)
    (xscroll yscroll : Int) :
    (∀ t1 t2, forest_lookup fuel env player.x (player.y + 1) xscroll yscroll = some t1 →
      forest_lookup fuel env player.x (player.y + 15) xscroll yscroll = some t2 →
      t1 ∉ blocking_set → t2 ∉ blocking_set →
      ∃ r pool1 player1, player_left fuel env pool player xscroll yscroll =
        some (r, pool1, player1) ∧
        ((r = 1 ∧ player1.x = player.x ∧ player1.y = player.y ∧
            player.x < player.border) ∨
          (r = 0 ∧ player1.x = player.x - 1 ∧ player1.y = player.y ∧
            ¬ player.x < player.border))) ∧
    (∀ t1 t2, forest_lookup fuel env (player.x + 16) (player.y + 1) xscroll yscroll = some t1 →
      forest_lookup fuel env (player.x + 16) (player.y + 15) xscroll yscroll = some t2 →
      t1 ∉ blocking_set → t2 ∉ blocking_set →
      ∃ r pool1 player1, player_right fuel env pool player xscroll yscroll =
        some (r, pool1, player1) ∧
        ((r = 1 ∧ player1.x = player.x ∧ player1.y = player.y ∧
            SCREEN_WIDTH - (player.x + 16) < player.border) ∨
          (r = 0 ∧ player1.x = player.x + 1 ∧ player1.y = player.y ∧
            ¬ SCREEN_WIDTH - (player.x + 16) < player.border))) ∧
    (∀ t1 t2, forest_lookup fuel env (player.x + 1) player.y xscroll yscroll = some t1 →
      forest_lookup fuel env (player.x + 15) player.y xscroll yscroll = some t2 →
      t1 ∉ blocking_set → t2 ∉ blocking_set →
      ∃ r pool1 player1, player_up fuel env pool player xscroll yscroll =
        some (r, pool1, player1) ∧
        ((r = 1 ∧ player1.x = player.x ∧ player1.y = player.y ∧
            player.y < player.border) ∨
          (r = 0 ∧ player1.x = player.x ∧ player1.y = player.y - 1 ∧
            ¬ player.y < player.border))) ∧
    (∀ t1 t2, forest_lookup fuel env (player.x + 1) (player.y + 16) xscroll yscroll = some t1 →
      forest_lookup fuel env (player.x + 15) (player.y + 16) xscroll yscroll = some t2 →
      t1 ∉ blocking_set → t2 ∉ blocking_set →
      ∃ r pool1 player1, player_down fuel env pool player xscroll yscroll =
        some (r, pool1, player1) ∧
        ((r = 1 ∧ player1.x = player.x ∧ player1.y = player.y ∧
            SCREEN_HEIGHT - (player.y + 16) < player.border) ∨
          (r = 0 ∧ player1.x = player.x ∧ player1.y = player.y + 1 ∧
            ¬ SCREEN_HEIGHT - (player.y + 16) < player.border))) := by
  refine ⟨?_, ?_, ?_, ?_⟩
  · intro t1 t2 h1 h2 hb1 hb2
    have hnb : ¬ (blocking t1 = true ∨ blocking t2 = true) := by
      simp only [blocking_iff]
      tauto
    rw [player_left_eq fuel env pool player xscroll yscroll t1 t2 h1 h2, if_neg hnb]
    by_cases hc : player.x < player.border
    · rw [if_pos hc]
      refine ⟨_, _, _, rfl, Or.inl ⟨rfl, rfl, rfl, ?_⟩⟩
      simp only [SCREEN_WIDTH, SCREEN_HEIGHT] at *
      omega
    · rw [if_neg hc]
      refine ⟨_, _, _, rfl, Or.inr ⟨rfl, rfl, rfl, ?_⟩⟩
      simp only [SCREEN_WIDTH, SCREEN_HEIGHT] at *
      omega
  · intro t1 t2 h1 h2 hb1 hb2
    have hnb : ¬ (blocking t1 = true ∨ blocking t2 = true) := by
      simp only [blocking_iff]
      tauto
    rw [player_right_eq fuel env pool player xscroll yscroll t1 t2 h1 h2, if_neg hnb]
    by_cases hc : player.x > SCREEN_WIDTH - 16 - player.border
    · rw [if_pos hc]
      refine ⟨_, _, _, rfl, Or.inl ⟨rfl, rfl, rfl, ?_⟩⟩
      simp only [SCREEN_WIDTH, SCREEN_HEIGHT] at *
      omega
    · rw [if_neg hc]
      refine ⟨_, _, _, rfl, Or.inr ⟨rfl, rfl, rfl, ?_⟩⟩
      simp only [SCREEN_WIDTH, SCREEN_HEIGHT] at *
      omega
  · intro t1 t2 h1 h2 hb1 hb2
    have hnb : ¬ (blocking t1 = true ∨ blocking t2 = true) := by
      simp only [blocking_iff]
      tauto
    rw [player_up_eq fuel env pool player xscroll yscroll t1 t2 h1 h2, if_neg hnb]
    by_cases hc : player.y < player.border
    · rw [if_pos hc]
      refine ⟨_, _, _, rfl, Or.inl ⟨rfl, rfl, rfl, ?_⟩⟩
      simp only [SCREEN_WIDTH, SCREEN_HEIGHT] at *
      omega
    · rw [if_neg hc]
      refine ⟨_, _, _, rfl, Or.inr ⟨rfl, rfl, rfl, ?_⟩⟩
      simp only [SCREEN_WIDTH, SCREEN_HEIGHT] at *
      omega
  · intro t1 t2 h1 h2 hb1 hb2
    have hnb : ¬ (blocking t1 = true ∨ blocking t2 = true) := by
      simp only [blocking_iff]
      tauto
    rw [player_down_eq fuel env pool player xscroll yscroll t1 t2 h1 h2, if_neg hnb]
    by_cases hc : player.y > SCREEN_HEIGHT - 16 - player.border
    · rw [if_pos hc]
      refine ⟨_, _, _, rfl, Or.inl ⟨rfl, rfl, rfl, ?_⟩⟩
      simp only [SCREEN_WIDTH, SCREEN_HEIGHT] at *
      omega
    · rw [if_neg hc]
      refine ⟨_, _, _, rfl, Or.inr ⟨rfl, rfl, rfl, ?_⟩⟩
      simp only [SCREEN_WIDTH, SCREEN_HEIGHT] at *
      omega

/-- C5, at a concrete input: on a map without blocking tiles, `player_left` from (100, 113)
with border 40 returns 0 and moves the player to (99, 113). -/
theorem free_move_scrolls_or_steps_witness :
    forest_lookup 50 open_env 100 (113 + 1) 0 0 = some 0 ∧ 0 ∉ blocking_set ∧
    ∃ pool1 player1, player_left 50 open_env pool_zero (player_at 100 113) 0 0 =
      some (0, pool1, player1) ∧ player1.x = 99 ∧ player1.y = 113 := by
  have h0 : (0 : Nat) ∉ blocking_set := by decide
  obtain ⟨r, pool1, player1, h, hr⟩ :=
    (free_move_scrolls_or_steps 50 open_env pool_zero (player_at 100 113) 0 0).1 0 0
      (open_env_lookup 50 _ _ 0 0 (by decide)) (open_env_lookup 50 _ _ 0 0 (by decide)) h0 h0
  refine ⟨open_env_lookup 50 _ _ 0 0 (by decide), h0, pool1, player1, ?_⟩
  rcases hr with ⟨_, _, _, hlt⟩ | ⟨hr0, hx, hy, _⟩
  · exact absurd hlt (by decide)
  · subst hr0
    exact ⟨h, hx, hy⟩

/-! ## Firing: the claims -/

theorem shoot_fired_from (pool : Pool) (player : Player) (bullet : Bullet)
    (hdx : bullet.dx = 0) (hdy : bullet.dy = 0) :
    fired_from player (shoot pool player bullet).2 := by
  unfold fired_from shoot
  refine ⟨rfl, ?_, ?_, ?_, ?_, ?_, ?_⟩
  · simp only []
    split_ifs <;> rfl
  · simp only []
    split_ifs <;> rfl
  · intro h0
    have h1 : ¬ player.facing = 1 := by omega
    have h2 : ¬ player.facing = 2 := by omega
    have h3 : ¬ player.facing = 3 := by omega
    simp [h0, hdx]
  · intro h1
    have h0 : ¬ player.facing = 0 := by omega
    have h2 : ¬ player.facing = 2 := by omega
    have h3 : ¬ player.facing = 3 := by omega
    simp [h1, hdy]
  · intro h2
    have h0 : ¬ player.facing = 0 := by omega
    have h1 : ¬ player.facing = 1 := by omega
    have h3 : ¬ player.facing = 3 := by omega
    simp [h2, hdy]
  · intro h3
    have h0 : ¬ player.facing = 0 := by omega
    have h1 : ¬ player.facing = 1 := by omega
    have h2 : ¬ player.facing = 2 := by omega
    simp [h3, hdx]

/-- C8 fails as stated: with the fire button pressed, no cooldown and the three bullets
active, the firing block changes the state, it sets `bullet_delay` from 0 to 20. -/
theorem fire_all_active_changes_state :
    button_pressed input_fire.poll_a BUTTON_A ≠ 0 ∧
    (game_with (bullet_flying 1 50 50) (bullet_flying 2 60 50) (bullet_flying 3 70 50)).bullet_delay
      = 0 ∧
    (bullet_flying 1 50 50).transparent = 0 ∧ (bullet_flying 2 60 50).transparent = 0 ∧
    (bullet_flying 3 70 50).transparent = 0 ∧
    (fire_step input_fire
      (game_with (bullet_flying 1 50 50) (bullet_flying 2 60 50) (bullet_flying 3 70 50))).bullet_delay
      = 20 ∧
    fire_step input_fire
        (game_with (bullet_flying 1 50 50) (bullet_flying 2 60 50) (bullet_flying 3 70 50)) ≠
      game_with (bullet_flying 1 50 50) (bullet_flying 2 60 50) (bullet_flying 3 70 50) := by
  refine ⟨by decide, rfl, rfl, rfl, rfl, by decide, ?_⟩
  intro h
  have hd := congrArg Game.bullet_delay h
  revert hd
  decide

/-- C8, amended: with the fire button pressed, no cooldown and the three bullets active
(`transparent = 0`), the firing block calls no `shoot` and changes nothing but the cooldown:
the state after it is the state before with `bullet_delay` set to 20, so the sprite table,
the player, the three bullets, the slimes and the other variables are unchanged. -/
theorem fire_all_active (input : Input) (g : Game)
    (hpress : button_pressed input.poll_a BUTTON_A ≠ 0) (hdelay : g.bullet_delay = 0)
    (h1 : g.bullet1.transparent = 0) (h2 : g.bullet2.transparent = 0)
    (h3 : g.bullet3.transparent = 0) :
    fire_step input g = { g with bullet_delay := 20 } ∧ (fire_block input g).2 = false := by
  unfold fire_step fire_block
  simp [hpress, hdelay, h1, h2, h3]

/-- C8, amended, at a concrete input: three bullets in flight and the A button held. -/
theorem fire_all_active_witness :
    fire_step input_fire
        (game_with (bullet_flying 1 50 50) (bullet_flying 2 60 50) (bullet_flying 3 70 50)) =
      { game_with (bullet_flying 1 50 50) (bullet_flying 2 60 50) (bullet_flying 3 70 50) with
        bullet_delay := 20 } :=
  (fire_all_active input_fire
    (game_with (bullet_flying 1 50 50) (bullet_flying 2 60 50) (bullet_flying 3 70 50))
    (by decide) rfl rfl rfl rfl).1

theorem fire_block_first (input : Input) (g : Game)
    (hc : button_pressed input.poll_a BUTTON_A ≠ 0 ∧ g.bullet_delay = 0)
    (h1 : g.bullet1.transparent = 1) :
    fire_block input g =
      ({ g with pool := (shoot g.pool g.player g.bullet1).1,
                bullet1 := (shoot g.pool g.player g.bullet1).2, bullet_delay := 20 }, true) := by
  unfold fire_block
  rw [if_pos hc, if_pos h1]

theorem fire_block_second (input : Input) (g : Game)
    (hc : button_pressed input.poll_a BUTTON_A ≠ 0 ∧ g.bullet_delay = 0)
    (h1 : ¬ g.bullet1.transparent = 1) (h2 : g.bullet2.transparent = 1) :
    fire_block input g =
      ({ g with pool := (shoot g.pool g.player g.bullet2).1,
                bullet2 := (shoot g.pool g.player g.bullet2).2, bullet_delay := 20 }, true) := by
  unfold fire_block
  rw [if_pos hc, if_neg h1, if_pos h2]

theorem fire_block_third (input : Input) (g : Game)
    (hc : button_pressed input.poll_a BUTTON_A ≠ 0 ∧ g.bullet_delay = 0)
    (h1 : ¬ g.bullet1.transparent = 1) (h2 : ¬ g.bullet2.transparent = 1)
    (h3 : g.bullet3.transparent = 1) :
    fire_block input g =
      ({ g with pool := (shoot g.pool g.player g.bullet3).1,
                bullet3 := (shoot g.pool g.player g.bullet3).2, bullet_delay := 20 }, true) := by
  unfold fire_block
  rw [if_pos hc, if_neg h1, if_neg h2, if_pos h3]

/-- C9: with the fire button pressed, no cooldown, at least one bullet inactive
(`transparent = 1`) and every inactive bullet at velocity (0, 0), the firing block calls
`shoot` on exactly the first inactive bullet in the order bullet1, bullet2, bullet3: that
bullet becomes active at `(player.x + 8, player.y + 8)` with the unit velocity of the
facing ((0, 1) down, (-1, 0) left, (1, 0) right, (0, -1) up), and the other two bullets
and the player are unchanged. -/
theorem fire_first_inactive (input : Input) (g : Game)
    (hpress : button_pressed input.poll_a BUTTON_A ≠ 0) (hdelay : g.bullet_delay = 0)
    (hsome : g.bullet1.transparent = 1 ∨ g.bullet2.transparent = 1 ∨ g.bullet3.transparent = 1)
    (hvel : ∀ b : Bullet, b = g.bullet1 ∨ b = g.bullet2 ∨ b = g.bullet3 →
      b.transparent = 1 → b.dx = 0 ∧ b.dy = 0) :
    (fire_block input g).2 = true ∧
    (fire_step input g).player = g.player ∧
    (g.bullet1.transparent = 1 →
      fired_from g.player (fire_step input g).bullet1 ∧
      (fire_step input g).bullet2 = g.bullet2 ∧ (fire_step input g).bullet3 = g.bullet3) ∧
    (g.bullet1.transparent ≠ 1 → g.bullet2.transparent = 1 →
      fired_from g.player (fire_step input g).bullet2 ∧
      (fire_step input g).bullet1 = g.bullet1 ∧ (fire_step input g).bullet3 = g.bullet3) ∧
    (g.bullet1.transparent ≠ 1 → g.bullet2.transparent ≠ 1 → g.bullet3.transparent = 1 →
      fired_from g.player (fire_step input g).bullet3 ∧
      (fire_step input g).bullet1 = g.bullet1 ∧ (fire_step input g).bullet2 = g.bullet2) := by
  have hc : button_pressed input.poll_a BUTTON_A ≠ 0 ∧ g.bullet_delay = 0 := ⟨hpress, hdelay⟩
  unfold fire_step
  by_cases h1 : g.bullet1.transparent = 1
  · have hv := hvel g.bullet1 (Or.inl rfl) h1
    rw [fire_block_first input g hc h1]
    refine ⟨rfl, rfl,
      fun _ => ⟨shoot_fired_from g.pool g.player g.bullet1 hv.1 hv.2, rfl, rfl⟩, ?_, ?_⟩
    · intro hn
      exact absurd h1 hn
    · intro hn
      exact absurd h1 hn
  · by_cases h2 : g.bullet2.transparent = 1
    · have hv := hvel g.bullet2 (Or.inr (Or.inl rfl)) h2
      rw [fire_block_second input g hc h1 h2]
      refine ⟨rfl, rfl, fun h => absurd h h1,
        fun _ _ => ⟨shoot_fired_from g.pool g.player g.bullet2 hv.1 hv.2, rfl, rfl⟩, ?_⟩
      intro _ hn
      exact absurd h2 hn
    · have h3 : g.bullet3.transparent = 1 := by tauto
      have hv := hvel g.bullet3 (Or.inr (Or.inr rfl)) h3
      rw [fire_block_third input g hc h1 h2 h3]
      exact ⟨rfl, rfl, fun h => absurd h h1, fun _ h => absurd h h2,
        fun _ _ _ => ⟨shoot_fired_from g.pool g.player g.bullet3 hv.1 hv.2, rfl, rfl⟩⟩

/-- C9, at a concrete input: bullet1 in flight, bullet2 and bullet3 idle, the player at
(100, 113) facing down; bullet2 is fired from (108, 121) with velocity (0, 1). -/
theorem fire_first_inactive_witness :
    button_pressed input_fire.poll_a BUTTON_A ≠ 0 ∧
    (fire_step input_fire
      (game_with (bullet_flying 1 50 50) (bullet_idle 2) (bullet_idle 3))).bullet2 =
      { sprite := 2, x := 108, y := 121, dx := 0, dy := 1, transparent := 0 } ∧
    fired_from (player_at 100 113) (fire_step input_fire
      (game_with (bullet_flying 1 50 50) (bullet_idle 2) (bullet_idle 3))).bullet2 ∧
    (fire_step input_fire
      (game_with (bullet_flying 1 50 50) (bullet_idle 2) (bullet_idle 3))).bullet1 =
      bullet_flying 1 50 50 ∧
    (fire_step input_fire
      (game_with (bullet_flying 1 50 50) (bullet_idle 2) (bullet_idle 3))).bullet3 =
      bullet_idle 3 := by
  have h := (fire_first_inactive input_fire
    (game_with (bullet_flying 1 50 50) (bullet_idle 2) (bullet_idle 3)) (by decide) rfl
    (Or.inr (Or.inl rfl))
    (by
      intro b hb ht
      rcases hb with rfl | rfl | rfl
      · exact absurd ht (by decide)
      · exact ⟨rfl, rfl⟩
      · exact ⟨rfl, rfl⟩)).2.2.2.1 (by decide) rfl
  exact ⟨by decide, by decide, h.1, h.2.1, h.2.2⟩

/-! ## The firing cooldown along a run -/

theorem move_step_bullet_delay (fuel : Nat) (env : Env) (input : Input) (g g1 : Game)
    (h : move_step fuel env input g = some g1) : g1.bullet_delay = g.bullet_delay := by
  unfold move_step at h
  split_ifs at h
  all_goals first
    | (split at h
       · cases h
       · split_ifs at h <;> (cases h; rfl))
    | (cases h; rfl)

theorem slime_step_bullet_delay (fuel : Nat) (env : Env) (g g1 : Game)
    (h : slime_step fuel env g = some g1) : g1.bullet_delay = g.bullet_delay := by
  unfold slime_step at h
  repeat' split at h
  all_goals (cases h <;> rfl)

theorem reset_step_bullet_delay (g g1 : Game) (h : reset_step g = some g1) :
    g1.bullet_delay = g.bullet_delay := by
  unfold reset_step at h
  split_ifs at h
  · dsimp only at h
    repeat' split at h
    all_goals (cases h <;> rfl)
  · cases h
    rfl

theorem before_fire_bullet_delay (fuel : Nat) (env : Env) (input : Input) (g g1 : Game)
    (h : before_fire fuel env input g = some g1) : g1.bullet_delay = g.bullet_delay := by
  unfold before_fire at h
  rw [move_step_bullet_delay fuel env input _ g1 h]
  rfl

theorem after_fire_bullet_delay (fuel : Nat) (env : Env) (g g1 : Game)
    (h : after_fire fuel env g = some g1) :
    g1.bullet_delay = if g.bullet_delay ≠ 0 then g.bullet_delay - 1 else g.bullet_delay := by
  unfold after_fire at h
  split at h
  · cases h
  · rename_i g2 hs
    rw [reset_step_bullet_delay _ g1 h, ← slime_step_bullet_delay fuel env g g2 hs]
    show (cooldown_step (kill_step (bullet_check_step g2))).bullet_delay = _
    unfold cooldown_step
    have hk : (kill_step (bullet_check_step g2)).bullet_delay = g2.bullet_delay := rfl
    rw [hk]
    split_ifs <;> simp [hk]

theorem fire_block_shoots (input : Input) (g : Game) (h : (fire_block input g).2 = true) :
    (fire_block input g).1.bullet_delay = 20 := by
  unfold fire_block at h ⊢
  split_ifs at h ⊢ <;> rfl

theorem fire_block_cooling (input : Input) (g : Game) (h : g.bullet_delay ≠ 0) :
    fire_block input g = (g, false) := by
  unfold fire_block
  rw [if_neg (fun hc => h hc.2)]

/-- A tick that calls `shoot` ends with the cooldown at 19. -/
theorem tick_shoots_delay (fuel : Nat) (env : Env) (input : Input) (g g1 : Game)
    (ht : tick fuel env input g = some g1)
    (hs : tick_shoots fuel env input g = some true) : g1.bullet_delay = 19 := by
  unfold tick at ht
  unfold tick_shoots at hs
  split at ht
  · cases ht
  · rename_i g2 hb
    rw [hb] at hs
    injection hs with hs
    rw [after_fire_bullet_delay fuel env _ g1 ht]
    unfold fire_step
    rw [fire_block_shoots input g2 hs]
    decide

/-- A tick that starts with a non-zero cooldown calls no `shoot` and ends with the cooldown
one lower. -/
theorem tick_cooling (fuel : Nat) (env : Env) (input : Input) (g g1 : Game)
    (ht : tick fuel env input g = some g1) (hd : g.bullet_delay ≠ 0) :
    tick_shoots fuel env input g = some false ∧ g1.bullet_delay = g.bullet_delay - 1 := by
  unfold tick at ht
  unfold tick_shoots
  split at ht
  · cases ht
  · rename_i g2 hb
    have h2 : g2.bullet_delay ≠ 0 := by
      rw [before_fire_bullet_delay fuel env input g g2 hb]
      exact hd
    rw [fire_block_cooling input g2 h2]
    refine ⟨rfl, ?_⟩
    rw [after_fire_bullet_delay fuel env _ g1 ht]
    unfold fire_step
    rw [fire_block_cooling input g2 h2, if_pos h2,
      before_fire_bullet_delay fuel env input g g2 hb]

theorem tick_shoots_cooling (fuel : Nat) (env : Env) (input : Input) (g : Game)
    (hd : g.bullet_delay ≠ 0) : tick_shoots fuel env input g ≠ some true := by
  unfold tick_shoots
  split
  · simp
  · rename_i g2 hb
    have h2 : g2.bullet_delay ≠ 0 := by
      rw [before_fire_bullet_delay fuel env input g g2 hb]
      exact hd
    rw [fire_block_cooling input g2 h2]
    simp

theorem run_succ_some (fuel : Nat) (env : Env) (inputs : Nat → Input) (n : Nat) (g g2 : Game)
    (h : run fuel env inputs (n + 1) g = some g2) :
    ∃ g1, run fuel env inputs n g = some g1 ∧ tick fuel env (inputs n) g1 = some g2 := by
  rw [run] at h
  split at h
  · cases h
  · rename_i g1 h1
    exact ⟨g1, h1, h⟩

theorem run_cooldown (fuel : Nat) (env : Env) (inputs : Nat → Input) (g0 gT : Game) (T : Nat)
    (hT : run fuel env inputs T g0 = some gT)
    (hfire : tick_shoots fuel env (inputs T) gT = some true) :
    ∀ (k : Nat), 1 ≤ k → k ≤ 20 → ∀ gk, run fuel env inputs (T + k) g0 = some gk →
      gk.bullet_delay = 20 - k := by
  intro k
  induction k with
  | zero => intro h; omega
  | succ j ih =>
    intro _ hle gk hrun
    obtain ⟨g1, hg1, ht⟩ := run_succ_some fuel env inputs (T + j) g0 gk hrun
    by_cases hj : j = 0
    · subst hj
      rw [Nat.add_zero, hT] at hg1
      cases hg1
      rw [tick_shoots_delay fuel env (inputs T) gT gk ht hfire]
      norm_num
    · have hd := ih (by omega) (by omega) g1 hg1
      have hne : g1.bullet_delay ≠ 0 := by omega
      rw [(tick_cooling fuel env (inputs (T + j)) g1 gk ht hne).2, hd]
      push_cast
      ring

/-- C10: along every run of the tick function, from any state and whatever the buttons: if
the tick that starts in the state after `T` ticks calls `shoot`, then at every tick `T + k`
with `1 ≤ k ≤ 19` the one cooldown counter `bullet_delay`, shared by the three bullets, is
`20 - k` (not zero) when the tick starts, and that tick does not call `shoot`. -/
theorem fire_cooldown (fuel : Nat) (env : Env) (inputs : Nat → Input) (g0 gT : Game) (T : Nat)
    (hT : run fuel env inputs T g0 = some gT)
    (hfire : tick_shoots fuel env (inputs T) gT = some true)
    (k : Nat) (hk1 : 1 ≤ k) (hk : k ≤ 19) (gk : Game)
    (hrun : run fuel env inputs (T + k) g0 = some gk) :
    gk.bullet_delay = 20 - k ∧ tick_shoots fuel env (inputs (T + k)) gk ≠ some true := by
  have hd := run_cooldown fuel env inputs g0 gT T hT hfire k hk1 (by omega) gk hrun
  exact ⟨hd, tick_shoots_cooling fuel env (inputs (T + k)) gk (by omega)⟩

/-- C10, at a concrete run: the A button held on every tick, from a state with three idle
bullets. The first tick calls `shoot`; the state after 5 ticks exists, has cooldown 15 and
its tick calls no `shoot`. -/
theorem fire_cooldown_witness :
    tick_shoots 50 open_env input_fire (game_with (bullet_idle 1) (bullet_idle 2) (bullet_idle 3))
      = some true ∧
    ∃ gk, run 50 open_env (fun _ => input_fire) 5
        (game_with (bullet_idle 1) (bullet_idle 2) (bullet_idle 3)) = some gk ∧
      gk.bullet_delay = 15 ∧ tick_shoots 50 open_env input_fire gk ≠ some true := by
  have hs : tick_shoots 50 open_env input_fire
      (game_with (bullet_idle 1) (bullet_idle 2) (bullet_idle 3)) = some true := by decide
  have hsome : (run 50 open_env (fun _ => input_fire) 5
      (game_with (bullet_idle 1) (bullet_idle 2) (bullet_idle 3))).isSome = true := by decide
  obtain ⟨gk, hgk⟩ := Option.isSome_iff_exists.1 hsome
  have h := fire_cooldown 50 open_env (fun _ => input_fire)
    (game_with (bullet_idle 1) (bullet_idle 2) (bullet_idle 3))
    (game_with (bullet_idle 1) (bullet_idle 2) (bullet_idle 3)) 0 rfl hs 5 (by decide)
    (by decide) gk (by simpa using hgk)
  exact ⟨hs, gk, hgk, h.1, h.2⟩

/-! ## Frame lemmas for one tick -/

theorem same_place_refl (p : Player) : same_place p p := ⟨rfl, rfl, rfl, rfl⟩

theorem same_place_trans {p q r : Player} (h1 : same_place p q) (h2 : same_place q r) :
    same_place p r :=
  ⟨h2.1.trans h1.1, h2.2.1.trans h1.2.1, h2.2.2.1.trans h1.2.2.1, h2.2.2.2.trans h1.2.2.2⟩

theorem player_animate_place (pool : Pool) (p : Player) (mode frame_a frame_b : Int) :
    same_place p (player_animate pool p mode frame_a frame_b).2 := by
  unfold player_animate same_place
  dsimp only
  split_ifs <;> exact ⟨rfl, rfl, rfl, rfl⟩

theorem player_update_place (pool : Pool) (p : Player) (xscroll : Int) :
    same_place p (player_update pool p xscroll).2 := by
  unfold player_update
  exact same_place_trans (same_place_trans (player_animate_place _ _ _ _ _)
    (player_animate_place _ _ _ _ _)) (player_animate_place _ _ _ _ _)

theorem update_slime_waiting (pool : Pool) (s : Slime) (h : slime_waiting s) :
    1 ≤ (update_slime pool s).2.delay := by
  unfold update_slime
  rcases h with h | h
  · simp [h]
  · have h1 : ¬ s.delay = 0 := by omega
    have h2 : ¬ s.delay < 0 := by omega
    by_cases hd : s.dead = 1
    · simp [hd]
    · simp only [if_neg hd, if_neg h1, if_neg h2]
      omega

theorem gate_closed_of_delay (s : Slime) (h : 1 ≤ s.delay) : gate_closed s := by
  unfold gate_closed
  omega

theorem slime_step_closed (fuel : Nat) (env : Env) (g : Game)
    (h1 : gate_closed g.slime1) (h2 : gate_closed g.slime2) (h3 : gate_closed g.slime3)
    (h4 : gate_closed g.slime4) : slime_step fuel env g = some g := by
  unfold gate_closed at h1 h2 h3 h4
  unfold slime_step slime_gate
  simp only [if_neg h1, if_neg h2, if_neg h3, if_neg h4]

theorem bullet_check_delay (pool : Pool) (b : Bullet) (s : Slime) :
    (bullet_check pool b s).2.2.delay = s.delay := by
  unfold bullet_check
  split_ifs <;> rfl

theorem bullet_check3_delay (r : Pool × (Bullet × Bullet × Bullet)) (s : Slime) :
    (bullet_check3 r s).2.delay = s.delay := by
  unfold bullet_check3
  simp only [bullet_check_delay]

theorem collision_check_eq (p : Player) (s : Slime) : collision_check p s = (p, s) := by
  unfold collision_check
  split_ifs <;> rfl

theorem collision_step_eq (g : Game) :
    collision_step g =
      { g with player := { g.player with invincible := wrap_int (g.player.invincible - 1) } }
    := by
  unfold collision_step
  simp only [collision_check_eq]

theorem reset_step_alive (g : Game) (h : g.player.health ≠ 0) : reset_step g = some g := by
  unfold reset_step
  rw [if_neg h]

theorem fire_step_frame (input : Input) (g : Game) :
    (fire_step input g).player = g.player ∧ (fire_step input g).slime1 = g.slime1 ∧
    (fire_step input g).slime2 = g.slime2 ∧ (fire_step input g).slime3 = g.slime3 ∧
    (fire_step input g).slime4 = g.slime4 ∧ (fire_step input g).xscroll = g.xscroll ∧
    (fire_step input g).yscroll = g.yscroll := by
  unfold fire_step fire_block
  split_ifs <;> exact ⟨rfl, rfl, rfl, rfl, rfl, rfl, rfl⟩

theorem after_steps_frame (env : Env) (g : Game) :
    same_place g.player
      (collision_step (wave_step env (cooldown_step (kill_step (bullet_check_step g))))).player ∧
    (collision_step (wave_step env (cooldown_step (kill_step (bullet_check_step g))))).xscroll =
      g.xscroll ∧
    (collision_step (wave_step env (cooldown_step (kill_step (bullet_check_step g))))).yscroll =
      g.yscroll ∧
    (collision_step (wave_step env (cooldown_step (kill_step (bullet_check_step g))))).slime1.dead
      = 1 ∧
    (collision_step (wave_step env (cooldown_step (kill_step (bullet_check_step g))))).slime2.dead
      = 1 ∧
    (collision_step (wave_step env (cooldown_step (kill_step (bullet_check_step g))))).slime3.dead
      = 1 ∧
    (collision_step (wave_step env (cooldown_step (kill_step (bullet_check_step g))))).slime4.dead
      = 1 := by
  rw [collision_step_eq]
  unfold wave_step cooldown_step
  split_ifs <;> exact ⟨⟨rfl, rfl, rfl, rfl⟩, rfl, rfl, rfl, rfl, rfl, rfl⟩

theorem after_fire_closed (fuel : Nat) (env : Env) (g : Game)
    (h1 : gate_closed g.slime1) (h2 : gate_closed g.slime2) (h3 : gate_closed g.slime3)
    (h4 : gate_closed g.slime4) (hh : g.player.health ≠ 0) :
    after_fire fuel env g =
      some (collision_step (wave_step env (cooldown_step (kill_step (bullet_check_step g))))) := by
  unfold after_fire
  rw [slime_step_closed fuel env g h1 h2 h3 h4]
  dsimp only
  apply reset_step_alive
  rw [(after_steps_frame env g).1.2.2.2]
  exact hh

theorem move_step_left (fuel : Nat) (env : Env) (input : Input) (g : Game) (t1 t2 : Nat)
    (hleft : holds_left input)
    (h1 : forest_lookup fuel env g.player.x (g.player.y + 1) g.xscroll g.yscroll = some t1)
    (h2 : forest_lookup fuel env g.player.x (g.player.y + 15) g.xscroll g.yscroll = some t2)
    (hb1 : t1 ∉ blocking_set) (hb2 : t2 ∉ blocking_set) :
    move_step fuel env input g =
      some (if g.player.x < g.player.border then
          shift_slimes_x
            { g with pool := sprite_set_horizontal_flip g.pool g.player.sprite 1,
                     player := { g.player with move := 1, facing := 1 },
                     xscroll := g.xscroll - 1 } 1
        else
          { g with pool := sprite_set_horizontal_flip g.pool g.player.sprite 1,
                   player := { g.player with move := 1, facing := 1, x := g.player.x - 1 } }) := by
  have hnb : ¬ (blocking t1 = true ∨ blocking t2 = true) := by
    simp only [blocking_iff]
    tauto
  have hr : ¬ button_pressed input.poll_right BUTTON_RIGHT ≠ 0 := by
    rw [hleft.1]
    decide
  unfold move_step
  rw [if_neg hr, if_pos hleft.2, player_left_eq fuel env g.pool g.player g.xscroll g.yscroll
    t1 t2 h1 h2, if_neg hnb]
  by_cases hc : g.player.x < g.player.border
  · simp only [if_pos hc]
    rfl
  · simp only [if_neg hc]
    rfl

/-- The rest of a tick after the arrow-key block, from a state `gm` whose slimes have a
countdown of at least 1 and whose player is alive: the tick returns, the player keeps its
place, the scroll is unchanged and the slimes end flagged dead. -/
theorem tick_tail (fuel : Nat) (env : Env) (input : Input) (gm : Game)
    (hd1 : 1 ≤ gm.slime1.delay) (hd2 : 1 ≤ gm.slime2.delay) (hd3 : 1 ≤ gm.slime3.delay)
    (hd4 : 1 ≤ gm.slime4.delay) (hh : gm.player.health ≠ 0) :
    ∃ g1, after_fire fuel env (fire_step input gm) = some g1 ∧ same_place gm.player g1.player ∧
      g1.xscroll = gm.xscroll ∧ g1.yscroll = gm.yscroll ∧ g1.slime1.dead = 1 ∧
      g1.slime2.dead = 1 ∧ g1.slime3.dead = 1 ∧ g1.slime4.dead = 1 := by
  obtain ⟨fp, f1, f2, f3, f4, fx, fy⟩ := fire_step_frame input gm
  have hc := after_fire_closed fuel env (fire_step input gm)
    (gate_closed_of_delay _ (by rw [f1]; exact hd1))
    (gate_closed_of_delay _ (by rw [f2]; exact hd2))
    (gate_closed_of_delay _ (by rw [f3]; exact hd3))
    (gate_closed_of_delay _ (by rw [f4]; exact hd4)) (by rw [fp]; exact hh)
  obtain ⟨a1, a2, a3, a4, a5, a6, a7⟩ := after_steps_frame env (fire_step input gm)
  rw [fp] at a1
  exact ⟨_, hc, a1, a2.trans fx, a3.trans fy, a4, a5, a6, a7⟩

/-- One tick of moving left over non-blocking tiles, with waiting slimes and a living
player: the tick returns; the player scrolls when `x < border` and steps left otherwise. -/
theorem tick_left (fuel : Nat) (env : Env) (input : Input) (g : Game) (t1 t2 : Nat)
    (hleft : holds_left input)
    (hw1 : slime_waiting g.slime1) (hw2 : slime_waiting g.slime2)
    (hw3 : slime_waiting g.slime3) (hw4 : slime_waiting g.slime4)
    (hh : g.player.health ≠ 0)
    (h1 : forest_lookup fuel env g.player.x (g.player.y + 1) g.xscroll g.yscroll = some t1)
    (h2 : forest_lookup fuel env g.player.x (g.player.y + 15) g.xscroll g.yscroll = some t2)
    (hb1 : t1 ∉ blocking_set) (hb2 : t2 ∉ blocking_set) :
    ∃ g1, tick fuel env input g = some g1 ∧
      g1.player.y = g.player.y ∧ g1.player.border = g.player.border ∧
      g1.player.health = g.player.health ∧ g1.yscroll = g.yscroll ∧
      g1.slime1.dead = 1 ∧ g1.slime2.dead = 1 ∧ g1.slime3.dead = 1 ∧ g1.slime4.dead = 1 ∧
      (g.player.x < g.player.border → g1.player.x = g.player.x ∧ g1.xscroll = g.xscroll - 1) ∧
      (¬ g.player.x < g.player.border →
        g1.player.x = g.player.x - 1 ∧ g1.xscroll = g.xscroll) := by
  have hpu : same_place g.player (update_step g).player :=
    player_update_place g.pool g.player g.xscroll
  have hxs : (update_step g).xscroll = g.xscroll := rfl
  have hys : (update_step g).yscroll = g.yscroll := rfl
  have hd1 : 1 ≤ (update_step g).slime1.delay := update_slime_waiting _ _ hw1
  have hd2 : 1 ≤ (update_step g).slime2.delay := update_slime_waiting _ _ hw2
  have hd3 : 1 ≤ (update_step g).slime3.delay := update_slime_waiting _ _ hw3
  have hd4 : 1 ≤ (update_step g).slime4.delay := update_slime_waiting _ _ hw4
  have hm := move_step_left fuel env input (update_step g) t1 t2 hleft
    (by rw [hpu.1, hpu.2.1, hxs, hys]; exact h1) (by rw [hpu.1, hpu.2.1, hxs, hys]; exact h2)
    hb1 hb2
  unfold tick before_fire
  rw [hm]
  dsimp only
  by_cases hc : g.player.x < g.player.border
  · have hc1 : (update_step g).player.x < (update_step g).player.border := by
      rw [hpu.1, hpu.2.2.1]
      exact hc
    rw [if_pos hc1]
    obtain ⟨g1, hg1, hp, hx, hy, r1, r2, r3, r4⟩ := tick_tail fuel env input
      (shift_slimes_x
        { update_step g with
          pool := sprite_set_horizontal_flip (update_step g).pool (update_step g).player.sprite 1,
          player := { (update_step g).player with move := 1, facing := 1 },
          xscroll := (update_step g).xscroll - 1 } 1)
      hd1 hd2 hd3 hd4 (by rw [← hpu.2.2.2] at hh; exact hh)
    refine ⟨g1, hg1, ?_, ?_, ?_, ?_, r1, r2, r3, r4, ?_, ?_⟩
    · exact hp.2.1.trans hpu.2.1
    · exact hp.2.2.1.trans hpu.2.2.1
    · exact hp.2.2.2.trans hpu.2.2.2
    · exact hy.trans hys
    · intro _
      exact ⟨hp.1.trans hpu.1, hx⟩
    · intro hn
      exact absurd hc hn
  · have hc1 : ¬ (update_step g).player.x < (update_step g).player.border := by
      rw [hpu.1, hpu.2.2.1]
      exact hc
    rw [if_neg hc1]
    obtain ⟨g1, hg1, hp, hx, hy, r1, r2, r3, r4⟩ := tick_tail fuel env input
      { update_step g with
          pool := sprite_set_horizontal_flip (update_step g).pool (update_step g).player.sprite 1,
          player := { (update_step g).player with
            move := 1, facing := 1, x := (update_step g).player.x - 1 } }
      hd1 hd2 hd3 hd4 (by rw [← hpu.2.2.2] at hh; exact hh)
    refine ⟨g1, hg1, ?_, ?_, ?_, ?_, r1, r2, r3, r4, ?_, ?_⟩
    · exact hp.2.1.trans hpu.2.1
    · exact hp.2.2.1.trans hpu.2.2.1
    · exact hp.2.2.2.trans hpu.2.2.2
    · exact hy.trans hys
    · intro hn
      exact absurd hn hc
    · intro _
      refine ⟨hp.1.trans ?_, hx.trans hxs⟩
      show (update_step g).player.x - 1 = g.player.x - 1
      rw [hpu.1]

/-! ## Moving left from the start state -/

theorem game_start_facts :
    ∃ g0, game_start = some g0 ∧ g0.player.x = 100 ∧ g0.player.y = 113 ∧
      g0.player.border = 40 ∧ g0.player.health = 3 ∧ g0.xscroll = 0 ∧ g0.yscroll = 0 ∧
      slime_waiting g0.slime1 ∧ slime_waiting g0.slime2 ∧ slime_waiting g0.slime3 ∧
      slime_waiting g0.slime4 :=
  ⟨_, rfl, rfl, rfl, rfl, rfl, rfl, rfl, Or.inr (by decide), Or.inr (by decide),
    Or.inr (by decide), Or.inr (by decide)⟩

theorem run_succ_of (fuel : Nat) (env : Env) (inputs : Nat → Input) (n : Nat) (g g1 g2 : Game)
    (h1 : run fuel env inputs n g = some g1) (h2 : tick fuel env (inputs n) g1 = some g2) :
    run fuel env inputs (n + 1) g = some g2 := by
  rw [run, h1]
  exact h2

/-- C6: from the start state of `main` (player at (100, 113), border 40, scroll (0, 0)),
over 40 ticks in which left is the pressed direction and the two tiles probed by each
`player_left` call are outside the blocking set: every one of the 40 moves steps the
player one pixel left and none signals a scroll, so after `n ≤ 40` ticks the player is at
`(100 - n, 113)` with scroll (0, 0), and after the 40 ticks at (60, 113). -/
theorem left_forty_ticks (fuel : Nat) (env : Env) (inputs : Nat → Input)
    (hleft : ∀ n : Nat, n < 40 → holds_left (inputs n))
    (hclear : ∀ k : Nat, k < 40 → ∃ t1 t2,
      forest_lookup fuel env (100 - k) (113 + 1) 0 0 = some t1 ∧
      forest_lookup fuel env (100 - k) (113 + 15) 0 0 = some t2 ∧
      t1 ∉ blocking_set ∧ t2 ∉ blocking_set) :
    ∃ g0, game_start = some g0 ∧ g0.player.x = 100 ∧ g0.player.y = 113 ∧
      g0.player.border = 40 ∧ g0.xscroll = 0 ∧ g0.yscroll = 0 ∧
      (∀ n : Nat, n ≤ 40 → ∃ g, run fuel env inputs n g0 = some g ∧
        g.player.x = 100 - n ∧ g.player.y = 113 ∧ g.xscroll = 0 ∧ g.yscroll = 0) ∧
      ∃ g40, run fuel env inputs 40 g0 = some g40 ∧ g40.player.x = 60 ∧ g40.player.y = 113 ∧
        g40.xscroll = 0 ∧ g40.yscroll = 0 := by
  obtain ⟨g0, hg0, hx0, hy0, hb0, hh0, hxs0, hys0, w1, w2, w3, w4⟩ := game_start_facts
  have hinv : ∀ n : Nat, n ≤ 40 → ∃ g, run fuel env inputs n g0 = some g ∧
      g.player.x = 100 - n ∧ g.player.y = 113 ∧ g.player.border = 40 ∧ g.player.health = 3 ∧
      g.xscroll = 0 ∧ g.yscroll = 0 ∧ slime_waiting g.slime1 ∧ slime_waiting g.slime2 ∧
      slime_waiting g.slime3 ∧ slime_waiting g.slime4 := by
    intro n
    induction n with
    | zero =>
      intro _
      exact ⟨g0, rfl, by simpa using hx0, hy0, hb0, hh0, hxs0, hys0, w1, w2, w3, w4⟩
    | succ m ih =>
      intro hm
      obtain ⟨g, hg, hx, hy, hb, hh, hxs, hys, v1, v2, v3, v4⟩ := ih (by omega)
      obtain ⟨t1, t2, ht1, ht2, hb1, hb2⟩ := hclear m (by omega)
      obtain ⟨g1, hg1, ky, kb, kh, kys, d1, d2, d3, d4, _, kstep⟩ :=
        tick_left fuel env (inputs m) g t1 t2 (hleft m (by omega)) v1 v2 v3 v4
          (by rw [hh]; decide) (by rw [hx, hy, hxs, hys]; exact ht1)
          (by rw [hx, hy, hxs, hys]; exact ht2) hb1 hb2
      have hnear : ¬ g.player.x < g.player.border := by
        rw [hx, hb]
        omega
      refine ⟨g1, run_succ_of fuel env inputs m g0 g g1 hg hg1, ?_, ky.trans hy, kb.trans hb,
        kh.trans hh, ?_, kys.trans hys, Or.inl d1, Or.inl d2, Or.inl d3, Or.inl d4⟩
      · rw [(kstep hnear).1, hx]
        push_cast
        ring
      · rw [(kstep hnear).2, hxs]
  refine ⟨g0, hg0, hx0, hy0, hb0, hxs0, hys0, ?_, ?_⟩
  · intro n hn
    obtain ⟨g, hg, hx, hy, _, _, hxs, hys, _⟩ := hinv n hn
    exact ⟨g, hg, hx, hy, hxs, hys⟩
  · obtain ⟨g, hg, hx, hy, _, _, hxs, hys, _⟩ := hinv 40 (le_refl 40)
    exact ⟨g, hg, by rw [hx]; norm_num, hy, hxs, hys⟩

/-- C6, at a concrete input: a 32x32 map without blocking tiles, fuel 50, left held on
every tick. -/
theorem left_forty_ticks_witness :
    holds_left input_left ∧
    ∃ g0, game_start = some g0 ∧
      ∃ g40, run 50 open_env (fun _ => input_left) 40 g0 = some g40 ∧
        g40.player.x = 60 ∧ g40.player.y = 113 ∧ g40.xscroll = 0 ∧ g40.yscroll = 0 := by
  have hl : holds_left input_left := ⟨by decide, by decide⟩
  obtain ⟨g0, hg0, _, _, _, _, _, _, h40⟩ :=
    left_forty_ticks 50 open_env (fun _ => input_left) (fun _ _ => hl)
      (fun k hk => ⟨0, 0, open_env_lookup 50 _ _ 0 0 (by
          unfold tile_fuel
          rw [shiftRight_three, shiftRight_three]
          omega),
        open_env_lookup 50 _ _ 0 0 (by
          unfold tile_fuel
          rw [shiftRight_three, shiftRight_three]
          omega), by decide, by decide⟩)
  exact ⟨hl, g0, hg0, h40⟩

theorem tile_fuel_bound (fuel n : Nat) (x y xscroll yscroll : Int)
    (hx1 : -(n : Int) ≤ x + xscroll) (hx2 : x + xscroll ≤ 100)
    (hy1 : 0 ≤ y + yscroll) (hy2 : y + yscroll ≤ 128) (hf : n + 30 ≤ fuel) :
    tile_fuel x y xscroll yscroll ≤ fuel := by
  unfold tile_fuel
  rw [shiftRight_three, shiftRight_three]
  omega

/-- Holding left from the start state on a designed map without blocking tiles: after `n`
ticks the player is at `x = max 39 (100 - n)`, and the scroll is `min 0 (61 - n)`. -/
theorem left_run (fuel : Nat) (env : Env) (inputs : Nat → Input) (hmap : map_ok env)
    (hopen : ∀ t, t ∈ env.ForestBackground → t ∉ blocking_set)
    (hleft : ∀ n : Nat, holds_left (inputs n)) :
    ∃ g0, game_start = some g0 ∧ ∀ n : Nat, n + 30 ≤ fuel →
      ∃ g, run fuel env inputs n g0 = some g ∧
        g.player.x = max 39 (100 - (n : Int)) ∧ g.player.y = 113 ∧ g.player.border = 40 ∧
        g.player.health = 3 ∧ g.xscroll = min 0 (61 - (n : Int)) ∧ g.yscroll = 0 ∧
        slime_waiting g.slime1 ∧ slime_waiting g.slime2 ∧ slime_waiting g.slime3 ∧
        slime_waiting g.slime4 := by
  obtain ⟨g0, hg0, hx0, hy0, hb0, hh0, hxs0, hys0, w1, w2, w3, w4⟩ := game_start_facts
  refine ⟨g0, hg0, ?_⟩
  intro n
  induction n with
  | zero =>
    intro _
    exact ⟨g0, rfl, by simpa using hx0, hy0, hb0, hh0, by simpa using hxs0, hys0, w1, w2, w3, w4⟩
  | succ m ih =>
    intro hm
    obtain ⟨g, hg, hx, hy, hb, hh, hxs, hys, v1, v2, v3, v4⟩ := ih (by omega)
    have hxr : 39 ≤ g.player.x ∧ g.player.x ≤ 100 := by
      rw [hx]
      omega
    have hsr : -(m : Int) ≤ g.xscroll ∧ g.xscroll ≤ 0 := by
      rw [hxs]
      omega
    obtain ⟨t1, hm1, ht1⟩ := forest_lookup_mem fuel env hmap g.player.x (g.player.y + 1)
      g.xscroll g.yscroll (tile_fuel_bound fuel m _ _ _ _ (by omega) (by omega)
        (by rw [hy, hys]; norm_num) (by rw [hy, hys]; norm_num) (by omega))
    obtain ⟨t2, hm2, ht2⟩ := forest_lookup_mem fuel env hmap g.player.x (g.player.y + 15)
      g.xscroll g.yscroll (tile_fuel_bound fuel m _ _ _ _ (by omega) (by omega)
        (by rw [hy, hys]; norm_num) (by rw [hy, hys]; norm_num) (by omega))
    obtain ⟨g1, hg1, ky, kb, kh, kys, d1, d2, d3, d4, kscroll, kstep⟩ :=
      tick_left fuel env (inputs m) g t1 t2 (hleft m) v1 v2 v3 v4
        (by rw [hh]; decide) ht1 ht2 (hopen t1 hm1) (hopen t2 hm2)
    refine ⟨g1, run_succ_of fuel env inputs m g0 g g1 hg hg1, ?_, ky.trans hy, kb.trans hb,
      kh.trans hh, ?_, kys.trans hys, Or.inl d1, Or.inl d2, Or.inl d3, Or.inl d4⟩
    · by_cases hnear : g.player.x < g.player.border
      · rw [(kscroll hnear).1]
        rw [hb] at hnear
        push_cast
        omega
      · rw [(kstep hnear).1]
        rw [hb] at hnear
        push_cast
        omega
    · by_cases hnear : g.player.x < g.player.border
      · rw [(kscroll hnear).2]
        rw [hb] at hnear
        push_cast
        omega
      · rw [(kstep hnear).2]
        rw [hb] at hnear
        push_cast
        omega

theorem open_env_open (t : Nat) (ht : t ∈ open_env.ForestBackground) : t ∉ blocking_set := by
  rw [List.eq_of_mem_replicate ht]
  decide

theorem left_run_step (fuel : Nat) (env : Env) (inputs : Nat → Input) (hmap : map_ok env)
    (hopen : ∀ t, t ∈ env.ForestBackground → t ∉ blocking_set)
    (hleft : ∀ n : Nat, holds_left (inputs n)) (n : Nat) (hfuel : n + 31 ≤ fuel) :
    ∃ g0 g g1, game_start = some g0 ∧ run fuel env inputs n g0 = some g ∧
      tick fuel env (inputs n) g = some g1 ∧ g.player.border = 40 ∧
      g.player.x = max 39 (100 - (n : Int)) ∧ g.xscroll = min 0 (61 - (n : Int)) ∧
      g1.player.x = max 39 (99 - (n : Int)) ∧ g1.xscroll = min 0 (60 - (n : Int)) := by
  obtain ⟨g0, hg0, hrun⟩ := left_run fuel env inputs hmap hopen hleft
  obtain ⟨g, hg, hx, _, hb, _, hxs, _⟩ := hrun n (by omega)
  obtain ⟨g1, hg1, hx1, _, _, _, hxs1, _⟩ := hrun (n + 1) (by omega)
  obtain ⟨g2, hg2, ht⟩ := run_succ_some fuel env inputs n g0 g1 hg1
  rw [hg] at hg2
  cases hg2
  refine ⟨g0, g, g1, hg0, hg, ht, hb, hx, hxs, ?_, ?_⟩
  · rw [hx1]
    push_cast
    congr 1
    ring
  · rw [hxs1]
    push_cast
    congr 1
    ring

/-- C7 fails as stated: with border 40 and no blocking tiles, the left move attempted at
`x = 40` does not signal a scroll, it takes the player to `x = 39`, below 40, and leaves the
scroll as it is. Shown on the state with the player at (40, 113) and on the 61st tick of
holding left from the start state. -/
theorem left_at_forty_steps :
    (game_at 40 113).player.x = 40 ∧ (game_at 40 113).player.border = 40 ∧
    (game_at 40 113).xscroll = 0 ∧ holds_left input_left ∧
    (∃ g1, tick 100 open_env input_left (game_at 40 113) = some g1 ∧
      g1.player.x = 39 ∧ g1.xscroll = 0) ∧
    ∃ g0 g60 g61, game_start = some g0 ∧
      run 100 open_env (fun _ => input_left) 60 g0 = some g60 ∧
      tick 100 open_env input_left g60 = some g61 ∧
      g60.player.x = 40 ∧ g60.player.border = 40 ∧
      g61.player.x = 39 ∧ g61.xscroll = g60.xscroll := by
  have hl : holds_left input_left := ⟨by decide, by decide⟩
  refine ⟨rfl, rfl, rfl, hl, ?_, ?_⟩
  · obtain ⟨g1, hg1, _, _, _, _, _, _, _, _, _, kstep⟩ :=
      tick_left 100 open_env input_left (game_at 40 113) 0 0 hl (Or.inr (by decide))
        (Or.inr (by decide)) (Or.inr (by decide)) (Or.inr (by decide)) (by decide)
        (open_env_lookup 100 _ _ _ _ (by decide)) (open_env_lookup 100 _ _ _ _ (by decide))
        (by decide) (by decide)
    have h := kstep (by decide)
    exact ⟨g1, hg1, h.1, h.2⟩
  · obtain ⟨g0, g, g1, hg0, hg, ht, hb, hx, hxs, hx1, hxs1⟩ :=
      left_run_step 100 open_env (fun _ => input_left) open_env_ok open_env_open
        (fun _ => hl) 60 (by decide)
    refine ⟨g0, g, g1, hg0, hg, ht, ?_, hb, ?_, ?_⟩
    · rw [hx]
      decide
    · rw [hx1]
      decide
    · rw [hxs1, hxs]
      decide

/-- C7, amended: on a designed map without blocking tiles, with border 40, a player that
keeps moving left from the start state never gets an `x` below 39. In the state after `n`
ticks `x` is `max 39 (100 - n)`; the left move attempted at `x = 40` takes the player to
`x = 39` and leaves the scroll unchanged; every left move attempted at `x = 39` signals a
scroll instead: `xscroll` decreases by one and `x` stays at 39. -/
theorem left_never_below_39 (fuel : Nat) (env : Env) (inputs : Nat → Input) (hmap : map_ok env)
    (hopen : ∀ t, t ∈ env.ForestBackground → t ∉ blocking_set)
    (hleft : ∀ n : Nat, holds_left (inputs n)) (n : Nat) (hfuel : n + 31 ≤ fuel) :
    ∃ g0 g g1, game_start = some g0 ∧ run fuel env inputs n g0 = some g ∧
      tick fuel env (inputs n) g = some g1 ∧ g.player.border = 40 ∧
      g.player.x = max 39 (100 - (n : Int)) ∧ 39 ≤ g.player.x ∧ 39 ≤ g1.player.x ∧
      (g.player.x = 40 → g1.player.x = 39 ∧ g1.xscroll = g.xscroll) ∧
      (g.player.x = 39 → g1.player.x = 39 ∧ g1.xscroll = g.xscroll - 1) := by
  obtain ⟨g0, g, g1, hg0, hg, ht, hb, hx, hxs, hx1, hxs1⟩ :=
    left_run_step fuel env inputs hmap hopen hleft n hfuel
  refine ⟨g0, g, g1, hg0, hg, ht, hb, hx, ?_, ?_, ?_, ?_⟩
  · rw [hx]
    omega
  · rw [hx1]
    omega
  · intro h40
    rw [hx1, hxs1, hxs]
    rw [hx] at h40
    omega
  · intro h39
    rw [hx1, hxs1, hxs]
    rw [hx] at h39
    omega

/-- C7, amended, at a concrete run: a 32x32 map without blocking tiles, left held on every
tick; the state after 61 ticks has `x = 39`, and the next tick scrolls and keeps `x = 39`. -/
theorem left_never_below_39_witness :
    map_ok open_env ∧ holds_left input_left ∧
    ∃ g0 g g1, game_start = some g0 ∧
      run 200 open_env (fun _ => input_left) 61 g0 = some g ∧
      tick 200 open_env input_left g = some g1 ∧
      g.player.x = 39 ∧ g1.player.x = 39 ∧ g1.xscroll = g.xscroll - 1 := by
  have hl : holds_left input_left := ⟨by decide, by decide⟩
  obtain ⟨g0, g, g1, hg0, hg, ht, _, hx, _, _, _, h39⟩ :=
    left_never_below_39 200 open_env (fun _ => input_left) open_env_ok open_env_open
      (fun _ => hl) 61 (by decide)
  have hx39 : g.player.x = 39 := by
    rw [hx]
    decide
  exact ⟨open_env_ok, hl, g0, g, g1, hg0, hg, ht, hx39, (h39 hx39).1, (h39 hx39).2⟩

/-! ## Slime movement -/

theorem slime_move_wait (fuel : Nat) (env : Env) (slime : Slime) (player : Player)
    (xscroll yscroll wave : Int) (h : slime.wait > 0) :
    slime_move fuel env slime player xscroll yscroll wave =
      some { slime with wait := slime.wait - 1 } := by
  unfold slime_move
  rw [if_pos h]

/-- With `wait` not positive, `slime_move` is one movement attempt: the step of
`slime_choice`, probed at `slime_probe1` and `slime_probe2`. -/
theorem slime_move_try (fuel : Nat) (env : Env) (slime : Slime) (player : Player)
    (xscroll yscroll wave : Int) (h : ¬ slime.wait > 0) :
    slime_move fuel env slime player xscroll yscroll wave =
      slime_try fuel env (slime_probe1 (slime_choice slime player) slime).1
        (slime_probe1 (slime_choice slime player) slime).2
        (slime_probe2 (slime_choice slime player) player).1
        (slime_probe2 (slime_choice slime player) player).2 xscroll yscroll wave slime
        (slime_stepped (slime_choice slime player) slime) := by
  unfold slime_move slime_choice
  rw [if_neg h]
  split_ifs <;> rfl

theorem slime_try_eq (fuel : Nat) (env : Env) (x1 y1 x2 y2 xscroll yscroll wave : Int)
    (slime moved : Slime) (t1 t2 : Nat)
    (h1 : forest_lookup fuel env x1 y1 xscroll yscroll = some t1)
    (h2 : forest_lookup fuel env x2 y2 xscroll yscroll = some t2) :
    slime_try fuel env x1 y1 x2 y2 xscroll yscroll wave slime moved =
      some (if blocking t1 = true ∨ blocking t2 = true then slime
        else { moved with wait := 6 - wave }) := by
  unfold slime_try
  simp only [h1, h2]
  by_cases hb1 : blocking t1 = true
  · simp [hb1]
  · by_cases hb2 : blocking t2 = true
    · simp [hb1, hb2]
    · simp [hb1, hb2]

/-- A movement attempt of `slime_move` whose two probes return the tiles `t1` and `t2`. -/
theorem slime_move_eq (fuel : Nat) (env : Env) (slime : Slime) (player : Player)
    (xscroll yscroll wave : Int) (t1 t2 : Nat) (h : ¬ slime.wait > 0)
    (h1 : forest_lookup fuel env (slime_probe1 (slime_choice slime player) slime).1
      (slime_probe1 (slime_choice slime player) slime).2 xscroll yscroll = some t1)
    (h2 : forest_lookup fuel env (slime_probe2 (slime_choice slime player) player).1
      (slime_probe2 (slime_choice slime player) player).2 xscroll yscroll = some t2) :
    slime_move fuel env slime player xscroll yscroll wave =
      some (if blocking t1 = true ∨ blocking t2 = true then slime
        else { slime_stepped (slime_choice slime player) slime with wait := 6 - wave }) := by
  rw [slime_move_try fuel env slime player xscroll yscroll wave h,
    slime_try_eq fuel env _ _ _ _ xscroll yscroll wave slime _ t1 t2 h1 h2]

theorem slime_stepped_moves (c : SlimeStep) (slime : Slime) :
    ((slime_stepped c slime).x = slime.x ∧
      ((slime_stepped c slime).y = slime.y + 1 ∨ (slime_stepped c slime).y = slime.y - 1)) ∨
    ((slime_stepped c slime).y = slime.y ∧
      ((slime_stepped c slime).x = slime.x + 1 ∨ (slime_stepped c slime).x = slime.x - 1)) := by
  cases c
  · exact Or.inl ⟨rfl, Or.inl rfl⟩
  · exact Or.inl ⟨rfl, Or.inr rfl⟩
  · exact Or.inr ⟨rfl, Or.inl rfl⟩
  · exact Or.inr ⟨rfl, Or.inr rfl⟩

theorem slime_choice_spec (slime : Slime) (player : Player) :
    (|player.y - slime.y| > |player.x - slime.x| → player.y - slime.y > 0 →
      slime_choice slime player = .down) ∧
    (|player.y - slime.y| > |player.x - slime.x| → player.y - slime.y < 0 →
      slime_choice slime player = .up) ∧
    (|player.x - slime.x| ≥ |player.y - slime.y| → player.x - slime.x > 0 →
      slime_choice slime player = .right) ∧
    (|player.x - slime.x| ≥ |player.y - slime.y| → player.x - slime.x < 0 →
      slime_choice slime player = .left) ∧
    (player.x - slime.x = 0 → player.y - slime.y = 0 → slime_choice slime player = .down) := by
  unfold slime_choice
  rcases abs_cases (player.x - slime.x) with ⟨hx, hx1⟩ | ⟨hx, hx1⟩ <;>
    rcases abs_cases (player.y - slime.y) with ⟨hy, hy1⟩ | ⟨hy, hy1⟩ <;>
    rw [hx, hy] <;>
    refine ⟨?_, ?_, ?_, ?_, ?_⟩ <;> intro h1 h2 <;> split_ifs <;>
    first | rfl | (exfalso; omega)

/-- C13 fails as stated: with `dx = dy = 10` (a tie) and no blocking tile, `slime_move`
steps the slime from (50, 50) to (51, 50), horizontally, not vertically. -/
theorem chase_tie_steps_horizontally :
    (slime_at 50 50 0).wait = 0 ∧
    (player_at 60 60).x - (slime_at 50 50 0).x = 10 ∧
    (player_at 60 60).y - (slime_at 50 50 0).y = 10 ∧
    forest_lookup 50 open_env (50 + 16) (50 + 1) 0 0 = some 0 ∧
    forest_lookup 50 open_env (60 + 16) (60 + 15) 0 0 = some 0 ∧
    ∃ s1, slime_move 50 open_env (slime_at 50 50 0) (player_at 60 60) 0 0 0 = some s1 ∧
      s1.x = 51 ∧ s1.y = 50 := by
  refine ⟨rfl, by decide, by decide, open_env_lookup 50 _ _ 0 0 (by decide),
    open_env_lookup 50 _ _ 0 0 (by decide), ?_⟩
  rw [slime_move_eq 50 open_env (slime_at 50 50 0) (player_at 60 60) 0 0 0 0 0 (by decide)
    (open_env_lookup 50 _ _ 0 0 (by decide)) (open_env_lookup 50 _ _ 0 0 (by decide))]
  exact ⟨_, rfl, by decide, by decide⟩

/-- C13, amended: when `slime_move` runs with `wait = 0`, its two probed tiles are outside
the blocking set and `dx = player.x - slime.x`, `dy = player.y - slime.y` are not both 0,
the slime steps one pixel toward the player: vertically when `|dy| > |dx|` (so also when
`dx = 0`), horizontally when `|dx| ≥ |dy|` (so also when `|dx| = |dy|`); the other coordinate
is unchanged. -/
theorem chase_axis (fuel : Nat) (env : Env) (slime : Slime) (player : Player)
    (xscroll yscroll wave : Int) (t1 t2 : Nat) (hwait : slime.wait = 0)
    (h1 : forest_lookup fuel env (slime_probe1 (slime_choice slime player) slime).1
      (slime_probe1 (slime_choice slime player) slime).2 xscroll yscroll = some t1)
    (h2 : forest_lookup fuel env (slime_probe2 (slime_choice slime player) player).1
      (slime_probe2 (slime_choice slime player) player).2 xscroll yscroll = some t2)
    (hb1 : t1 ∉ blocking_set) (hb2 : t2 ∉ blocking_set)
    (hne : player.x - slime.x ≠ 0 ∨ player.y - slime.y ≠ 0) :
    ∃ s1, slime_move fuel env slime player xscroll yscroll wave = some s1 ∧
      (|player.y - slime.y| > |player.x - slime.x| →
        s1.x = slime.x ∧ s1.y = slime.y + Int.sign (player.y - slime.y)) ∧
      (|player.x - slime.x| ≥ |player.y - slime.y| →
        s1.y = slime.y ∧ s1.x = slime.x + Int.sign (player.x - slime.x)) ∧
      (player.x - slime.x = 0 →
        s1.x = slime.x ∧ s1.y = slime.y + Int.sign (player.y - slime.y)) ∧
      (|player.x - slime.x| = |player.y - slime.y| →
        s1.y = slime.y ∧ s1.x = slime.x + Int.sign (player.x - slime.x)) := by
  have hnb : ¬ (blocking t1 = true ∨ blocking t2 = true) := by
    simp only [blocking_iff]
    tauto
  have hw : ¬ slime.wait > 0 := by omega
  rw [slime_move_eq fuel env slime player xscroll yscroll wave t1 t2 hw h1 h2, if_neg hnb]
  obtain ⟨cd, cu, cr, cl, _⟩ := slime_choice_spec slime player
  have hvert : |player.y - slime.y| > |player.x - slime.x| →
      (slime_stepped (slime_choice slime player) slime).x = slime.x ∧
      (slime_stepped (slime_choice slime player) slime).y =
        slime.y + Int.sign (player.y - slime.y) := by
    intro hgt
    have hy0 : player.y - slime.y ≠ 0 := by
      intro h0
      rw [h0, abs_zero] at hgt
      exact absurd hgt (not_lt.2 (abs_nonneg _))
    rcases lt_or_gt_of_ne hy0 with hneg | hpos
    · rw [cu hgt hneg, Int.sign_eq_neg_one_of_neg hneg]
      exact ⟨rfl, rfl⟩
    · rw [cd hgt hpos, Int.sign_eq_one_of_pos hpos]
      exact ⟨rfl, rfl⟩
  have hhor : |player.x - slime.x| ≥ |player.y - slime.y| →
      (slime_stepped (slime_choice slime player) slime).y = slime.y ∧
      (slime_stepped (slime_choice slime player) slime).x =
        slime.x + Int.sign (player.x - slime.x) := by
    intro hge
    have hx0 : player.x - slime.x ≠ 0 := by
      intro h0
      rw [h0, abs_zero] at hge
      have hy0 : player.y - slime.y = 0 := abs_eq_zero.1 (le_antisymm hge (abs_nonneg _))
      rcases hne with hne | hne
      · exact hne h0
      · exact hne hy0
    rcases lt_or_gt_of_ne hx0 with hneg | hpos
    · rw [cl hge hneg, Int.sign_eq_neg_one_of_neg hneg]
      exact ⟨rfl, rfl⟩
    · rw [cr hge hpos, Int.sign_eq_one_of_pos hpos]
      exact ⟨rfl, rfl⟩
  refine ⟨_, rfl, hvert, hhor, ?_, ?_⟩
  · intro hx0
    apply hvert
    rw [hx0, abs_zero]
    rcases hne with hne | hne
    · exact absurd hx0 hne
    · exact abs_pos.2 hne
  · intro heq
    exact hhor (le_of_eq heq.symm)

/-- C13, amended, at a concrete input: the slime at (50, 50), the player at (60, 60), a map
without blocking tiles; the tie is broken horizontally, the slime steps to (51, 50). -/
theorem chase_axis_witness :
    ∃ s1, slime_move 50 open_env (slime_at 50 50 0) (player_at 60 60) 0 0 0 = some s1 ∧
      s1.y = 50 ∧ s1.x = 50 + Int.sign (60 - 50) := by
  obtain ⟨s1, hs, _, _, _, htie⟩ :=
    chase_axis 50 open_env (slime_at 50 50 0) (player_at 60 60) 0 0 0 0 0 rfl
      (open_env_lookup 50 _ _ 0 0 (by decide)) (open_env_lookup 50 _ _ 0 0 (by decide))
      (by decide) (by decide) (Or.inl (by decide))
  exact ⟨s1, hs, htie (by decide)⟩

theorem forest_lookup_at (fuel : Nat) (env : Env) (hmap : map_ok env)
    (x y xscroll yscroll : Int) (hfuel : tile_fuel x y xscroll yscroll ≤ fuel) :
    forest_lookup fuel env x y xscroll yscroll =
      env.ForestBackground[(spec_tile_index x y xscroll yscroll env.ForestBackground_width
        env.ForestBackground_height).toNat]? :=
  tile_lookup_eq fuel env.ForestBackground x y xscroll yscroll env.ForestBackground_width
    env.ForestBackground_height hmap.1 hmap.2.1 hfuel

theorem post_env_ok : map_ok post_env := by
  refine ⟨Or.inl rfl, Or.inl rfl, ?_⟩
  simp only [post_env, List.length_map, List.length_range]
  rfl

theorem post_env_lookup (fuel : Nat) (x y xscroll yscroll : Int)
    (hfuel : tile_fuel x y xscroll yscroll ≤ fuel) :
    forest_lookup fuel post_env x y xscroll yscroll =
      some (if (spec_tile_index x y xscroll yscroll 32 32).toNat = 65 then 1 else 0) := by
  have hr := spec_tile_index_range x y xscroll yscroll 32 32 (Or.inl rfl) (Or.inl rfl)
  have hlt : (spec_tile_index x y xscroll yscroll 32 32).toNat < 1024 := by omega
  rw [forest_lookup_at fuel post_env post_env_ok x y xscroll yscroll hfuel]
  simp only [post_env, List.getElem?_map, List.getElem?_range hlt, Option.map_some']

/-- C14, the code at two failing inputs, on a map whose only blocking tile is tile (1, 2).
First: the slime at (0, 0) steps down to (0, 1) although the tile at its own second corner
`(slime.x + 15, slime.y + 16)` is blocking, because the second probe is made at
`(player.x + 15, player.y + 16)`. Second: the slime at (0, -100) does not step although
the tiles at its own two corners are free, because the tile at the player's corner is
blocking. -/
theorem slime_second_probe_at_player :
    (slime_choice (slime_at 0 0 0) (player_at 0 100) = .down ∧
      forest_lookup 50 post_env (0 + 1) (0 + 16) 0 0 = some 0 ∧
      forest_lookup 50 post_env (0 + 15) (0 + 16) 0 0 = some 1 ∧ 1 ∈ blocking_set ∧
      ∃ s1, slime_move 50 post_env (slime_at 0 0 0) (player_at 0 100) 0 0 0 = some s1 ∧
        s1.x = 0 ∧ s1.y = 1) ∧
    (slime_choice (slime_at 0 (-100) 0) (player_at 0 0) = .down ∧
      forest_lookup 50 post_env (0 + 1) (-100 + 16) 0 0 = some 0 ∧
      forest_lookup 50 post_env (0 + 15) (-100 + 16) 0 0 = some 0 ∧ 0 ∉ blocking_set ∧
      slime_move 50 post_env (slime_at 0 (-100) 0) (player_at 0 0) 0 0 0 =
        some (slime_at 0 (-100) 0)) := by
  have l1 : forest_lookup 50 post_env (0 + 1) (0 + 16) 0 0 = some 0 := by
    rw [post_env_lookup 50 _ _ 0 0 (by decide)]
    decide
  have l2 : forest_lookup 50 post_env (0 + 15) (0 + 16) 0 0 = some 1 := by
    rw [post_env_lookup 50 _ _ 0 0 (by decide)]
    decide
  have l3 : forest_lookup 50 post_env (0 + 15) (100 + 16) 0 0 = some 0 := by
    rw [post_env_lookup 50 _ _ 0 0 (by decide)]
    decide
  have l4 : forest_lookup 50 post_env (0 + 1) (-100 + 16) 0 0 = some 0 := by
    rw [post_env_lookup 50 _ _ 0 0 (by decide)]
    decide
  have l5 : forest_lookup 50 post_env (0 + 15) (-100 + 16) 0 0 = some 0 := by
    rw [post_env_lookup 50 _ _ 0 0 (by decide)]
    decide
  have e1 : slime_move 50 post_env (slime_at 0 0 0) (player_at 0 100) 0 0 0 =
      slime_try 50 post_env (0 + 1) (0 + 16) (0 + 15) (100 + 16) 0 0 0 (slime_at 0 0 0)
        { slime_at 0 0 0 with y := 0 + 1 } := by
    rw [slime_move_try 50 post_env (slime_at 0 0 0) (player_at 0 100) 0 0 0 (by decide)]
    rfl
  have e2 : slime_move 50 post_env (slime_at 0 (-100) 0) (player_at 0 0) 0 0 0 =
      slime_try 50 post_env (0 + 1) (-100 + 16) (0 + 15) (0 + 16) 0 0 0 (slime_at 0 (-100) 0)
        { slime_at 0 (-100) 0 with y := -100 + 1 } := by
    rw [slime_move_try 50 post_env (slime_at 0 (-100) 0) (player_at 0 0) 0 0 0 (by decide)]
    rfl
  refine ⟨⟨by decide, l1, l2, by decide, ?_⟩, ⟨by decide, l4, l5, by decide, ?_⟩⟩
  · rw [e1, slime_try_eq 50 post_env _ _ _ _ 0 0 0 _ _ 0 0 l1 l3, if_neg (by decide)]
    exact ⟨_, rfl, rfl, rfl⟩
  · rw [e2, slime_try_eq 50 post_env _ _ _ _ 0 0 0 _ _ 0 1 l4 l2, if_pos (Or.inr (by decide))]

/-! ## Slime move cadence -/

theorem slime_calls_succ_of (fuel : Nat) (env : Env) (players : Nat → Player)
    (xscrolls yscrolls : Nat → Int) (wave : Int) (n : Nat) (s s1 s2 : Slime)
    (h1 : slime_calls fuel env players xscrolls yscrolls wave n s = some s1)
    (h2 : slime_move fuel env s1 (players n) (xscrolls n) (yscrolls n) wave = some s2) :
    slime_calls fuel env players xscrolls yscrolls wave (n + 1) s = some s2 := by
  rw [slime_calls, h1]
  exact h2

/-- While `wait` is positive the calls only count it down. -/
theorem slime_calls_waiting (fuel : Nat) (env : Env) (players : Nat → Player)
    (xscrolls yscrolls : Nat → Int) (wave : Int) (n : Nat) (s sn : Slime)
    (hn : slime_calls fuel env players xscrolls yscrolls wave n s = some sn) :
    ∀ j : Nat, (j : Int) ≤ sn.wait →
      slime_calls fuel env players xscrolls yscrolls wave (n + j) s =
        some { sn with wait := sn.wait - j } := by
  intro j
  induction j with
  | zero =>
    intro _
    rw [Nat.add_zero, hn]
    simp
  | succ i ih =>
    intro hle
    have hi := ih (by omega)
    have hm := slime_move_wait fuel env { sn with wait := sn.wait - i } (players (n + i))
      (xscrolls (n + i)) (yscrolls (n + i)) wave (by
        show sn.wait - (i : Int) > 0
        omega)
    rw [← Nat.add_assoc]
    rw [slime_calls_succ_of fuel env players xscrolls yscrolls wave (n + i) s _ _ hi hm]
    congr 2
    push_cast
    ring

/-- The cadence of `slime_move` with `wave = 0`: a call that finds `wait = 0` and clear
probes steps the slime and sets `wait = 6`; the next six calls only count `wait` down to 0;
the seventh call after the move finds `wait = 0` again and, with clear probes, steps. -/
theorem slime_cadence (fuel : Nat) (env : Env) (players : Nat → Player)
    (xscrolls yscrolls : Nat → Int) (slime : Slime) (t1 t2 : Nat) (hwait : slime.wait = 0)
    (h1 : forest_lookup fuel env (slime_probe1 (slime_choice slime (players 0)) slime).1
      (slime_probe1 (slime_choice slime (players 0)) slime).2 (xscrolls 0) (yscrolls 0)
      = some t1)
    (h2 : forest_lookup fuel env (slime_probe2 (slime_choice slime (players 0)) (players 0)).1
      (slime_probe2 (slime_choice slime (players 0)) (players 0)).2 (xscrolls 0) (yscrolls 0)
      = some t2)
    (hb1 : t1 ∉ blocking_set) (hb2 : t2 ∉ blocking_set) :
    (∀ j : Nat, j ≤ 6 →
      slime_calls fuel env players xscrolls yscrolls 0 (1 + j) slime =
        some { slime_stepped (slime_choice slime (players 0)) slime with wait := 6 - j }) ∧
    ∀ t3 t4 : Nat,
      forest_lookup fuel env
        (slime_probe1 (slime_choice
          { slime_stepped (slime_choice slime (players 0)) slime with wait := 0 } (players 7))
          { slime_stepped (slime_choice slime (players 0)) slime with wait := 0 }).1
        (slime_probe1 (slime_choice
          { slime_stepped (slime_choice slime (players 0)) slime with wait := 0 } (players 7))
          { slime_stepped (slime_choice slime (players 0)) slime with wait := 0 }).2
        (xscrolls 7) (yscrolls 7) = some t3 →
      forest_lookup fuel env
        (slime_probe2 (slime_choice
          { slime_stepped (slime_choice slime (players 0)) slime with wait := 0 } (players 7))
          (players 7)).1
        (slime_probe2 (slime_choice
          { slime_stepped (slime_choice slime (players 0)) slime with wait := 0 } (players 7))
          (players 7)).2
        (xscrolls 7) (yscrolls 7) = some t4 →
      t3 ∉ blocking_set → t4 ∉ blocking_set →
      slime_calls fuel env players xscrolls yscrolls 0 8 slime =
        some { slime_stepped (slime_choice
          { slime_stepped (slime_choice slime (players 0)) slime with wait := 0 } (players 7))
          { slime_stepped (slime_choice slime (players 0)) slime with wait := 0 }
          with wait := 6 } := by
  have hnb : ¬ (blocking t1 = true ∨ blocking t2 = true) := by
    simp only [blocking_iff]
    tauto
  have hm := slime_move_eq fuel env slime (players 0) (xscrolls 0) (yscrolls 0) 0 t1 t2
    (by omega) h1 h2
  rw [if_neg hnb] at hm
  have hc1 : slime_calls fuel env players xscrolls yscrolls 0 1 slime =
      some { slime_stepped (slime_choice slime (players 0)) slime with wait := 6 } :=
    slime_calls_succ_of fuel env players xscrolls yscrolls 0 0 slime slime _ rfl hm
  have hcount := slime_calls_waiting fuel env players xscrolls yscrolls 0 1 slime _ hc1
  constructor
  · intro j hj
    rw [hcount j (by
      show (j : Int) ≤ 6
      omega)]
  · intro t3 t4 h3 h4 hb3 hb4
    have hnb2 : ¬ (blocking t3 = true ∨ blocking t4 = true) := by
      simp only [blocking_iff]
      tauto
    have h7 := hcount 6 (le_refl _)
    have hm7 := slime_move_eq fuel env
      { slime_stepped (slime_choice slime (players 0)) slime with wait := 0 } (players 7)
      (xscrolls 7) (yscrolls 7) 0 t3 t4 (by
        show ¬ (0 : Int) > 0
        omega) h3 h4
    rw [if_neg hnb2] at hm7
    exact slime_calls_succ_of fuel env players xscrolls yscrolls 0 7 slime _ _ h7 hm7

/-- C11 fails as stated: with `wave = 0` on a map without blocking tiles, the slime at
(50, 50) with `wait = 0` chasing the player at (100, 113) moves at call `k` (the first call)
to (50, 51); the call `k + 6` leaves it there (the states after 6 and after 7 calls are
both at (50, 51)), and it is the call `k + 7` that moves it, to (50, 52). -/
theorem slime_waits_at_sixth_call :
    ∃ s1 s6 s7 s8,
      slime_calls 50 open_env (fun _ => player_at 100 113) (fun _ => 0) (fun _ => 0) 0 1
        (slime_at 50 50 0) = some s1 ∧ s1.x = 50 ∧ s1.y = 51 ∧
      slime_calls 50 open_env (fun _ => player_at 100 113) (fun _ => 0) (fun _ => 0) 0 6
        (slime_at 50 50 0) = some s6 ∧ s6.x = 50 ∧ s6.y = 51 ∧
      slime_calls 50 open_env (fun _ => player_at 100 113) (fun _ => 0) (fun _ => 0) 0 7
        (slime_at 50 50 0) = some s7 ∧ s7.x = 50 ∧ s7.y = 51 ∧
      slime_calls 50 open_env (fun _ => player_at 100 113) (fun _ => 0) (fun _ => 0) 0 8
        (slime_at 50 50 0) = some s8 ∧ s8.x = 50 ∧ s8.y = 52 := by
  obtain ⟨hj, h8⟩ := slime_cadence 50 open_env (fun _ => player_at 100 113) (fun _ => 0)
    (fun _ => 0) (slime_at 50 50 0) 0 0 rfl (open_env_lookup 50 _ _ 0 0 (by decide))
    (open_env_lookup 50 _ _ 0 0 (by decide)) (by decide) (by decide)
  exact ⟨_, _, _, _, hj 0 (by decide), rfl, rfl, hj 5 (by decide), rfl, rfl,
    hj 6 (by decide), rfl, rfl,
    h8 0 0 (open_env_lookup 50 _ _ 0 0 (by decide)) (open_env_lookup 50 _ _ 0 0 (by decide))
      (by decide) (by decide), rfl, rfl⟩

/-- C11, amended: with `wave = 0`, one `slime_move` call per tick and no blocking tile
probed, a call `k` that finds `wait = 0` moves the slime by one pixel and sets `wait = 6`;
the calls `k + 1` to `k + 6` leave the position unchanged (after `j` calls, `1 ≤ j ≤ 7`,
the slime is where call `k` put it, with `wait = 7 - j`); the position next changes at
call `k + 7`: the slime moves once every 7 ticks. Here call `k` is the first call. -/
theorem slime_moves_every_seven (fuel : Nat) (env : Env) (players : Nat → Player)
    (xscrolls yscrolls : Nat → Int) (slime : Slime) (t1 t2 : Nat) (hwait : slime.wait = 0)
    (h1 : forest_lookup fuel env (slime_probe1 (slime_choice slime (players 0)) slime).1
      (slime_probe1 (slime_choice slime (players 0)) slime).2 (xscrolls 0) (yscrolls 0)
      = some t1)
    (h2 : forest_lookup fuel env (slime_probe2 (slime_choice slime (players 0)) (players 0)).1
      (slime_probe2 (slime_choice slime (players 0)) (players 0)).2 (xscrolls 0) (yscrolls 0)
      = some t2)
    (hb1 : t1 ∉ blocking_set) (hb2 : t2 ∉ blocking_set) :
    ∃ s1, slime_calls fuel env players xscrolls yscrolls 0 1 slime = some s1 ∧
      (s1.x ≠ slime.x ∨ s1.y ≠ slime.y) ∧ s1.wait = 6 ∧
      (∀ j : Nat, 1 ≤ j → j ≤ 7 →
        ∃ sj, slime_calls fuel env players xscrolls yscrolls 0 j slime = some sj ∧
          sj.x = s1.x ∧ sj.y = s1.y ∧ sj.wait = 7 - j) ∧
      (∀ (s7 : Slime) (t3 t4 : Nat),
        slime_calls fuel env players xscrolls yscrolls 0 7 slime = some s7 →
        forest_lookup fuel env (slime_probe1 (slime_choice s7 (players 7)) s7).1
          (slime_probe1 (slime_choice s7 (players 7)) s7).2 (xscrolls 7) (yscrolls 7)
          = some t3 →
        forest_lookup fuel env (slime_probe2 (slime_choice s7 (players 7)) (players 7)).1
          (slime_probe2 (slime_choice s7 (players 7)) (players 7)).2 (xscrolls 7) (yscrolls 7)
          = some t4 →
        t3 ∉ blocking_set → t4 ∉ blocking_set →
        ∃ s8, slime_calls fuel env players xscrolls yscrolls 0 8 slime = some s8 ∧
          (s8.x ≠ s1.x ∨ s8.y ≠ s1.y) ∧ s8.wait = 6) := by
  obtain ⟨hj, h8⟩ := slime_cadence fuel env players xscrolls yscrolls slime t1 t2 hwait h1 h2
    hb1 hb2
  have hmoved : ∀ (c : SlimeStep) (s : Slime),
      (slime_stepped c s).x ≠ s.x ∨ (slime_stepped c s).y ≠ s.y := by
    intro c s
    rcases slime_stepped_moves c s with ⟨_, h | h⟩ | ⟨_, h | h⟩
    · exact Or.inr (by omega)
    · exact Or.inr (by omega)
    · exact Or.inl (by omega)
    · exact Or.inl (by omega)
  refine ⟨_, hj 0 (by omega), hmoved _ _, rfl, ?_, ?_⟩
  · intro j hj1 hj7
    obtain ⟨i, rfl⟩ : ∃ i, j = 1 + i := ⟨j - 1, by omega⟩
    refine ⟨_, hj i (by omega), rfl, rfl, ?_⟩
    show (6 : Int) - i = 7 - ((1 + i : Nat) : Int)
    push_cast
    ring
  · intro s7 t3 t4 h7 h3 h4 hb3 hb4
    have e : slime_calls fuel env players xscrolls yscrolls 0 7 slime =
        some { slime_stepped (slime_choice slime (players 0)) slime with wait := 0 } :=
      hj 6 (le_refl 6)
    rw [e] at h7
    cases h7
    exact ⟨_, h8 t3 t4 h3 h4 hb3 hb4, hmoved _ _, rfl⟩

/-- C11, amended, at a concrete input: the slime at (50, 50) chasing the player at
(100, 113) on a map without blocking tiles; the state after 7 calls is still one step from
the start, with `wait = 0`. -/
theorem slime_moves_every_seven_witness :
    ∃ s1 s7,
      slime_calls 50 open_env (fun _ => player_at 100 113) (fun _ => 0) (fun _ => 0) 0 1
        (slime_at 50 50 0) = some s1 ∧
      slime_calls 50 open_env (fun _ => player_at 100 113) (fun _ => 0) (fun _ => 0) 0 7
        (slime_at 50 50 0) = some s7 ∧
      s7.x = s1.x ∧ s7.y = s1.y ∧ s7.wait = 0 := by
  obtain ⟨s1, hs1, _, _, hj, _⟩ :=
    slime_moves_every_seven 50 open_env (fun _ => player_at 100 113) (fun _ => 0) (fun _ => 0)
      (slime_at 50 50 0) 0 0 rfl (open_env_lookup 50 _ _ 0 0 (by decide))
      (open_env_lookup 50 _ _ 0 0 (by decide)) (by decide) (by decide)
  obtain ⟨s7, hs7, hx, hy, hw⟩ := hj 7 (by decide) (by decide)
  exact ⟨s1, s7, hs1, hs7, hx, hy, by simpa using hw⟩

/-! ## Respawn -/

theorem sprite_position_fields (pool : Pool) (sprite : Fin 128) (x y : Int) :
    sprite_y ((sprite_position pool sprite x y).sprites.get sprite) =
      (Int.land y 0xff).toNat &&& 0xff ∧
    sprite_x ((sprite_position pool sprite x y).sprites.get sprite) =
      (Int.land x 0x1ff).toNat &&& 0x1ff := by
  unfold sprite_position sprite_y sprite_x
  simp only [Mathlib.Vector.get_set_same]
  constructor
  · rw [Nat.and_distrib_right, Nat.and_assoc]
    have h0 : (0xff00 : Nat) &&& 0xff = 0 := by decide
    rw [h0, Nat.and_zero, Nat.zero_or]
  · rw [Nat.and_distrib_right, Nat.and_assoc]
    have h0 : (0xfe00 : Nat) &&& 0x1ff = 0 := by decide
    rw [h0, Nat.and_zero, Nat.zero_or]

theorem update_slime_dead (pool : Pool) (s : Slime) (h : s.dead = 1) :
    update_slime pool s =
      (sprite_position pool s.sprite 240 240, { s with dead := 0, delay := 499 }) := by
  unfold update_slime
  simp [h]

theorem update_slime_counting (pool : Pool) (s : Slime) (h : s.dead ≠ 1) (hd : 0 < s.delay) :
    update_slime pool s =
      (sprite_position pool s.sprite 240 240, { s with delay := s.delay - 1 }) := by
  have h1 : ¬ s.delay = 0 := by omega
  have h2 : ¬ s.delay < 0 := by omega
  unfold update_slime
  simp [h, h1, h2]

theorem update_slime_spawn (pool : Pool) (s : Slime) (h : s.dead ≠ 1) (hd : s.delay = 0)
    (hid : s.id = 1 ∨ s.id = 2 ∨ s.id = 3 ∨ s.id = 4) :
    update_slime pool s =
      (sprite_position pool s.sprite (spawn_point s.id).1 (spawn_point s.id).2,
        { s with x := (spawn_point s.id).1, y := (spawn_point s.id).2, delay := -1 }) := by
  unfold update_slime slime_spawn spawn_point
  rcases hid with h1 | h1 | h1 | h1 <;> simp [h, hd, h1]

theorem update_slime_active (pool : Pool) (s : Slime) (h : s.dead ≠ 1) (hd : s.delay < 0) :
    update_slime pool s = (sprite_position pool s.sprite s.x s.y, s) := by
  have h1 : ¬ s.delay = 0 := by omega
  unfold update_slime
  simp [h, h1, hd]

theorem respawn_countdown (pools : Nat → Pool) (s : Slime) (h : s.dead = 1) :
    ∀ j : Nat, 1 ≤ j → j ≤ 500 →
      slime_updates pools j s = { s with dead := 0, delay := 500 - j } := by
  intro j
  induction j with
  | zero => intro h0; omega
  | succ i ih =>
    intro _ hle
    by_cases hi : i = 0
    · subst hi
      rw [slime_updates, slime_updates, update_slime_dead _ s h]
      rfl
    · have hs := ih (by omega) (by omega)
      have hc := update_slime_counting (pools i) { s with dead := 0, delay := 500 - (i : Int) }
        (show (0 : Int) ≠ 1 by decide) (show (0 : Int) < 500 - (i : Int) by omega)
      rw [slime_updates, hs, hc,
        show (500 : Int) - ((i + 1 : Nat) : Int) = 500 - (i : Int) - 1 from by
          push_cast
          ring]

theorem respawn_teleport (pools : Nat → Pool) (s : Slime) (h : s.dead = 1)
    (hid : s.id = 1 ∨ s.id = 2 ∨ s.id = 3 ∨ s.id = 4) :
    ∀ j : Nat, 501 ≤ j →
      slime_updates pools j s =
        { s with dead := 0, x := (spawn_point s.id).1, y := (spawn_point s.id).2,
                 delay := -1 } := by
  intro j
  induction j with
  | zero => intro h0; omega
  | succ i ih =>
    intro hle
    by_cases hi : i = 500
    · subst hi
      have hs := respawn_countdown pools s h 500 (by decide) (by decide)
      have hc := update_slime_spawn (pools 500)
        { s with dead := 0, delay := 500 - ((500 : Nat) : Int) }
        (show (0 : Int) ≠ 1 by decide) (show (500 : Int) - ((500 : Nat) : Int) = 0 by decide)
        hid
      rw [slime_updates, hs, hc]
    · have hs := ih (by omega)
      have hc := update_slime_active (pools i)
        { s with dead := 0, x := (spawn_point s.id).1, y := (spawn_point s.id).2, delay := -1 }
        (show (0 : Int) ≠ 1 by decide) (show (-1 : Int) < 0 by decide)
      rw [slime_updates, hs, hc]

theorem spawn_point_fields (id : Int) :
    (Int.land (spawn_point id).1 0x1ff).toNat &&& 0x1ff = (spawn_point id).1.toNat ∧
    (Int.land (spawn_point id).2 0xff).toNat &&& 0xff = (spawn_point id).2.toNat ∧
    0 ≤ (spawn_point id).1 ∧ 0 ≤ (spawn_point id).2 := by
  unfold spawn_point
  split_ifs <;> decide

/-- The respawn schedule of `update_slime`, counted in calls after `dead` was set to 1:
calls 1 to 500 park the sprite at (240, 240) and leave the countdown at `500 - j`; call
501 teleports slime and sprite to the spawn point and sets `delay = -1`; the later calls
leave the slime there. -/
theorem respawn_schedule (pools : Nat → Pool) (s : Slime) (h : s.dead = 1)
    (hid : s.id = 1 ∨ s.id = 2 ∨ s.id = 3 ∨ s.id = 4) :
    (∀ j : Nat, 1 ≤ j → j ≤ 500 →
      slime_updates pools j s = { s with dead := 0, delay := 500 - j } ∧
      sprite_x (slime_sprite_after pools (j - 1) s) = 240 ∧
      sprite_y (slime_sprite_after pools (j - 1) s) = 240) ∧
    (∀ j : Nat, 501 ≤ j →
      slime_updates pools j s =
        { s with dead := 0, x := (spawn_point s.id).1, y := (spawn_point s.id).2,
                 delay := -1 } ∧
      sprite_x (slime_sprite_after pools (j - 1) s) = (spawn_point s.id).1.toNat ∧
      sprite_y (slime_sprite_after pools (j - 1) s) = (spawn_point s.id).2.toNat) := by
  have hpark : ∀ (pool : Pool) (sprite : Fin 128),
      sprite_x ((sprite_position pool sprite 240 240).sprites.get sprite) = 240 ∧
      sprite_y ((sprite_position pool sprite 240 240).sprites.get sprite) = 240 := by
    intro pool sprite
    obtain ⟨hy, hx⟩ := sprite_position_fields pool sprite 240 240
    rw [hx, hy]
    exact ⟨by decide, by decide⟩
  have hspawn : ∀ (pool : Pool) (sprite : Fin 128),
      sprite_x ((sprite_position pool sprite (spawn_point s.id).1
        (spawn_point s.id).2).sprites.get sprite) = (spawn_point s.id).1.toNat ∧
      sprite_y ((sprite_position pool sprite (spawn_point s.id).1
        (spawn_point s.id).2).sprites.get sprite) = (spawn_point s.id).2.toNat := by
    intro pool sprite
    obtain ⟨hy, hx⟩ := sprite_position_fields pool sprite (spawn_point s.id).1
      (spawn_point s.id).2
    obtain ⟨fx, fy, _, _⟩ := spawn_point_fields s.id
    rw [hx, hy, fx, fy]
    exact ⟨rfl, rfl⟩
  constructor
  · intro j hj1 hj
    refine ⟨respawn_countdown pools s h j hj1 hj, ?_⟩
    unfold slime_sprite_after
    by_cases hi : j = 1
    · subst hi
      rw [show (1 : Nat) - 1 = 0 from rfl, slime_updates, update_slime_dead _ s h]
      exact hpark _ _
    · have hc := update_slime_counting (pools (j - 1))
        { s with dead := 0, delay := 500 - ((j - 1 : Nat) : Int) }
        (show (0 : Int) ≠ 1 by decide) (show (0 : Int) < 500 - ((j - 1 : Nat) : Int) by omega)
      rw [respawn_countdown pools s h (j - 1) (by omega) (by omega), hc]
      exact hpark _ _
  · intro j hj
    refine ⟨respawn_teleport pools s h hid j hj, ?_⟩
    unfold slime_sprite_after
    by_cases hi : j = 501
    · subst hi
      have hc := update_slime_spawn (pools 500)
        { s with dead := 0, delay := 500 - ((500 : Nat) : Int) }
        (show (0 : Int) ≠ 1 by decide) (show (500 : Int) - ((500 : Nat) : Int) = 0 by decide)
        hid
      rw [show (501 : Nat) - 1 = 500 from rfl,
        respawn_countdown pools s h 500 (by decide) (by decide), hc]
      exact hspawn _ _
    · have hc := update_slime_active (pools (j - 1))
        { s with dead := 0, x := (spawn_point s.id).1, y := (spawn_point s.id).2, delay := -1 }
        (show (0 : Int) ≠ 1 by decide) (show (-1 : Int) < 0 by decide)
      rw [respawn_teleport pools s h hid (j - 1) (by omega), hc]
      exact hspawn _ _

/-- C12: respawn law. For a slime with identity in {1, 2, 3, 4} whose `dead` flag is 1
when the `update_slime` call of tick `T` runs, and which is then changed only by one
`update_slime` call per tick (call number `i`, counted from 0, is the call of tick `T + i`):
after the call of every tick `T + i` with `i < 500` the sprite is parked at (240, 240) and
the slime is not active, `delay = 499 - i ≥ 0`; the call of tick `T + 500` sets the
position of slime and sprite to the spawn point of the identity ((120, 0), (120, 144),
(16, 80), (224, 80) for 1..4) and `delay` to -1; no later call moves the slime again: after
the call of every tick `T + i` with `i ≥ 500` the slime is at the spawn point with
`delay = -1`. -/
theorem respawn_law (pools : Nat → Pool) (s : Slime) (h : s.dead = 1)
    (hid : s.id = 1 ∨ s.id = 2 ∨ s.id = 3 ∨ s.id = 4) :
    (∀ i : Nat, i < 500 →
      sprite_x (slime_sprite_after pools i s) = 240 ∧
      sprite_y (slime_sprite_after pools i s) = 240 ∧
      (slime_updates pools (i + 1) s).delay = 499 - i ∧
      0 ≤ (slime_updates pools (i + 1) s).delay) ∧
    (∀ i : Nat, 500 ≤ i →
      (slime_updates pools (i + 1) s).x = (spawn_point s.id).1 ∧
      (slime_updates pools (i + 1) s).y = (spawn_point s.id).2 ∧
      (slime_updates pools (i + 1) s).delay = -1 ∧
      (sprite_x (slime_sprite_after pools i s) : Int) = (spawn_point s.id).1 ∧
      (sprite_y (slime_sprite_after pools i s) : Int) = (spawn_point s.id).2) ∧
    spawn_point 1 = (120, 0) ∧ spawn_point 2 = (120, 144) ∧ spawn_point 3 = (16, 80) ∧
    spawn_point 4 = (224, 80) := by
  obtain ⟨hpark, hspawn⟩ := respawn_schedule pools s h hid
  refine ⟨?_, ?_, rfl, rfl, rfl, rfl⟩
  · intro i hi
    obtain ⟨hs, hx, hy⟩ := hpark (i + 1) (by omega) (by omega)
    rw [Nat.add_sub_cancel] at hx hy
    rw [hs]
    refine ⟨hx, hy, ?_, ?_⟩
    · show (500 : Int) - ((i + 1 : Nat) : Int) = 499 - (i : Int)
      push_cast
      ring
    · show (0 : Int) ≤ 500 - ((i + 1 : Nat) : Int)
      push_cast
      omega
  · intro i hi
    obtain ⟨hs, hx, hy⟩ := hspawn (i + 1) (by omega)
    rw [Nat.add_sub_cancel] at hx hy
    obtain ⟨_, _, px, py⟩ := spawn_point_fields s.id
    rw [hs, hx, hy]
    exact ⟨rfl, rfl, rfl, Int.toNat_of_nonneg px, Int.toNat_of_nonneg py⟩

/-- C12, at a concrete input: the slime of identity 2, flagged dead; after the call of tick
`T + 300` the countdown is at 199, after the call of tick `T + 499` it is at 0 with the
slime still at (240, 240), and the call of tick `T + 500` puts the slime at (120, 144) with
`delay = -1`. -/
theorem respawn_law_witness :
    (slime_dead 2).dead = 1 ∧
    (slime_updates (fun _ => pool_zero) 301 (slime_dead 2)).delay = 199 ∧
    (slime_updates (fun _ => pool_zero) 500 (slime_dead 2)).delay = 0 ∧
    sprite_x (slime_sprite_after (fun _ => pool_zero) 499 (slime_dead 2)) = 240 ∧
    (slime_updates (fun _ => pool_zero) 501 (slime_dead 2)).x = 120 ∧
    (slime_updates (fun _ => pool_zero) 501 (slime_dead 2)).y = 144 ∧
    (slime_updates (fun _ => pool_zero) 501 (slime_dead 2)).delay = -1 := by
  obtain ⟨hpark, hspawn, _⟩ := respawn_law (fun _ => pool_zero) (slime_dead 2) rfl
    (Or.inr (Or.inl rfl))
  obtain ⟨_, _, hd, _⟩ := hpark 300 (by decide)
  obtain ⟨hsx, _, hd2, _⟩ := hpark 499 (by decide)
  obtain ⟨hx, hy, hdl, _⟩ := hspawn 500 (by decide)
  refine ⟨rfl, ?_, ?_, hsx, hx, hy, hdl⟩
  · rw [hd]
    decide
  · rw [hd2]
    decide

/-! ## Kill counting and collisions -/

theorem wrap_int_id (v : Int) (h : -2147483648 ≤ v ∧ v ≤ 2147483647) : wrap_int v = v := by
  unfold wrap_int
  omega

/-- The kill counting of one tick: the four `dead` flags become 1 and `kills` becomes
`kills + 4` reduced into the `int` range; nothing else changes. -/
theorem kill_step_eq (g : Game) :
    kill_step g =
      { g with kills := wrap_int (g.kills + 4),
               slime1 := { g.slime1 with dead := 1 }, slime2 := { g.slime2 with dead := 1 },
               slime3 := { g.slime3 with dead := 1 }, slime4 := { g.slime4 with dead := 1 } } := by
  have h4 : wrap_int (wrap_int (wrap_int (wrap_int (g.kills + 1) + 1) + 1) + 1) =
      wrap_int (g.kills + 4) := by
    unfold wrap_int
    omega
  unfold kill_step
  simp only [ne_eq, one_ne_zero, not_false_eq_true, if_true, h4]

/-- C18, the claim as written fails at the end of the `int` range. With
`kills = 2147483644` (4 times 536870911) the kill counting of one tick leaves
`kills = -2147483648`, not `2147483648`; with `kills = 2147483646` it leaves
`-2147483646`, not `2147483650`. -/
theorem kill_step_wraps :
    (kill_step (game_kills 2147483644)).kills = -2147483648 ∧
    (kill_step (game_kills 2147483644)).kills ≠ (game_kills 2147483644).kills + 4 ∧
    (kill_step (game_kills 2147483646)).kills = -2147483646 ∧
    (kill_step (game_kills 2147483646)).kills ≠ (game_kills 2147483646).kills + 4 := by
  refine ⟨?_, ?_, ?_, ?_⟩ <;> rw [kill_step_eq] <;> decide

/-- C18, amended: kill counting is unconditional. For every game state, the kill counting
of one tick sets the `dead` flag of each of the four slimes to 1, leaves `kills` equal to
`kills + 4` reduced into the 32-bit `int` range, and changes nothing else; the new `kills`
depends on the old `kills` only, not on the `dead` flags before the step. For every game
state whose `kills` is an `int` value not above 2147483643 (`INT_MAX - 4`), the step
increases `kills` by exactly 4. -/
theorem kill_step_counts (g : Game) :
    ((kill_step g).slime1.dead = 1 ∧ (kill_step g).slime2.dead = 1 ∧
      (kill_step g).slime3.dead = 1 ∧ (kill_step g).slime4.dead = 1) ∧
    kill_step g =
      { g with kills := wrap_int (g.kills + 4),
               slime1 := { g.slime1 with dead := 1 }, slime2 := { g.slime2 with dead := 1 },
               slime3 := { g.slime3 with dead := 1 }, slime4 := { g.slime4 with dead := 1 } } ∧
    (∀ g2 : Game, g2.kills = g.kills → (kill_step g2).kills = (kill_step g).kills) ∧
    (-2147483648 ≤ g.kills ∧ g.kills ≤ 2147483643 →
      (kill_step g).kills = g.kills + 4 ∧
      kill_step g =
        { g with kills := g.kills + 4,
                 slime1 := { g.slime1 with dead := 1 }, slime2 := { g.slime2 with dead := 1 },
                 slime3 := { g.slime3 with dead := 1 },
                 slime4 := { g.slime4 with dead := 1 } }) := by
  refine ⟨?_, kill_step_eq g, fun g2 h2 => ?_, fun hr => ?_⟩
  · rw [kill_step_eq]
    exact ⟨rfl, rfl, rfl, rfl⟩
  · rw [kill_step_eq, kill_step_eq]
    show wrap_int (g2.kills + 4) = wrap_int (g.kills + 4)
    rw [h2]
  · have hw : wrap_int (g.kills + 4) = g.kills + 4 := wrap_int_id _ (by omega)
    rw [kill_step_eq, hw]
    exact ⟨rfl, rfl⟩

/-- C18, amended, at a concrete input: from `kills = 0`, with the four slimes not flagged
dead, the kill counting leaves `kills = 4` and the four flags set. -/
theorem kill_step_counts_witness :
    (game_kills 0).slime1.dead = 0 ∧ (kill_step (game_kills 0)).kills = 4 ∧
    (kill_step (game_kills 0)).slime1.dead = 1 :=
  ⟨rfl, ((kill_step_counts (game_kills 0)).2.2.2 (by decide)).1,
    (kill_step_counts (game_kills 0)).1.1⟩

/-- C15, the code at a failing input: `collision_check` returns the player and the slime
as they were, for every input. For the player at (100, 113) with health 3 and
`invincible = 0` and a slime at the same place, the overlap condition holds and the call
leaves health 3 (not 2) and `invincible = 0` (not 30). -/
theorem collision_check_no_damage :
    (∀ (p : Player) (s : Slime), collision_check p s = (p, s)) ∧
    ((player_at 100 113).x ≥ (slime_at 100 113 0).x ∧
      (player_at 100 113).x < (slime_at 100 113 0).x + 16 ∧
      (player_at 100 113).y ≥ (slime_at 100 113 0).y ∧
      (player_at 100 113).y < (slime_at 100 113 0).y + 16) ∧
    (player_at 100 113).invincible = 0 ∧ (player_at 100 113).health = 3 ∧
    (collision_check (player_at 100 113) (slime_at 100 113 0)).1.health = 3 ∧
    (collision_check (player_at 100 113) (slime_at 100 113 0)).1.invincible = 0 := by
  refine ⟨collision_check_eq, by decide, rfl, rfl, ?_, ?_⟩
  · rw [collision_check_eq]
    rfl
  · rw [collision_check_eq]
    rfl

/-! ## Bullets -/

theorem sprite_set_offset_tile (pool : Pool) (sprite : Fin 128) (offset : Int) :
    sprite_tile ((sprite_set_offset pool sprite offset).sprites.get sprite) =
      (Int.land offset 0x03ff).toNat &&& 0x03ff := by
  unfold sprite_set_offset sprite_tile
  simp only [Mathlib.Vector.get_set_same]
  rw [Nat.and_distrib_right, Nat.and_assoc]
  have h0 : (0xfc00 : Nat) &&& 0x03ff = 0 := by decide
  rw [h0, Nat.and_zero, Nat.zero_or]

theorem sprite_set_offset_90 (pool : Pool) (sprite : Fin 128) :
    sprite_tile ((sprite_set_offset pool sprite 90).sprites.get sprite) = 90 := by
  rw [sprite_set_offset_tile]
  decide

theorem bullet_check_hit (pool : Pool) (bullet : Bullet) (slime : Slime)
    (h : bullet.x + 4 > slime.x ∧ bullet.x + 4 < slime.x + 16 ∧ bullet.y + 4 > slime.y ∧
      bullet.y + 4 < slime.y + 16 ∧ slime.dead = 0) :
    bullet_check pool bullet slime =
      (sprite_set_offset pool bullet.sprite 90,
        { bullet with x := 0, y := 0, dx := 0, dy := 0, transparent := 1 },
        { slime with x := 240, y := 240, dead := 1 }) := by
  unfold bullet_check
  rw [if_pos h]

theorem bullet_check_miss (pool : Pool) (bullet : Bullet) (slime : Slime)
    (h : ¬ (bullet.x + 4 > slime.x ∧ bullet.x + 4 < slime.x + 16 ∧ bullet.y + 4 > slime.y ∧
      bullet.y + 4 < slime.y + 16 ∧ slime.dead = 0)) :
    bullet_check pool bullet slime = (pool, bullet, slime) := by
  unfold bullet_check
  rw [if_neg h]

/-- C19 fails as stated: for the bullet at (46, 50) and the living slime at (50, 50) the
point `(bullet.x + 4, bullet.y + 4) = (50, 54)` lies in the box
`slime.x ≤ 50 < slime.x + 16`, `slime.y ≤ 54 < slime.y + 16`, but `bullet_check` changes
nothing: its test on the low side is strict. -/
theorem bullet_check_edge_misses :
    (slime_at 50 50 0).x ≤ (bullet_flying 1 46 50).x + 4 ∧
    (bullet_flying 1 46 50).x + 4 < (slime_at 50 50 0).x + 16 ∧
    (slime_at 50 50 0).y ≤ (bullet_flying 1 46 50).y + 4 ∧
    (bullet_flying 1 46 50).y + 4 < (slime_at 50 50 0).y + 16 ∧
    (slime_at 50 50 0).dead = 0 ∧
    bullet_check pool_zero (bullet_flying 1 46 50) (slime_at 50 50 0) =
      (pool_zero, bullet_flying 1 46 50, slime_at 50 50 0) :=
  ⟨by decide, by decide, by decide, by decide, rfl,
    bullet_check_miss pool_zero (bullet_flying 1 46 50) (slime_at 50 50 0) (by decide)⟩

/-- C19, amended: for every sprite table, bullet and slime, `bullet_check` changes the state
exactly when the point `(bullet.x + 4, bullet.y + 4)` lies strictly inside the low sides of
the slime box, `slime.x < bullet.x + 4 < slime.x + 16` and
`slime.y < bullet.y + 4 < slime.y + 16`, and `slime.dead = 0`. In that case the bullet is
deactivated (position (0, 0), velocity (0, 0), `transparent = 1`, sprite tile offset 90) and
the slime is marked dead and parked at (240, 240), its other fields unchanged; otherwise
the sprite table, the bullet and the slime are unchanged. -/
theorem bullet_check_spec (pool : Pool) (bullet : Bullet) (slime : Slime) :
    ((slime.x < bullet.x + 4 ∧ bullet.x + 4 < slime.x + 16 ∧ slime.y < bullet.y + 4 ∧
        bullet.y + 4 < slime.y + 16 ∧ slime.dead = 0) →
      (bullet_check pool bullet slime).2.1 =
        { bullet with x := 0, y := 0, dx := 0, dy := 0, transparent := 1 } ∧
      sprite_tile ((bullet_check pool bullet slime).1.sprites.get bullet.sprite) = 90 ∧
      (bullet_check pool bullet slime).2.2 = { slime with x := 240, y := 240, dead := 1 } ∧
      bullet_check pool bullet slime ≠ (pool, bullet, slime)) ∧
    (¬ (slime.x < bullet.x + 4 ∧ bullet.x + 4 < slime.x + 16 ∧ slime.y < bullet.y + 4 ∧
        bullet.y + 4 < slime.y + 16 ∧ slime.dead = 0) →
      bullet_check pool bullet slime = (pool, bullet, slime)) := by
  constructor
  · intro h
    rw [bullet_check_hit pool bullet slime h]
    refine ⟨rfl, sprite_set_offset_90 pool bullet.sprite, rfl, ?_⟩
    intro heq
    have hd := congrArg (fun r => r.2.2.dead) heq
    simp only [] at hd
    rw [h.2.2.2.2] at hd
    exact absurd hd (by decide)
  · intro h
    exact bullet_check_miss pool bullet slime h

/-- C19, amended, at a concrete input: the bullet at (50, 50) hits the living slime at
(50, 50); the slime ends dead at (240, 240) and the bullet inactive at (0, 0). -/
theorem bullet_check_spec_witness :
    (bullet_check pool_zero (bullet_flying 1 50 50) (slime_at 50 50 0)).2.1 = bullet_idle 1 ∧
    (bullet_check pool_zero (bullet_flying 1 50 50) (slime_at 50 50 0)).2.2 =
      { slime_at 240 240 0 with dead := 1 } := by
  obtain ⟨hb, _, hs, _⟩ :=
    (bullet_check_spec pool_zero (bullet_flying 1 50 50) (slime_at 50 50 0)).1 (by decide)
  exact ⟨hb, hs⟩

/-! ## Health along a run -/

theorem player_left_health (fuel : Nat) (env : Env) (pool : Pool) (player : Player)
    (xscroll yscroll : Int) (r : Int × Pool × Player)
    (h : player_left fuel env pool player xscroll yscroll = some r) :
    r.2.2.health = player.health := by
  unfold player_left at h
  dsimp only at h
  repeat' split at h
  all_goals (cases h <;> rfl)

theorem player_right_health (fuel : Nat) (env : Env) (pool : Pool) (player : Player)
    (xscroll yscroll : Int) (r : Int × Pool × Player)
    (h : player_right fuel env pool player xscroll yscroll = some r) :
    r.2.2.health = player.health := by
  unfold player_right at h
  dsimp only at h
  repeat' split at h
  all_goals (cases h <;> rfl)

theorem player_up_health (fuel : Nat) (env : Env) (pool : Pool) (player : Player)
    (xscroll yscroll : Int) (r : Int × Pool × Player)
    (h : player_up fuel env pool player xscroll yscroll = some r) :
    r.2.2.health = player.health := by
  unfold player_up at h
  dsimp only at h
  repeat' split at h
  all_goals (cases h <;> rfl)

theorem player_down_health (fuel : Nat) (env : Env) (pool : Pool) (player : Player)
    (xscroll yscroll : Int) (r : Int × Pool × Player)
    (h : player_down fuel env pool player xscroll yscroll = some r) :
    r.2.2.health = player.health := by
  unfold player_down at h
  dsimp only at h
  repeat' split at h
  all_goals (cases h <;> rfl)

theorem player_stop_health (pool : Pool) (player : Player) :
    (player_stop pool player).2.health = player.health := by
  unfold player_stop
  dsimp only
  split_ifs <;> rfl

theorem move_step_health (fuel : Nat) (env : Env) (input : Input) (g g1 : Game)
    (h : move_step fuel env input g = some g1) : g1.player.health = g.player.health := by
  unfold move_step at h
  split_ifs at h
  · split at h
    · cases h
    · rename_i r hr
      have hh := player_right_health fuel env g.pool g.player g.xscroll g.yscroll r hr
      dsimp only at h
      split_ifs at h <;> (cases h; exact hh)
  · split at h
    · cases h
    · rename_i r hr
      have hh := player_left_health fuel env g.pool g.player g.xscroll g.yscroll r hr
      dsimp only at h
      split_ifs at h <;> (cases h; exact hh)
  · split at h
    · cases h
    · rename_i r hr
      have hh := player_up_health fuel env g.pool g.player g.xscroll g.yscroll r hr
      dsimp only at h
      split_ifs at h <;> (cases h; exact hh)
  · split at h
    · cases h
    · rename_i r hr
      have hh := player_down_health fuel env g.pool g.player g.xscroll g.yscroll r hr
      dsimp only at h
      split_ifs at h <;> (cases h; exact hh)
  · cases h
    exact player_stop_health g.pool g.player

theorem slime_step_player (fuel : Nat) (env : Env) (g g1 : Game)
    (h : slime_step fuel env g = some g1) : g1.player = g.player := by
  unfold slime_step at h
  repeat' split at h
  all_goals (cases h <;> rfl)

theorem reset_step_eq (g : Game) (h : g.player.health = 0) :
    ∃ pool1, reset_step g =
      some { g with pool := pool1, player := player_at 100 113, bullet1 := bullet_idle 1,
                    bullet2 := bullet_idle 2, bullet3 := bullet_idle 3,
                    slime1 := slime_new 4 1 100, slime2 := slime_new 5 1 400,
                    slime3 := slime_new 6 1 800, slime4 := slime_new 7 1 1000,
                    kills := 0, wave := 0 } := by
  unfold reset_step
  rw [if_pos h]
  simp [player_init, bullet_init, slime_init, sprite_init, sprite_clear, player_at,
    bullet_idle, slime_new]

theorem reset_step_health (g g1 : Game) (h : reset_step g = some g1) :
    g1.player.health = if g.player.health = 0 then 3 else g.player.health := by
  by_cases h0 : g.player.health = 0
  · obtain ⟨pool1, e⟩ := reset_step_eq g h0
    rw [e] at h
    cases h
    rw [if_pos h0]
    rfl
  · rw [reset_step_alive g h0] at h
    cases h
    rw [if_neg h0]

/-- One tick changes the health of the player only in the reset block, from 0 to 3. -/
theorem tick_health (fuel : Nat) (env : Env) (input : Input) (g g1 : Game)
    (h : tick fuel env input g = some g1) :
    g1.player.health = if g.player.health = 0 then 3 else g.player.health := by
  unfold tick at h
  split at h
  · cases h
  · rename_i g2 hb
    have h2 : g2.player.health = g.player.health := by
      unfold before_fire at hb
      rw [move_step_health fuel env input _ g2 hb]
      exact (player_update_place g.pool g.player g.xscroll).2.2.2
    unfold after_fire at h
    split at h
    · cases h
    · rename_i g3 hs
      have h3 : g3.player.health = g.player.health := by
        rw [slime_step_player fuel env _ g3 hs, (fire_step_frame input g2).1, h2]
      rw [reset_step_health _ g1 h, (after_steps_frame env g3).1.2.2.2, h3]

/-- No tick, from any state and with any buttons, lowers the health of the player. -/
theorem tick_health_map (fuel : Nat) (env : Env) (input : Input) (g : Game) :
    (tick fuel env input g).map (fun g1 => g1.player.health) =
      (tick fuel env input g).map
        (fun _ => if g.player.health = 0 then 3 else g.player.health) := by
  cases h : tick fuel env input g with
  | none => rfl
  | some g1 =>
    show some g1.player.health = some _
    rw [tick_health fuel env input g g1 h]

/-- C17, the code at a failing input: the reset block run on the start state with health 0
returns a state whose player, bullets, first slime and sprite globals are
those of the start state of `main`, but whose slimes 2, 3 and 4 have identity 1, where the
start state has identities 2, 3 and 4; their other fields are those of the start state.
The reset keeps `bullet_delay`, `xscroll` and `yscroll`. -/
theorem reset_collapses_slime_ids :
    game_dying.player.health = 0 ∧
    ∃ g0 g1, game_start = some g0 ∧ reset_step game_dying = some g1 ∧
      g0.slime1.id = 1 ∧ g0.slime2.id = 2 ∧ g0.slime3.id = 3 ∧ g0.slime4.id = 4 ∧
      g1.slime1.id = 1 ∧ g1.slime2.id = 1 ∧ g1.slime3.id = 1 ∧ g1.slime4.id = 1 ∧
      g1.player = g0.player ∧ g1.bullet1 = g0.bullet1 ∧ g1.bullet2 = g0.bullet2 ∧
      g1.bullet3 = g0.bullet3 ∧ g1.slime1 = g0.slime1 ∧
      g1.slime2 = { g0.slime2 with id := 1 } ∧ g1.slime3 = { g0.slime3 with id := 1 } ∧
      g1.slime4 = { g0.slime4 with id := 1 } ∧
      g1.pool = g0.pool ∧ g1.pool.next_sprite_index = 8 :=
  ⟨rfl, _, _, rfl, rfl, rfl, rfl, rfl, rfl, rfl, rfl, rfl, rfl, rfl, rfl, rfl, rfl, rfl, rfl,
    rfl, rfl, rfl, rfl⟩

/-! ## The bullet invariant -/

theorem sprite_position_tile (pool : Pool) (sprite other : Fin 128) (x y : Int) :
    sprite_tile ((sprite_position pool sprite x y).sprites.get other) =
      sprite_tile (pool.sprites.get other) := by
  unfold sprite_position sprite_tile
  simp only [Mathlib.Vector.get_set_eq_if]
  split_ifs with h
  · rw [h]
  · rfl

theorem sprite_init_tile (pool : Pool) (x y : Int) (size : SpriteSize)
    (horizontal_flip vertical_flip tile_index priority : Int) (pool1 : Pool) (slot : Fin 128)
    (h : sprite_init pool x y size horizontal_flip vertical_flip tile_index priority =
      some (pool1, slot)) :
    sprite_tile (pool1.sprites.get slot) =
      to_u16 (Int.lor tile_index (Int.lor (shl priority 10) (shl 0 12))) &&& 0x03ff := by
  unfold sprite_init at h
  dsimp only at h
  split at h
  · cases h
    unfold sprite_tile
    simp only [Mathlib.Vector.get_set_same]
  · cases h

theorem bullet_init_inv (pool : Pool) (r : Pool × Bullet) (h : bullet_init pool = some r) :
    bullet_inv r := by
  unfold bullet_init at h
  dsimp only at h
  split at h
  · cases h
  · rename_i pool1 sprite heq
    cases h
    refine ⟨Or.inl rfl, fun _ => ⟨rfl, rfl, ?_⟩,
      fun h0 => absurd h0 (show ¬ ((1 : Int) = 0) by decide)⟩
    show sprite_tile (pool1.sprites.get sprite) = 90
    rw [sprite_init_tile pool 0 0 .SIZE_8_8 0 0 90 1 pool1 sprite heq]
    decide

theorem shoot_inv (r : Pool × Bullet) (player : Player) (hinv : bullet_inv r)
    (ht : r.2.transparent = 1)
    (hf : player.facing = 0 ∨ player.facing = 1 ∨ player.facing = 2 ∨ player.facing = 3) :
    bullet_inv (shoot r.1 player r.2) := by
  obtain ⟨hdx, hdy, _⟩ := hinv.2.1 ht
  obtain ⟨f0, _, _, g0, g1, g2, g3⟩ := shoot_fired_from r.1 player r.2 hdx hdy
  refine ⟨Or.inr f0, fun h1 => ?_, fun _ => ?_⟩
  · rw [f0] at h1
    exact absurd h1 (by decide)
  · rcases hf with h | h | h | h
    · exact Or.inl ⟨(g0 h).1, Or.inl (g0 h).2⟩
    · exact Or.inr ⟨(g1 h).2, Or.inr (g1 h).1⟩
    · exact Or.inr ⟨(g2 h).2, Or.inl (g2 h).1⟩
    · exact Or.inl ⟨(g3 h).1, Or.inr (g3 h).2⟩

theorem update_bullet_inv (r : Pool × Bullet) (hinv : bullet_inv r) :
    bullet_inv (update_bullet r.1 r.2) := by
  unfold update_bullet
  by_cases ht : r.2.transparent = 0
  · rw [if_pos ht]
    dsimp only
    split_ifs with hout
    · refine ⟨Or.inl rfl, fun _ => ⟨rfl, rfl, ?_⟩,
        fun h0 => absurd h0 (show ¬ ((1 : Int) = 0) by decide)⟩
      show sprite_tile ((sprite_position (sprite_set_offset r.1 r.2.sprite 90) r.2.sprite
        0 0).sprites.get r.2.sprite) = 90
      rw [sprite_position_tile, sprite_set_offset_90]
    · refine ⟨Or.inr ht, fun h1 => ?_, fun _ => hinv.2.2 ht⟩
      have h1' : r.2.transparent = 1 := h1
      rw [ht] at h1'
      exact absurd h1' (by decide)
  · rw [if_neg ht]
    exact hinv

theorem bullet_check_inv (r : Pool × Bullet) (slime : Slime) (hinv : bullet_inv r) :
    bullet_inv ((bullet_check r.1 r.2 slime).1, (bullet_check r.1 r.2 slime).2.1) := by
  by_cases hit : r.2.x + 4 > slime.x ∧ r.2.x + 4 < slime.x + 16 ∧ r.2.y + 4 > slime.y ∧
      r.2.y + 4 < slime.y + 16 ∧ slime.dead = 0
  · rw [bullet_check_hit r.1 r.2 slime hit]
    exact ⟨Or.inl rfl, fun _ => ⟨rfl, rfl, sprite_set_offset_90 r.1 r.2.sprite⟩,
      fun h0 => absurd h0 (show ¬ ((1 : Int) = 0) by decide)⟩
  · rw [bullet_check_miss r.1 r.2 slime hit]
    exact hinv

theorem bullet_ops_inv (ops : List BulletOp) :
    ∀ r0 r : Pool × Bullet, bullet_inv r0 → bullet_ops ops r0 = some r → bullet_inv r := by
  induction ops with
  | nil =>
    intro r0 r h0 h
    rw [bullet_ops] at h
    cases h
    exact h0
  | cons op ops ih =>
    intro r0 r h0 h
    rw [bullet_ops] at h
    split at h
    · cases h
    · rename_i r1 h1
      refine ih r1 r ?_ h
      cases op with
      | shoot player =>
        simp only [bullet_op] at h1
        split_ifs at h1 with hc
        cases h1
        exact shoot_inv r0 player h0 hc.1 hc.2
      | update =>
        simp only [bullet_op] at h1
        cases h1
        exact update_bullet_inv r0 h0
      | check slime =>
        simp only [bullet_op] at h1
        cases h1
        exact bullet_check_inv r0 slime h0

/-- C20: bullet invariant. In every state reached from `bullet_init` by a sequence of
`shoot` (only on an inactive bullet, with the facing of the player in 0..3),
`update_bullet` and `bullet_check` (against any slime), the bullet is inactive
(`transparent = 1`) or active (`transparent = 0`); an inactive bullet has velocity (0, 0)
and its sprite has tile offset 90; an active bullet has exactly one of `dx`, `dy` not zero,
and that one is 1 or -1. -/
theorem bullet_invariant (pool0 : Pool) (r0 : Pool × Bullet) (ops : List BulletOp)
    (r : Pool × Bullet) (hinit : bullet_init pool0 = some r0)
    (hops : bullet_ops ops r0 = some r) :
    (r.2.transparent = 1 ∨ r.2.transparent = 0) ∧
    (r.2.transparent = 1 →
      r.2.dx = 0 ∧ r.2.dy = 0 ∧ sprite_tile (r.1.sprites.get r.2.sprite) = 90) ∧
    (r.2.transparent = 0 →
      (r.2.dx = 0 ∧ (r.2.dy = 1 ∨ r.2.dy = -1)) ∨ (r.2.dy = 0 ∧ (r.2.dx = 1 ∨ r.2.dx = -1))) :=
  bullet_ops_inv ops r0 r (bullet_init_inv pool0 r0 hinit) hops

/-- C20, at a concrete input: from `bullet_init` on the zero sprite table, the bullet is
shot by the player at (100, 113) facing down, updated, checked against a slime it does not
touch and updated again; it is active at (108, 123) with velocity (0, 1). -/
theorem bullet_invariant_witness :
    ∃ r0 r, bullet_init pool_zero = some r0 ∧
      bullet_ops [.shoot (player_at 100 113), .update, .check (slime_at 50 50 0), .update] r0
        = some r ∧
      r.2.transparent = 0 ∧ r.2.x = 108 ∧ r.2.y = 123 ∧ r.2.dx = 0 ∧ r.2.dy = 1 ∧
      ((r.2.dx = 0 ∧ (r.2.dy = 1 ∨ r.2.dy = -1)) ∨ (r.2.dy = 0 ∧ (r.2.dx = 1 ∨ r.2.dx = -1))) :=
  ⟨_, _, rfl, rfl, rfl, rfl, rfl, rfl, rfl,
    (bullet_invariant pool_zero _
      [.shoot (player_at 100 113), .update, .check (slime_at 50 50 0), .update] _ rfl rfl).2.2
      rfl⟩

/-! ## Bullet flight -/

theorem update_bullet_idle (pool : Pool) (bullet : Bullet) (h : bullet.transparent ≠ 0) :
    update_bullet pool bullet = (pool, bullet) := by
  unfold update_bullet
  rw [if_neg h]

theorem update_bullet_flies (pool : Pool) (bullet : Bullet) (h : bullet.transparent = 0)
    (hin : ¬ (bullet.x + bullet.dx > SCREEN_WIDTH ∨ bullet.y + bullet.dy > SCREEN_HEIGHT ∨
      bullet.x + bullet.dx < 0 ∨ bullet.y + bullet.dy < 0)) :
    update_bullet pool bullet =
      (sprite_position pool bullet.sprite (bullet.x + bullet.dx) (bullet.y + bullet.dy),
        { bullet with x := bullet.x + bullet.dx, y := bullet.y + bullet.dy }) := by
  unfold update_bullet
  rw [if_pos h]
  dsimp only
  rw [if_neg hin]

theorem update_bullet_leaves (pool : Pool) (bullet : Bullet) (h : bullet.transparent = 0)
    (hout : bullet.x + bullet.dx > SCREEN_WIDTH ∨ bullet.y + bullet.dy > SCREEN_HEIGHT ∨
      bullet.x + bullet.dx < 0 ∨ bullet.y + bullet.dy < 0) :
    update_bullet pool bullet =
      (sprite_position (sprite_set_offset pool bullet.sprite 90) bullet.sprite 0 0,
        { bullet with x := 0, y := 0, dx := 0, dy := 0, transparent := 1 }) := by
  unfold update_bullet
  rw [if_pos h]
  dsimp only
  rw [if_pos hout]

/-- C21, the claim as written fails on the edge of the screen: an active bullet at (239, 50)
with velocity (1, 0) is advanced to x = 240, which is outside the rectangle
`0 <= x < 240`, and `update_bullet` leaves it active with its velocity: the test of the
source is `bullet->x > SCREEN_WIDTH`. The same holds at y = 160. -/
theorem update_bullet_edge_stays_active :
    (bullet_flying 1 239 50).transparent = 0 ∧
    (update_bullet pool_zero (bullet_flying 1 239 50)).2.x = 240 ∧
    ¬ ((update_bullet pool_zero (bullet_flying 1 239 50)).2.x < 240) ∧
    (update_bullet pool_zero (bullet_flying 1 239 50)).2.transparent = 0 ∧
    (update_bullet pool_zero (bullet_flying 1 239 50)).2.dx = 1 ∧
    (update_bullet pool_zero
      { bullet_flying 1 100 159 with dx := 0, dy := 1 }).2.y = 160 ∧
    (update_bullet pool_zero
      { bullet_flying 1 100 159 with dx := 0, dy := 1 }).2.transparent = 0 := by
  refine ⟨rfl, rfl, by decide, rfl, rfl, rfl, rfl⟩

/-- C21, amended: `update_bullet` leaves an inactive bullet (`transparent` not 0) and the
sprite table unchanged. It advances the position of an active bullet by its velocity; if
the new position is inside the closed rectangle `0 <= x <= 240`, `0 <= y <= 160`, nothing
else of the bullet changes and its sprite is positioned there; otherwise the bullet is
deactivated: position (0, 0), velocity (0, 0), `transparent = 1`, tile offset 90. So after
`update_bullet` every active bullet lies in that closed rectangle. -/
theorem update_bullet_spec (pool : Pool) (bullet : Bullet) :
    (bullet.transparent ≠ 0 → update_bullet pool bullet = (pool, bullet)) ∧
    (bullet.transparent = 0 →
      (0 ≤ bullet.x + bullet.dx ∧ bullet.x + bullet.dx ≤ 240 ∧
        0 ≤ bullet.y + bullet.dy ∧ bullet.y + bullet.dy ≤ 160 →
        update_bullet pool bullet =
          (sprite_position pool bullet.sprite (bullet.x + bullet.dx) (bullet.y + bullet.dy),
            { bullet with x := bullet.x + bullet.dx, y := bullet.y + bullet.dy })) ∧
      (¬ (0 ≤ bullet.x + bullet.dx ∧ bullet.x + bullet.dx ≤ 240 ∧
        0 ≤ bullet.y + bullet.dy ∧ bullet.y + bullet.dy ≤ 160) →
        (update_bullet pool bullet).2 =
          { bullet with x := 0, y := 0, dx := 0, dy := 0, transparent := 1 } ∧
        sprite_tile ((update_bullet pool bullet).1.sprites.get bullet.sprite) = 90)) ∧
    ((update_bullet pool bullet).2.transparent = 0 →
      0 ≤ (update_bullet pool bullet).2.x ∧ (update_bullet pool bullet).2.x ≤ 240 ∧
      0 ≤ (update_bullet pool bullet).2.y ∧ (update_bullet pool bullet).2.y ≤ 160) := by
  refine ⟨update_bullet_idle pool bullet, fun h => ⟨fun hin => ?_, fun hout => ?_⟩, fun h => ?_⟩
  · apply update_bullet_flies pool bullet h
    unfold SCREEN_WIDTH SCREEN_HEIGHT
    omega
  · rw [update_bullet_leaves pool bullet h (by unfold SCREEN_WIDTH SCREEN_HEIGHT; omega)]
    refine ⟨rfl, ?_⟩
    show sprite_tile ((sprite_position (sprite_set_offset pool bullet.sprite 90) bullet.sprite
      0 0).sprites.get bullet.sprite) = 90
    rw [sprite_position_tile, sprite_set_offset_90]
  · by_cases ht : bullet.transparent = 0
    · by_cases hout : bullet.x + bullet.dx > SCREEN_WIDTH ∨ bullet.y + bullet.dy > SCREEN_HEIGHT ∨
          bullet.x + bullet.dx < 0 ∨ bullet.y + bullet.dy < 0
      · rw [update_bullet_leaves pool bullet ht hout] at h
        exact absurd h (show ¬ ((1 : Int) = 0) by decide)
      · rw [update_bullet_flies pool bullet ht hout]
        unfold SCREEN_WIDTH SCREEN_HEIGHT at hout
        dsimp only
        omega
    · rw [update_bullet_idle pool bullet ht] at h
      exact absurd h ht

/-- C21, amended, at concrete inputs: the active bullet at (100, 50) with velocity (1, 0)
moves to (101, 50) and stays active; the one at (240, 50) is advanced to x = 241 and is
deactivated. -/
theorem update_bullet_spec_witness :
    (bullet_flying 1 100 50).transparent = 0 ∧
    update_bullet pool_zero (bullet_flying 1 100 50) =
      (sprite_position pool_zero 1 101 50, bullet_flying 1 101 50) ∧
    (update_bullet pool_zero (bullet_flying 1 240 50)).2 = bullet_idle 1 :=
  ⟨rfl,
    ((update_bullet_spec pool_zero (bullet_flying 1 100 50)).2.1 rfl).1 (by decide),
    (((update_bullet_spec pool_zero (bullet_flying 1 240 50)).2.1 rfl).2 (by decide)).1⟩

/-! ## Scroll compensation -/

theorem tile_index_shift (fuel : Nat) (x y xscroll yscroll x1 y1 xscroll1 yscroll1 : Int)
    (tilemap_w tilemap_h : Int) (hx : x1 + xscroll1 = x + xscroll)
    (hy : y1 + yscroll1 = y + yscroll) :
    tile_index fuel x1 y1 xscroll1 yscroll1 tilemap_w tilemap_h =
      tile_index fuel x y xscroll yscroll tilemap_w tilemap_h := by
  unfold tile_index
  simp only [hx, hy]

theorem tile_lookup_shift (fuel : Nat) (x y xscroll yscroll x1 y1 xscroll1 yscroll1 : Int)
    (tilemap : List Nat) (tilemap_w tilemap_h : Int) (hx : x1 + xscroll1 = x + xscroll)
    (hy : y1 + yscroll1 = y + yscroll) :
    tile_lookup fuel x1 y1 xscroll1 yscroll1 tilemap tilemap_w tilemap_h =
      tile_lookup fuel x y xscroll yscroll tilemap tilemap_w tilemap_h := by
  unfold tile_lookup
  rw [tile_index_shift fuel x y xscroll yscroll x1 y1 xscroll1 yscroll1 tilemap_w tilemap_h hx hy]

theorem probe_fuel (fuel : Nat) (g : Game) (a b : Int) (ha : 0 ≤ a ∧ a ≤ 16)
    (hb : 0 ≤ b ∧ b ≤ 16) (hf : move_fuel g ≤ fuel) :
    tile_fuel (g.player.x + a) (g.player.y + b) g.xscroll g.yscroll ≤ fuel := by
  unfold move_fuel at hf
  unfold tile_fuel
  rw [shiftRight_three, shiftRight_three]
  omega

theorem scrolled_none (g : Game) (pool : Pool) (player : Player) :
    scrolled g { g with pool := pool, player := player } 0 0 := by
  unfold scrolled
  simp only [add_zero, sub_zero]
  exact ⟨trivial, trivial, trivial, trivial, trivial, trivial, trivial, trivial, trivial,
    trivial⟩

theorem scrolled_x (g : Game) (pool : Pool) (player : Player) (d : Int) :
    scrolled g
      (shift_slimes_x { g with pool := pool, player := player, xscroll := g.xscroll + d } (-d))
      d 0 := by
  unfold scrolled shift_slimes_x
  simp only [add_zero, sub_zero]
  refine ⟨trivial, trivial, ?_, ?_, ?_, ?_, trivial, trivial, trivial, trivial⟩ <;> omega

theorem scrolled_y (g : Game) (pool : Pool) (player : Player) (d : Int) :
    scrolled g
      (shift_slimes_y { g with pool := pool, player := player, yscroll := g.yscroll + d } (-d))
      0 d := by
  unfold scrolled shift_slimes_y
  simp only [add_zero, sub_zero]
  refine ⟨trivial, trivial, trivial, trivial, trivial, trivial, ?_, ?_, ?_, ?_⟩ <;> omega

/-- The arrow-key block changes the scroll by at most one pixel on one axis, and shifts
every slime by the opposite amount. -/
theorem move_step_scrolled (fuel : Nat) (env : Env) (input : Input) (g g1 : Game)
    (h : move_step fuel env input g = some g1) :
    scrolled g g1 0 0 ∨ scrolled g g1 1 0 ∨ scrolled g g1 (-1) 0 ∨ scrolled g g1 0 (-1) ∨
      scrolled g g1 0 1 := by
  unfold move_step at h
  split_ifs at h
  · split at h
    · cases h
    · rename_i r hr
      dsimp only at h
      split_ifs at h
      · cases h
        exact Or.inr (Or.inl (scrolled_x g r.2.1 r.2.2 1))
      · cases h
        exact Or.inl (scrolled_none g r.2.1 r.2.2)
  · split at h
    · cases h
    · rename_i r hr
      dsimp only at h
      split_ifs at h
      · cases h
        exact Or.inr (Or.inr (Or.inl (scrolled_x g r.2.1 r.2.2 (-1))))
      · cases h
        exact Or.inl (scrolled_none g r.2.1 r.2.2)
  · split at h
    · cases h
    · rename_i r hr
      dsimp only at h
      split_ifs at h
      · cases h
        exact Or.inr (Or.inr (Or.inr (Or.inl (scrolled_y g r.2.1 r.2.2 (-1)))))
      · cases h
        exact Or.inl (scrolled_none g r.2.1 r.2.2)
  · split at h
    · cases h
    · rename_i r hr
      dsimp only at h
      split_ifs at h
      · cases h
        exact Or.inr (Or.inr (Or.inr (Or.inr (scrolled_y g r.2.1 r.2.2 1))))
      · cases h
        exact Or.inl (scrolled_none g r.2.1 r.2.2)
  · cases h
    exact Or.inl (scrolled_none g _ _)

theorem move_step_returns (fuel : Nat) (env : Env) (input : Input) (g : Game)
    (hmap : map_ok env) (hf : move_fuel g ≤ fuel) :
    ∃ g1, move_step fuel env input g = some g1 := by
  have p := fun a b ha hb => forest_lookup_mem fuel env hmap (g.player.x + a) (g.player.y + b)
    g.xscroll g.yscroll (probe_fuel fuel g a b ha hb hf)
  unfold move_step
  split_ifs
  · obtain ⟨t1, _, h1⟩ := p 16 1 (by decide) (by decide)
    obtain ⟨t2, _, h2⟩ := p 16 15 (by decide) (by decide)
    rw [player_right_eq fuel env g.pool g.player g.xscroll g.yscroll t1 t2 h1 h2]
    dsimp only
    split_ifs <;> exact ⟨_, rfl⟩
  · obtain ⟨t1, _, h1⟩ := p 0 1 (by decide) (by decide)
    obtain ⟨t2, _, h2⟩ := p 0 15 (by decide) (by decide)
    rw [add_zero] at h1 h2
    rw [player_left_eq fuel env g.pool g.player g.xscroll g.yscroll t1 t2 h1 h2]
    dsimp only
    split_ifs <;> exact ⟨_, rfl⟩
  · obtain ⟨t1, _, h1⟩ := p 1 0 (by decide) (by decide)
    obtain ⟨t2, _, h2⟩ := p 15 0 (by decide) (by decide)
    rw [add_zero] at h1 h2
    rw [player_up_eq fuel env g.pool g.player g.xscroll g.yscroll t1 t2 h1 h2]
    dsimp only
    split_ifs <;> exact ⟨_, rfl⟩
  · obtain ⟨t1, _, h1⟩ := p 1 16 (by decide) (by decide)
    obtain ⟨t2, _, h2⟩ := p 15 16 (by decide) (by decide)
    rw [player_down_eq fuel env g.pool g.player g.xscroll g.yscroll t1 t2 h1 h2]
    dsimp only
    split_ifs <;> exact ⟨_, rfl⟩
  · exact ⟨_, rfl⟩

theorem ldiff_mask (m k : Nat) : (2 ^ k - 1).ldiff m = 2 ^ k - (m % 2 ^ k + 1) := by
  apply Nat.eq_of_testBit_eq
  intro i
  rw [Nat.testBit_ldiff, Nat.testBit_two_pow_sub_one,
    Nat.testBit_two_pow_sub_succ (Nat.mod_lt m (Nat.two_pow_pos k)), Nat.testBit_mod_two_pow]
  cases decide (i < k) <;> cases m.testBit i <;> rfl

/-- The C expression `y & (2^k - 1)` on an `int` is the non-negative remainder of `y`
modulo `2^k`, also for a negative `y`. -/
theorem land_mask (y : Int) (k : Nat) :
    Int.land y ((2 ^ k - 1 : Nat) : Int) = y % ((2 ^ k : Nat) : Int) := by
  cases y with
  | ofNat m =>
    show ((m &&& (2 ^ k - 1) : Nat) : Int) = (m : Int) % ((2 ^ k : Nat) : Int)
    rw [Nat.and_pow_two_sub_one_eq_mod]
    exact Int.natCast_mod m (2 ^ k)
  | negSucc m =>
    show (((2 ^ k - 1).ldiff m : Nat) : Int) = Int.negSucc m % ((2 ^ k : Nat) : Int)
    have hlt : (m % 2 ^ k).succ ≤ 2 ^ k := Nat.mod_lt m (Nat.two_pow_pos k)
    rw [ldiff_mask, Int.emod_negSucc, Int.natAbs_ofNat, Int.subNatNat_of_le hlt]

theorem land_ff (y : Int) : Int.land y 0xff = y % 256 := land_mask y 8

theorem land_1ff (x : Int) : Int.land x 0x1ff = x % 512 := land_mask x 9

theorem land_3ff (x : Int) : Int.land x 0x03ff = x % 1024 := land_mask x 10

/-- A masked field write `(a & M) | b`, for a field mask `L` disjoint from `M` and a value
`b` inside the field: the field reads back `b` and the bits of `M` are those of `a`. -/
theorem mask_write (a b M L : Nat) (hML : M &&& L = 0) (hb : b &&& L = b) :
    ((a &&& M) ||| b) &&& L = b ∧ ((a &&& M) ||| b) &&& M = a &&& M := by
  constructor
  · rw [Nat.and_distrib_right, Nat.and_assoc, hML, Nat.and_zero, Nat.zero_or, hb]
  · have hbM : b &&& M = 0 := by
      rw [← hb, Nat.and_assoc, Nat.and_comm L M, hML, Nat.and_zero]
    rw [Nat.and_distrib_right, Nat.and_assoc, Nat.and_self, hbM, Nat.or_zero]

theorem toNat_emod_field (y : Int) (k : Nat) :
    (y % ((2 ^ k : Nat) : Int)).toNat &&& (2 ^ k - 1) = (y % ((2 ^ k : Nat) : Int)).toNat := by
  have hpos : (0 : Int) < ((2 ^ k : Nat) : Int) := by exact_mod_cast Nat.two_pow_pos k
  have h0 := Int.emod_nonneg y (ne_of_gt hpos)
  have h1 := Int.emod_lt_of_pos y hpos
  rw [Nat.and_pow_two_sub_one_eq_mod]
  apply Nat.mod_eq_of_lt
  omega

/-- C23: `sprite_position` wraps, it does not saturate. For every sprite table, sprite
and integers `x`, `y` (negative and out-of-range values included), after
`sprite_position(sprite, x, y)` the y field of the sprite (attribute0 bits 0-7) is
`y mod 256` and its x field (attribute1 bits 0-8) is `x mod 512`, with the non-negative
remainder; bits 8-15 of attribute0 and bits 9-15 of attribute1 are unchanged, attribute2
and attribute3 are unchanged, and so are the other sprites and the allocation counter. -/
theorem sprite_position_wraps (pool : Pool) (sprite : Fin 128) (x y : Int) :
    (sprite_y ((sprite_position pool sprite x y).sprites.get sprite) : Int) = y % 256 ∧
    (sprite_x ((sprite_position pool sprite x y).sprites.get sprite) : Int) = x % 512 ∧
    ((sprite_position pool sprite x y).sprites.get sprite).attribute0 &&& 0xff00 =
      (pool.sprites.get sprite).attribute0 &&& 0xff00 ∧
    ((sprite_position pool sprite x y).sprites.get sprite).attribute1 &&& 0xfe00 =
      (pool.sprites.get sprite).attribute1 &&& 0xfe00 ∧
    ((sprite_position pool sprite x y).sprites.get sprite).attribute2 =
      (pool.sprites.get sprite).attribute2 ∧
    ((sprite_position pool sprite x y).sprites.get sprite).attribute3 =
      (pool.sprites.get sprite).attribute3 ∧
    (∀ other : Fin 128, other ≠ sprite →
      (sprite_position pool sprite x y).sprites.get other = pool.sprites.get other) ∧
    (sprite_position pool sprite x y).next_sprite_index = pool.next_sprite_index := by
  have hy := mask_write (pool.sprites.get sprite).attribute0 (y % 256).toNat 0xff00 0xff
    (by decide) (toNat_emod_field y 8)
  have hx := mask_write (pool.sprites.get sprite).attribute1 (x % 512).toNat 0xfe00 0x1ff
    (by decide) (toNat_emod_field x 9)
  unfold sprite_position sprite_y sprite_x
  simp only [Mathlib.Vector.get_set_same, land_ff, land_1ff]
  refine ⟨?_, ?_, hy.2, hx.2, trivial, trivial, fun other hne => ?_, trivial⟩
  · rw [hy.1]
    exact Int.toNat_of_nonneg (Int.emod_nonneg y (by decide))
  · rw [hx.1]
    exact Int.toNat_of_nonneg (Int.emod_nonneg x (by decide))
  · rw [Mathlib.Vector.get_set_eq_if, if_neg (fun h => hne h.symm)]

/-- C23, at a concrete input: positioning sprite 3 of the zero sprite table at (-1, -1)
gives the x field 511 and the y field 255, and leaves sprite 4 as it was. -/
theorem sprite_position_wraps_witness :
    (sprite_x ((sprite_position pool_zero 3 (-1) (-1)).sprites.get 3) : Int) = 511 ∧
    (sprite_y ((sprite_position pool_zero 3 (-1) (-1)).sprites.get 3) : Int) = 255 ∧
    (sprite_position pool_zero 3 (-1) (-1)).sprites.get 4 = pool_zero.sprites.get 4 :=
  ⟨(sprite_position_wraps pool_zero 3 (-1) (-1)).2.1,
    (sprite_position_wraps pool_zero 3 (-1) (-1)).1,
    (sprite_position_wraps pool_zero 3 (-1) (-1)).2.2.2.2.2.2.1 4 (by decide)⟩

theorem lor_word (v c : Int) (hv : 0 ≤ v) (hc : 0 ≤ c) :
    Int.lor v c = ((v.toNat ||| c.toNat : Nat) : Int) := by
  obtain ⟨a, rfl⟩ := Int.eq_ofNat_of_zero_le hv
  obtain ⟨b, rfl⟩ := Int.eq_ofNat_of_zero_le hc
  rfl

/-- The store of `v | c` into an `unsigned short`, for non-negative 16-bit `v` and `c`. -/
theorem to_u16_lor (v c : Int) (hv : 0 ≤ v ∧ v < 65536) (hc : 0 ≤ c ∧ c < 65536) :
    to_u16 (Int.lor v c) = v.toNat ||| c.toNat := by
  have h1 : v.toNat < 2 ^ 16 := by omega
  have h2 : c.toNat < 2 ^ 16 := by omega
  have h3 := Nat.or_lt_two_pow h1 h2
  rw [lor_word v c hv.1 hc.1]
  unfold to_u16
  omega

/-- A value `v` below `2^k` or-ed with a word `c`: the bits from `k` up are those of `c`,
and when the low `k` bits of `c` are zero, the low `k` bits are `v`. -/
theorem or_field (v c k : Nat) (hv : v < 2 ^ k) :
    (c &&& (2 ^ k - 1) = 0 → (v ||| c) &&& (2 ^ k - 1) = v) ∧
    (v ||| c) >>> k = c >>> k ∧ ∀ i, k ≤ i → (v ||| c).testBit i = c.testBit i := by
  have hbit : ∀ i, k ≤ i → v.testBit i = false := fun i hi =>
    Nat.testBit_lt_two_pow (lt_of_lt_of_le hv (Nat.pow_le_pow_right (by decide) hi))
  refine ⟨fun hc => ?_, ?_, fun i hi => ?_⟩
  · rw [Nat.and_distrib_right, hc, Nat.or_zero, Nat.and_pow_two_sub_one_eq_mod,
      Nat.mod_eq_of_lt hv]
  · apply Nat.eq_of_testBit_eq
    intro j
    rw [Nat.testBit_shiftRight, Nat.testBit_shiftRight, Nat.testBit_or,
      hbit (k + j) (Nat.le_add_right k j), Bool.false_or]
  · rw [Nat.testBit_or, hbit i hi, Bool.false_or]

/-- The constant part of attribute0 in `sprite_init`: a 16-bit word with the low 8 bits
zero, the colour-mode bit 13 set and the shape in bits 14-15. -/
theorem attribute0_rest (size : SpriteSize) :
    (0 ≤ Int.lor (shl 0 8) (Int.lor (shl 0 10) (Int.lor (shl 0 12)
        (Int.lor (shl 1 13) (shl (size_shape_bits size).2 14)))) ∧
      Int.lor (shl 0 8) (Int.lor (shl 0 10) (Int.lor (shl 0 12)
        (Int.lor (shl 1 13) (shl (size_shape_bits size).2 14)))) < 65536) ∧
    (Int.lor (shl 0 8) (Int.lor (shl 0 10) (Int.lor (shl 0 12)
        (Int.lor (shl 1 13) (shl (size_shape_bits size).2 14))))).toNat &&& (2 ^ 8 - 1) = 0 ∧
    (((Int.lor (shl 0 8) (Int.lor (shl 0 10) (Int.lor (shl 0 12)
        (Int.lor (shl 1 13) (shl (size_shape_bits size).2 14))))).toNat >>> 14 : Nat) : Int) =
      (size_shape_bits size).2 ∧
    (Int.lor (shl 0 8) (Int.lor (shl 0 10) (Int.lor (shl 0 12)
        (Int.lor (shl 1 13) (shl (size_shape_bits size).2 14))))).toNat.testBit 13 = true := by
  cases size <;> decide

/-- The constant part of attribute1 in `sprite_init`, for the flip flags `h`, `v` in
{0, 1}: a 16-bit word with the low 9 bits zero, `h` in bit 12, `v` in bit 13 and the size
in bits 14-15. -/
theorem attribute1_rest (size : SpriteSize) (h v : Int) (hh : h = 0 ∨ h = 1)
    (hv : v = 0 ∨ v = 1) :
    (0 ≤ Int.lor (shl 0 9) (Int.lor (shl h 12)
        (Int.lor (shl v 13) (shl (size_shape_bits size).1 14))) ∧
      Int.lor (shl 0 9) (Int.lor (shl h 12)
        (Int.lor (shl v 13) (shl (size_shape_bits size).1 14))) < 65536) ∧
    (Int.lor (shl 0 9) (Int.lor (shl h 12)
        (Int.lor (shl v 13) (shl (size_shape_bits size).1 14)))).toNat &&& (2 ^ 9 - 1) = 0 ∧
    (((Int.lor (shl 0 9) (Int.lor (shl h 12)
        (Int.lor (shl v 13) (shl (size_shape_bits size).1 14)))).toNat >>> 14 : Nat) : Int) =
      (size_shape_bits size).1 ∧
    (Int.lor (shl 0 9) (Int.lor (shl h 12)
        (Int.lor (shl v 13) (shl (size_shape_bits size).1 14)))).toNat.testBit 12 =
      decide (h = 1) ∧
    (Int.lor (shl 0 9) (Int.lor (shl h 12)
        (Int.lor (shl v 13) (shl (size_shape_bits size).1 14)))).toNat.testBit 13 =
      decide (v = 1) := by
  rcases hh with rfl | rfl <;> rcases hv with rfl | rfl <;> cases size <;> decide

/-- The constant part of attribute2 in `sprite_init`, for a priority in 0..3: a 16-bit word
with the low 10 bits zero and the priority in bits 10-11. -/
theorem attribute2_rest (priority : Int) (hp : 0 ≤ priority ∧ priority < 4) :
    (0 ≤ Int.lor (shl priority 10) (shl 0 12) ∧
      Int.lor (shl priority 10) (shl 0 12) < 65536) ∧
    (Int.lor (shl priority 10) (shl 0 12)).toNat &&& (2 ^ 10 - 1) = 0 ∧
    ((((Int.lor (shl priority 10) (shl 0 12)).toNat >>> 10) &&& 3 : Nat) : Int) = priority := by
  obtain ⟨h0, h4⟩ := hp
  interval_cases priority <;> decide

/-- The fields of the 16-bit word stored for `v | c`, where `0 <= v < 2^k` and `c` is a
non-negative 16-bit constant: the bits from `k` up are those of `c`, and when the low `k`
bits of `c` are zero the low `k` bits are `v`. -/
theorem word_fields (v c : Int) (k : Nat) (hv : 0 ≤ v ∧ v < 2 ^ k) (hk : k ≤ 16)
    (hc : 0 ≤ c ∧ c < 65536) :
    (c.toNat &&& (2 ^ k - 1) = 0 → ((to_u16 (Int.lor v c) &&& (2 ^ k - 1) : Nat) : Int) = v) ∧
    (∀ j, k ≤ j → to_u16 (Int.lor v c) >>> j = c.toNat >>> j) ∧
    ∀ i, k ≤ i → (to_u16 (Int.lor v c)).testBit i = c.toNat.testBit i := by
  have h16 : (2 : Int) ^ k ≤ 65536 := by
    have := Nat.pow_le_pow_right (show 0 < 2 by decide) hk
    exact_mod_cast this
  have hvn : v.toNat < 2 ^ k := by
    have h := hv.2
    rw [← Int.toNat_of_nonneg hv.1] at h
    exact_mod_cast h
  rw [to_u16_lor v c ⟨hv.1, by omega⟩ hc]
  refine ⟨fun h0 => ?_, fun j hj => ?_, fun i hi => ?_⟩
  · rw [(or_field v.toNat c.toNat k hvn).1 h0]
    exact Int.toNat_of_nonneg hv.1
  · exact (or_field v.toNat c.toNat j
      (lt_of_lt_of_le hvn (Nat.pow_le_pow_right (by decide) hj))).2.1
  · exact (or_field v.toNat c.toNat k hvn).2.2 i hi

theorem size_shape_bits_injective : Function.Injective size_shape_bits := by
  intro a b h
  cases a <;> cases b <;> first | rfl | exact absurd h (by decide)

/-- C24: `sprite_init` allocates monotonically and encodes losslessly. For a sprite table
with `next_sprite_index = n < 128` and arguments `0 <= x < 512`, `0 <= y < 256`,
`0 <= tile_index < 1024`, `0 <= priority < 4`, any of the 12 sizes and any flip flags,
`sprite_init` returns slot `n`, sets `next_sprite_index` to `n + 1`, leaves every other
slot unchanged (and attribute3 of slot `n`), and the written slot decodes back to the
arguments: `y = attribute0 & 0xff`, `shape = attribute0 >> 14`, bit 13 of attribute0 set,
`x = attribute1 & 0x1ff`, bit 12 of attribute1 is the horizontal flip and bit 13 the
vertical flip (each set exactly when the argument is not zero), `size = attribute1 >> 14`,
`tile = attribute2 & 0x3ff`, `priority = (attribute2 >> 10) & 3`. The pair of size and
shape bits determines the size. -/
theorem sprite_init_encodes (pool : Pool) (n : Nat) (x y : Int) (size : SpriteSize)
    (horizontal_flip vertical_flip tile_index priority : Int)
    (hn : pool.next_sprite_index = n) (hlt : n < 128)
    (hx : 0 ≤ x ∧ x < 512) (hy : 0 ≤ y ∧ y < 256)
    (ht : 0 ≤ tile_index ∧ tile_index < 1024) (hp : 0 ≤ priority ∧ priority < 4) :
    ∃ pool1 slot,
      sprite_init pool x y size horizontal_flip vertical_flip tile_index priority =
        some (pool1, slot) ∧
      (slot : Nat) = n ∧ pool1.next_sprite_index = n + 1 ∧
      (∀ other : Fin 128, other ≠ slot → pool1.sprites.get other = pool.sprites.get other) ∧
      (pool1.sprites.get slot).attribute3 = (pool.sprites.get slot).attribute3 ∧
      (sprite_y (pool1.sprites.get slot) : Int) = y ∧
      (((pool1.sprites.get slot).attribute0 >>> 14 : Nat) : Int) = (size_shape_bits size).2 ∧
      (pool1.sprites.get slot).attribute0.testBit 13 = true ∧
      (sprite_x (pool1.sprites.get slot) : Int) = x ∧
      (pool1.sprites.get slot).attribute1.testBit 12 = decide (horizontal_flip ≠ 0) ∧
      (pool1.sprites.get slot).attribute1.testBit 13 = decide (vertical_flip ≠ 0) ∧
      (((pool1.sprites.get slot).attribute1 >>> 14 : Nat) : Int) = (size_shape_bits size).1 ∧
      (sprite_tile (pool1.sprites.get slot) : Int) = tile_index ∧
      ((((pool1.sprites.get slot).attribute2 >>> 10) &&& 3 : Nat) : Int) = priority ∧
      Function.Injective size_shape_bits := by
  have hi : 0 ≤ pool.next_sprite_index ∧ pool.next_sprite_index < 128 := by omega
  have hh : (if horizontal_flip ≠ 0 then (1 : Int) else 0) = 0 ∨
      (if horizontal_flip ≠ 0 then (1 : Int) else 0) = 1 := by
    split_ifs
    · exact Or.inr rfl
    · exact Or.inl rfl
  have hv : (if vertical_flip ≠ 0 then (1 : Int) else 0) = 0 ∨
      (if vertical_flip ≠ 0 then (1 : Int) else 0) = 1 := by
    split_ifs
    · exact Or.inr rfl
    · exact Or.inl rfl
  have dh : decide ((if horizontal_flip ≠ 0 then (1 : Int) else 0) = 1) =
      decide (horizontal_flip ≠ 0) := by
    split_ifs with h <;> simp [h]
  have dv : decide ((if vertical_flip ≠ 0 then (1 : Int) else 0) = 1) =
      decide (vertical_flip ≠ 0) := by
    split_ifs with h <;> simp [h]
  obtain ⟨c0, c0f, c0s, c0b⟩ := attribute0_rest size
  obtain ⟨c1, c1f, c1s, c1h, c1v⟩ := attribute1_rest size _ _ hh hv
  obtain ⟨c2, c2f, c2p⟩ := attribute2_rest priority hp
  have w0 := word_fields y _ 8 hy (by decide) c0
  have w1 := word_fields x _ 9 hx (by decide) c1
  have w2 := word_fields tile_index _ 10 ht (by decide) c2
  unfold sprite_init
  dsimp only
  rw [dif_pos hi]
  refine ⟨_, _, rfl, ?_, ?_, fun other hne => ?_, ?_, ?_, ?_, ?_, ?_, ?_, ?_, ?_, ?_, ?_,
    size_shape_bits_injective⟩
  · show pool.next_sprite_index.toNat = n
    rw [hn, Int.toNat_ofNat]
  · show pool.next_sprite_index + 1 = n + 1
    rw [hn]
  · exact Mathlib.Vector.get_set_of_ne (fun h => hne h.symm) _
  · simp only [Mathlib.Vector.get_set_same]
  · simp only [Mathlib.Vector.get_set_same, sprite_y]
    exact w0.1 c0f
  · simp only [Mathlib.Vector.get_set_same]
    rw [w0.2.1 14 (by decide)]
    exact c0s
  · simp only [Mathlib.Vector.get_set_same]
    rw [w0.2.2 13 (by decide)]
    exact c0b
  · simp only [Mathlib.Vector.get_set_same, sprite_x]
    exact w1.1 c1f
  · simp only [Mathlib.Vector.get_set_same]
    rw [w1.2.2 12 (by decide), c1h, dh]
  · simp only [Mathlib.Vector.get_set_same]
    rw [w1.2.2 13 (by decide), c1v, dv]
  · simp only [Mathlib.Vector.get_set_same]
    rw [w1.2.1 14 (by decide)]
    exact c1s
  · simp only [Mathlib.Vector.get_set_same, sprite_tile]
    exact w2.1 c2f
  · simp only [Mathlib.Vector.get_set_same]
    rw [w2.2.1 10 (le_refl 10)]
    exact c2p

/-- C24, at a concrete input: on the zero sprite table (counter 0), allocating a 16x16
sprite at (100, 113), flipped horizontally, with tile 64 and priority 2 returns slot 0,
sets the counter to 1, and the slot reads back x = 100, y = 113, tile 64, priority 2,
horizontal flip set, vertical flip clear, size bits 1 and shape bits 0. -/
theorem sprite_init_encodes_witness :
    ∃ pool1 slot, sprite_init pool_zero 100 113 .SIZE_16_16 1 0 64 2 = some (pool1, slot) ∧
      (slot : Nat) = 0 ∧ pool1.next_sprite_index = 1 ∧
      (sprite_y (pool1.sprites.get slot) : Int) = 113 ∧
      (sprite_x (pool1.sprites.get slot) : Int) = 100 ∧
      (sprite_tile (pool1.sprites.get slot) : Int) = 64 ∧
      ((((pool1.sprites.get slot).attribute2 >>> 10) &&& 3 : Nat) : Int) = 2 ∧
      (pool1.sprites.get slot).attribute1.testBit 12 = true ∧
      (pool1.sprites.get slot).attribute1.testBit 13 = false ∧
      (((pool1.sprites.get slot).attribute1 >>> 14 : Nat) : Int) = 1 ∧
      (((pool1.sprites.get slot).attribute0 >>> 14 : Nat) : Int) = 0 := by
  obtain ⟨pool1, slot, h, hs, hn, _, _, hy, hshape, _, hx, hh, hv, hsize, ht, hp, _⟩ :=
    sprite_init_encodes pool_zero 0 100 113 .SIZE_16_16 1 0 64 2 rfl (by decide) (by decide)
      (by decide) (by decide) (by decide)
  exact ⟨pool1, slot, h, hs, hn, hy, hx, ht, hp, hh, hv, hsize, hshape⟩

/-! ## Clearing the sprite table -/

theorem sprite_clear_slot_get (v : Mathlib.Vector Sprite 128) (a i : Fin 128) :
    (sprite_clear_slot v a).get i =
      if a = i then
        { v.get i with attribute0 := to_u16 SCREEN_HEIGHT, attribute1 := to_u16 SCREEN_WIDTH }
      else v.get i := by
  unfold sprite_clear_slot
  rw [Mathlib.Vector.get_set_eq_if]
  split_ifs with h
  · rw [h]
  · rfl

/-- The loop of `sprite_clear` over a list of slots: the slots of the list get the
off-screen words, the others are unchanged. -/
theorem sprite_clear_fold (l : List (Fin 128)) :
    ∀ (v : Mathlib.Vector Sprite 128) (i : Fin 128),
      (l.foldl sprite_clear_slot v).get i =
        if i ∈ l then
          { v.get i with attribute0 := to_u16 SCREEN_HEIGHT, attribute1 := to_u16 SCREEN_WIDTH }
        else v.get i := by
  induction l with
  | nil =>
    intro v i
    simp
  | cons a l ih =>
    intro v i
    rw [List.foldl_cons, ih (sprite_clear_slot v a) i, sprite_clear_slot_get]
    by_cases hl : i ∈ l <;> by_cases ha : a = i
    · rw [if_pos hl, if_pos ha, if_pos (List.mem_cons_of_mem a hl)]
    · rw [if_pos hl, if_neg ha, if_pos (List.mem_cons_of_mem a hl)]
    · rw [if_neg hl, if_pos ha, if_pos (by rw [ha]; exact List.mem_cons_self i l)]
    · rw [if_neg hl, if_neg ha, if_neg (by
        rw [List.mem_cons]
        rintro (h | h)
        · exact ha h.symm
        · exact hl h)]

theorem sprite_clear_get (pool : Pool) (i : Fin 128) :
    (sprite_clear pool).sprites.get i =
      { pool.sprites.get i with attribute0 := to_u16 SCREEN_HEIGHT,
                                attribute1 := to_u16 SCREEN_WIDTH } := by
  unfold sprite_clear
  show ((List.finRange 128).foldl sprite_clear_slot pool.sprites).get i = _
  rw [sprite_clear_fold, if_pos (List.mem_finRange i)]

/-- C25: `sprite_clear`. For every state of the sprite table, after `sprite_clear` the
allocation counter `next_sprite_index` is 0 and each of the 128 slots is off screen: its
attribute0 is 160 and its attribute1 is 240, so its y field is 160 (`SCREEN_HEIGHT`, the
first row below the screen) and its x field is 240 (`SCREEN_WIDTH`, the first column right
of it); attribute2 and attribute3 of the slot are unchanged. -/
theorem sprite_clear_hides (pool : Pool) (i : Fin 128) :
    (sprite_clear pool).next_sprite_index = 0 ∧
    sprite_y ((sprite_clear pool).sprites.get i) = 160 ∧
    sprite_x ((sprite_clear pool).sprites.get i) = 240 ∧
    (sprite_y ((sprite_clear pool).sprites.get i) : Int) ≥ SCREEN_HEIGHT ∧
    (sprite_x ((sprite_clear pool).sprites.get i) : Int) ≥ SCREEN_WIDTH ∧
    ((sprite_clear pool).sprites.get i).attribute0 = 160 ∧
    ((sprite_clear pool).sprites.get i).attribute1 = 240 ∧
    ((sprite_clear pool).sprites.get i).attribute2 = (pool.sprites.get i).attribute2 ∧
    ((sprite_clear pool).sprites.get i).attribute3 = (pool.sprites.get i).attribute3 := by
  have h0 : to_u16 SCREEN_HEIGHT = 160 := by decide
  have h1 : to_u16 SCREEN_WIDTH = 240 := by decide
  rw [sprite_clear_get, h0, h1]
  refine ⟨rfl, ?_, ?_, ?_, ?_, rfl, rfl, rfl, rfl⟩
  · show (160 : Nat) &&& 0xff = 160
    decide
  · show (240 : Nat) &&& 0x1ff = 240
    decide
  · show (((160 : Nat) &&& 0xff : Nat) : Int) ≥ SCREEN_HEIGHT
    decide
  · show (((240 : Nat) &&& 0x1ff : Nat) : Int) ≥ SCREEN_WIDTH
    decide

/-! ## The states reached from the start of `main` -/

theorem tick_parts (fuel : Nat) (env : Env) (input : Input) (g g1 : Game)
    (h : tick fuel env input g = some g1) :
    ∃ gb gs, before_fire fuel env input g = some gb ∧
      slime_step fuel env (fire_step input gb) = some gs ∧
      reset_step (at_reset_check env gs) = some g1 := by
  unfold tick at h
  split at h
  · cases h
  · rename_i gb hb
    unfold after_fire at h
    split at h
    · cases h
    · rename_i gs hs
      exact ⟨gb, gs, hb, hs, h⟩

theorem move_step_slime_delay (fuel : Nat) (env : Env) (input : Input) (g g1 : Game)
    (h : move_step fuel env input g = some g1) :
    g1.slime1.delay = g.slime1.delay ∧ g1.slime2.delay = g.slime2.delay ∧
    g1.slime3.delay = g.slime3.delay ∧ g1.slime4.delay = g.slime4.delay := by
  unfold move_step at h
  split_ifs at h
  all_goals first
    | (split at h
       · cases h
       · split_ifs at h <;> (cases h; exact ⟨rfl, rfl, rfl, rfl⟩))
    | (cases h; exact ⟨rfl, rfl, rfl, rfl⟩)

theorem before_fire_health (fuel : Nat) (env : Env) (input : Input) (g gb : Game)
    (h : before_fire fuel env input g = some gb) : gb.player.health = g.player.health := by
  unfold before_fire at h
  rw [move_step_health fuel env input _ gb h]
  exact (player_update_place g.pool g.player g.xscroll).2.2.2

/-- Before the firing block of a tick that starts with waiting slimes, every slime has a
countdown of at least 1. -/
theorem before_fire_delay (fuel : Nat) (env : Env) (input : Input) (g gb : Game)
    (h : before_fire fuel env input g = some gb)
    (hw1 : slime_waiting g.slime1) (hw2 : slime_waiting g.slime2)
    (hw3 : slime_waiting g.slime3) (hw4 : slime_waiting g.slime4) :
    1 ≤ gb.slime1.delay ∧ 1 ≤ gb.slime2.delay ∧ 1 ≤ gb.slime3.delay ∧ 1 ≤ gb.slime4.delay := by
  unfold before_fire at h
  obtain ⟨e1, e2, e3, e4⟩ := move_step_slime_delay fuel env input _ gb h
  rw [e1, e2, e3, e4]
  exact ⟨update_slime_waiting _ _ hw1, update_slime_waiting _ _ hw2,
    update_slime_waiting _ _ hw3, update_slime_waiting _ _ hw4⟩

theorem at_reset_check_health (env : Env) (g : Game) :
    (at_reset_check env g).player.health = g.player.health :=
  (after_steps_frame env g).1.2.2.2

/-- A tick that starts with health 3 takes no reset: it ends in the state of the reset
check, with health 3 and the four slimes flagged dead. -/
theorem tick_alive (fuel : Nat) (env : Env) (input : Input) (g g1 : Game)
    (h : tick fuel env input g = some g1) (hh : g.player.health = 3) :
    g1.player.health = 3 ∧ g1.slime1.dead = 1 ∧ g1.slime2.dead = 1 ∧ g1.slime3.dead = 1 ∧
      g1.slime4.dead = 1 := by
  obtain ⟨gb, gs, hb, hs, hr⟩ := tick_parts fuel env input g g1 h
  have h3 : (at_reset_check env gs).player.health = 3 := by
    rw [at_reset_check_health, slime_step_player fuel env _ gs hs,
      (fire_step_frame input gb).1, before_fire_health fuel env input g gb hb, hh]
  rw [reset_step_alive _ (by rw [h3]; decide)] at hr
  cases hr
  obtain ⟨_, _, _, d1, d2, d3, d4⟩ := after_steps_frame env gs
  exact ⟨h3, d1, d2, d3, d4⟩

/-- The states reached from the start state of `main`: the health of the player is 3, every
slime is waiting, and from the end of the first tick on every slime is flagged dead. -/
theorem run_alive (fuel : Nat) (env : Env) (inputs : Nat → Input) (g0 : Game)
    (h0 : game_start = some g0) :
    ∀ (n : Nat) (g : Game), run fuel env inputs n g0 = some g →
      g.player.health = 3 ∧
      (slime_waiting g.slime1 ∧ slime_waiting g.slime2 ∧ slime_waiting g.slime3 ∧
        slime_waiting g.slime4) ∧
      (1 ≤ n → g.slime1.dead = 1 ∧ g.slime2.dead = 1 ∧ g.slime3.dead = 1 ∧
        g.slime4.dead = 1) := by
  intro n
  induction n with
  | zero =>
    intro g hr
    rw [run] at hr
    cases hr
    obtain ⟨g0', e, _, _, _, hh, _, _, w1, w2, w3, w4⟩ := game_start_facts
    rw [h0] at e
    cases e
    exact ⟨hh, ⟨w1, w2, w3, w4⟩, fun h => absurd h (by decide)⟩
  | succ k ih =>
    intro g hr
    obtain ⟨g1, hg1, ht⟩ := run_succ_some fuel env inputs k g0 g hr
    obtain ⟨hh, d1, d2, d3, d4⟩ := tick_alive fuel env (inputs k) g1 g ht (ih g1 hg1).1
    exact ⟨hh, ⟨Or.inl d1, Or.inl d2, Or.inl d3, Or.inl d4⟩, fun _ => ⟨d1, d2, d3, d4⟩⟩

theorem player_right_place (fuel : Nat) (env : Env) (pool : Pool) (player : Player)
    (xscroll yscroll : Int) (r : Int × Pool × Player)
    (h : player_right fuel env pool player xscroll yscroll = some r) :
    r.2.2.y = player.y ∧
      (r.2.2.x = player.x ∨ (r.1 = 0 ∧ r.2.2.x = player.x + 1)) := by
  unfold player_right at h
  dsimp only at h
  repeat' split at h
  all_goals first
    | (cases h; exact ⟨rfl, Or.inl rfl⟩)
    | (cases h; exact ⟨rfl, Or.inr ⟨rfl, rfl⟩⟩)
    | cases h

theorem player_left_place (fuel : Nat) (env : Env) (pool : Pool) (player : Player)
    (xscroll yscroll : Int) (r : Int × Pool × Player)
    (h : player_left fuel env pool player xscroll yscroll = some r) :
    r.2.2.y = player.y ∧
      (r.2.2.x = player.x ∨ (r.1 = 0 ∧ r.2.2.x = player.x - 1)) := by
  unfold player_left at h
  dsimp only at h
  repeat' split at h
  all_goals first
    | (cases h; exact ⟨rfl, Or.inl rfl⟩)
    | (cases h; exact ⟨rfl, Or.inr ⟨rfl, rfl⟩⟩)
    | cases h

theorem player_up_place (fuel : Nat) (env : Env) (pool : Pool) (player : Player)
    (xscroll yscroll : Int) (r : Int × Pool × Player)
    (h : player_up fuel env pool player xscroll yscroll = some r) :
    r.2.2.x = player.x ∧
      (r.2.2.y = player.y ∨ (r.1 = 0 ∧ r.2.2.y = player.y - 1)) := by
  unfold player_up at h
  dsimp only at h
  repeat' split at h
  all_goals first
    | (cases h; exact ⟨rfl, Or.inl rfl⟩)
    | (cases h; exact ⟨rfl, Or.inr ⟨rfl, rfl⟩⟩)
    | cases h

theorem player_down_place (fuel : Nat) (env : Env) (pool : Pool) (player : Player)
    (xscroll yscroll : Int) (r : Int × Pool × Player)
    (h : player_down fuel env pool player xscroll yscroll = some r) :
    r.2.2.x = player.x ∧
      (r.2.2.y = player.y ∨ (r.1 = 0 ∧ r.2.2.y = player.y + 1)) := by
  unfold player_down at h
  dsimp only at h
  repeat' split at h
  all_goals first
    | (cases h; exact ⟨rfl, Or.inl rfl⟩)
    | (cases h; exact ⟨rfl, Or.inr ⟨rfl, rfl⟩⟩)
    | cases h

theorem player_stop_place (pool : Pool) (player : Player) :
    (player_stop pool player).2.x = player.x ∧ (player_stop pool player).2.y = player.y := by
  unfold player_stop
  dsimp only
  split_ifs <;> exact ⟨rfl, rfl⟩

/-- The arrow-key block moves the player or the scroll by at most one pixel. -/
theorem move_step_fuel (fuel : Nat) (env : Env) (input : Input) (g g1 : Game)
    (h : move_step fuel env input g = some g1) : move_fuel g1 ≤ move_fuel g + 1 := by
  unfold move_step at h
  split_ifs at h
  · split at h
    · cases h
    · rename_i r hr
      obtain ⟨py, px⟩ := player_right_place fuel env g.pool g.player g.xscroll g.yscroll r hr
      dsimp only at h
      split_ifs at h with hret <;> cases h <;> simp only [move_fuel, shift_slimes_x] <;>
        omega
  · split at h
    · cases h
    · rename_i r hr
      obtain ⟨py, px⟩ := player_left_place fuel env g.pool g.player g.xscroll g.yscroll r hr
      dsimp only at h
      split_ifs at h with hret <;> cases h <;> simp only [move_fuel, shift_slimes_x] <;>
        omega
  · split at h
    · cases h
    · rename_i r hr
      obtain ⟨px, py⟩ := player_up_place fuel env g.pool g.player g.xscroll g.yscroll r hr
      dsimp only at h
      split_ifs at h with hret <;> cases h <;> simp only [move_fuel, shift_slimes_y] <;>
        omega
  · split at h
    · cases h
    · rename_i r hr
      obtain ⟨px, py⟩ := player_down_place fuel env g.pool g.player g.xscroll g.yscroll r hr
      dsimp only at h
      split_ifs at h with hret <;> cases h <;> simp only [move_fuel, shift_slimes_y] <;>
        omega
  · cases h
    obtain ⟨px, py⟩ := player_stop_place g.pool g.player
    unfold move_fuel
    dsimp only
    omega

/-- A tick from a state with health 3 and waiting slimes, on a designed map with enough
loop fuel, returns; the player and the scroll move by at most one pixel in all. -/
theorem tick_returns (fuel : Nat) (env : Env) (input : Input) (g : Game)
    (hmap : map_ok env) (hf : move_fuel g ≤ fuel) (hh : g.player.health = 3)
    (hw1 : slime_waiting g.slime1) (hw2 : slime_waiting g.slime2)
    (hw3 : slime_waiting g.slime3) (hw4 : slime_waiting g.slime4) :
    ∃ g1, tick fuel env input g = some g1 ∧ move_fuel g1 ≤ move_fuel g + 1 := by
  have hpu := player_update_place g.pool g.player g.xscroll
  have hfu : move_fuel (update_step g) = move_fuel g := by
    show ((update_step g).player.x + g.xscroll).natAbs +
      ((update_step g).player.y + g.yscroll).natAbs + 6 = _
    rw [show (update_step g).player.x = g.player.x from hpu.1,
      show (update_step g).player.y = g.player.y from hpu.2.1]
    rfl
  obtain ⟨gb, hb⟩ := move_step_returns fuel env input (update_step g) hmap (by rw [hfu]; exact hf)
  have hbf : before_fire fuel env input g = some gb := hb
  obtain ⟨d1, d2, d3, d4⟩ := before_fire_delay fuel env input g gb hbf hw1 hw2 hw3 hw4
  have hhb : gb.player.health ≠ 0 := by
    rw [before_fire_health fuel env input g gb hbf, hh]
    decide
  obtain ⟨g1, hg1, hp, hx, hy, _⟩ := tick_tail fuel env input gb d1 d2 d3 d4 hhb
  refine ⟨g1, ?_, ?_⟩
  · unfold tick
    rw [hbf]
    exact hg1
  · have hm := move_step_fuel fuel env input (update_step g) gb hb
    rw [hfu] at hm
    have e : move_fuel g1 = move_fuel gb := by
      unfold move_fuel
      rw [hp.1, hp.2.1, hx, hy]
    rw [e]
    exact hm

/-- From the start state of `main`, on a designed map, `n` ticks return when the loop fuel
is at least `n + 219`, whatever the buttons. -/
theorem run_returns (fuel : Nat) (env : Env) (inputs : Nat → Input) (g0 : Game)
    (h0 : game_start = some g0) (hmap : map_ok env) :
    ∀ n : Nat, n + 219 ≤ fuel →
      ∃ g, run fuel env inputs n g0 = some g ∧ move_fuel g ≤ n + 219 := by
  intro n
  induction n with
  | zero =>
    intro _
    refine ⟨g0, rfl, ?_⟩
    obtain ⟨g0', e, hx, hy, _, _, hxs, hys, _⟩ := game_start_facts
    rw [h0] at e
    cases e
    unfold move_fuel
    rw [hx, hy, hxs, hys]
    decide
  | succ k ih =>
    intro hf
    obtain ⟨g, hg, hfg⟩ := ih (by omega)
    obtain ⟨hh, ⟨w1, w2, w3, w4⟩, _⟩ := run_alive fuel env inputs g0 h0 k g hg
    obtain ⟨g1, hg1, hf1⟩ :=
      tick_returns fuel env (inputs k) g hmap (by omega) hh w1 w2 w3 w4
    exact ⟨g1, run_succ_of fuel env inputs k g0 g g1 hg hg1, by omega⟩

/-- C26: damage is a no-op. `collision_check` returns the player and the slime unchanged,
for all inputs. Consequently, from the start state of `main`, for every sequence of button
inputs: on a designed map `n` ticks return (with loop fuel `n + 219`); in every state
reached after `n` ticks the health of the player is 3; and in the tick that follows, the
health is 3 at the reset check `if (player.health==0)`, so the reset block is not taken: the
tick ends in the state of the reset check. -/
theorem damage_is_noop (fuel : Nat) (env : Env) (inputs : Nat → Input) (g0 : Game) (n : Nat)
    (h0 : game_start = some g0) :
    (∀ (player : Player) (slime : Slime), collision_check player slime = (player, slime)) ∧
    (map_ok env → n + 219 ≤ fuel → ∃ g, run fuel env inputs n g0 = some g) ∧
    ∀ g, run fuel env inputs n g0 = some g →
      g.player.health = 3 ∧
      ∀ gb gs, before_fire fuel env (inputs n) g = some gb →
        slime_step fuel env (fire_step (inputs n) gb) = some gs →
        (at_reset_check env gs).player.health = 3 ∧
        reset_step (at_reset_check env gs) = some (at_reset_check env gs) ∧
        tick fuel env (inputs n) g = some (at_reset_check env gs) := by
  refine ⟨collision_check_eq, fun hmap hf => ?_, fun g hg => ?_⟩
  · obtain ⟨g, hg, _⟩ := run_returns fuel env inputs g0 h0 hmap n hf
    exact ⟨g, hg⟩
  · have hh := (run_alive fuel env inputs g0 h0 n g hg).1
    refine ⟨hh, fun gb gs hb hs => ?_⟩
    have h3 : (at_reset_check env gs).player.health = 3 := by
      rw [at_reset_check_health, slime_step_player fuel env _ gs hs,
        (fire_step_frame (inputs n) gb).1, before_fire_health fuel env (inputs n) g gb hb, hh]
    have hr := reset_step_alive (at_reset_check env gs) (by rw [h3]; decide)
    refine ⟨h3, hr, ?_⟩
    unfold tick
    rw [hb]
    dsimp only
    unfold after_fire
    rw [hs]
    exact hr

/-- C26, at a concrete run: the start state exists; holding left on an open map, the state
after 60 ticks exists and the health of the player is 3. -/
theorem damage_is_noop_witness :
    ∃ g0 g, game_start = some g0 ∧ map_ok open_env ∧
      run 300 open_env (fun _ => input_left) 60 g0 = some g ∧ g.player.health = 3 := by
  obtain ⟨g0, h0, _⟩ := game_start_facts
  have h := damage_is_noop 300 open_env (fun _ => input_left) g0 60 h0
  obtain ⟨g, hg⟩ := h.2.1 open_env_ok (by decide)
  exact ⟨g0, g, h0, open_env_ok, hg, (h.2.2 g hg).1⟩

theorem slime_parks_of_waiting (pool : Pool) (s : Slime) (h : slime_waiting s) :
    slime_parks pool s := by
  unfold slime_parks
  by_cases hd : s.dead = 1
  · rw [update_slime_dead pool s hd]
    exact ⟨rfl, rfl, rfl, show (0 : Int) < 499 by decide⟩
  · have h2 : 2 ≤ s.delay := h.resolve_left hd
    rw [update_slime_counting pool s hd (by omega)]
    refine ⟨rfl, rfl, rfl, ?_⟩
    show 0 < s.delay - 1
    omega

/-- C27: enemies never become active in the running game. From the start state of `main`,
for every sequence of button inputs and every map and `calc_wave` function (`env`): on a
designed map `n` ticks return (with loop fuel `n + 219`); and in every state reached after
`n` ticks, for each of the four slimes, (1) the `update_slime` call of the next tick parks
the sprite at (240, 240), leaves the position of the slime unchanged (no teleport to the
spawn point) and leaves a countdown `delay > 0`; (2) from the end of the first tick on the
slime has `dead = 1`, and that `update_slime` call re-arms the countdown, leaving
`delay = 499`; (3) when the gate `dead == 0 && delay < 0` of the next tick is evaluated,
`delay > 0`, the gate is closed, and the four gated `slime_move` calls leave the state
unchanged. -/
theorem slimes_never_active (fuel : Nat) (env : Env) (inputs : Nat → Input) (g0 : Game)
    (n : Nat) (h0 : game_start = some g0) :
    (map_ok env → n + 219 ≤ fuel → ∃ g, run fuel env inputs n g0 = some g) ∧
    ∀ g, run fuel env inputs n g0 = some g →
      (∀ pool, slime_parks pool g.slime1 ∧ slime_parks pool g.slime2 ∧
        slime_parks pool g.slime3 ∧ slime_parks pool g.slime4) ∧
      (1 ≤ n → (g.slime1.dead = 1 ∧ g.slime2.dead = 1 ∧ g.slime3.dead = 1 ∧
          g.slime4.dead = 1) ∧
        ∀ pool, (update_slime pool g.slime1).2.delay = 499 ∧
          (update_slime pool g.slime2).2.delay = 499 ∧
          (update_slime pool g.slime3).2.delay = 499 ∧
          (update_slime pool g.slime4).2.delay = 499) ∧
      ∀ gb, before_fire fuel env (inputs n) g = some gb →
        (0 < (fire_step (inputs n) gb).slime1.delay ∧
          0 < (fire_step (inputs n) gb).slime2.delay ∧
          0 < (fire_step (inputs n) gb).slime3.delay ∧
          0 < (fire_step (inputs n) gb).slime4.delay) ∧
        (gate_closed (fire_step (inputs n) gb).slime1 ∧
          gate_closed (fire_step (inputs n) gb).slime2 ∧
          gate_closed (fire_step (inputs n) gb).slime3 ∧
          gate_closed (fire_step (inputs n) gb).slime4) ∧
        slime_step fuel env (fire_step (inputs n) gb) = some (fire_step (inputs n) gb) := by
  refine ⟨fun hmap hf => ?_, fun g hg => ?_⟩
  · obtain ⟨g, hg, _⟩ := run_returns fuel env inputs g0 h0 hmap n hf
    exact ⟨g, hg⟩
  · obtain ⟨_, ⟨w1, w2, w3, w4⟩, hdead⟩ := run_alive fuel env inputs g0 h0 n g hg
    refine ⟨fun pool => ⟨slime_parks_of_waiting pool _ w1, slime_parks_of_waiting pool _ w2,
      slime_parks_of_waiting pool _ w3, slime_parks_of_waiting pool _ w4⟩,
      fun hn => ?_, fun gb hb => ?_⟩
    · obtain ⟨d1, d2, d3, d4⟩ := hdead hn
      refine ⟨⟨d1, d2, d3, d4⟩, fun pool => ?_⟩
      rw [update_slime_dead pool _ d1, update_slime_dead pool _ d2, update_slime_dead pool _ d3,
        update_slime_dead pool _ d4]
      exact ⟨rfl, rfl, rfl, rfl⟩
    · obtain ⟨d1, d2, d3, d4⟩ := before_fire_delay fuel env (inputs n) g gb hb w1 w2 w3 w4
      obtain ⟨_, f1, f2, f3, f4, _⟩ := fire_step_frame (inputs n) gb
      rw [← f1] at d1
      rw [← f2] at d2
      rw [← f3] at d3
      rw [← f4] at d4
      have c1 := gate_closed_of_delay _ d1
      have c2 := gate_closed_of_delay _ d2
      have c3 := gate_closed_of_delay _ d3
      have c4 := gate_closed_of_delay _ d4
      exact ⟨⟨by omega, by omega, by omega, by omega⟩, ⟨c1, c2, c3, c4⟩,
        slime_step_closed fuel env _ c1 c2 c3 c4⟩

/-- C27, at a concrete run: the start state exists; holding left on an open map, the state
after 60 ticks exists, its four slimes are flagged dead, and the next `update_slime` call
on slime1 parks it with `delay = 499`. -/
theorem slimes_never_active_witness :
    ∃ g0 g, game_start = some g0 ∧ map_ok open_env ∧
      run 300 open_env (fun _ => input_left) 60 g0 = some g ∧
      g.slime1.dead = 1 ∧ g.slime2.dead = 1 ∧ g.slime3.dead = 1 ∧ g.slime4.dead = 1 ∧
      slime_parks g.pool g.slime1 ∧ (update_slime g.pool g.slime1).2.delay = 499 := by
  obtain ⟨g0, h0, _⟩ := game_start_facts
  have h := slimes_never_active 300 open_env (fun _ => input_left) g0 60 h0
  obtain ⟨g, hg⟩ := h.1 open_env_ok (by decide)
  obtain ⟨hp, hd, _⟩ := h.2 g hg
  obtain ⟨⟨d1, d2, d3, d4⟩, hu⟩ := hd (by decide)
  exact ⟨g0, g, h0, open_env_ok, hg, d1, d2, d3, d4, (hp g.pool).1, (hu g.pool).1⟩

/-! ## Chase progress -/

/-- The step that `slime_move` chooses moves the slime one pixel on one axis; it brings
the slime one pixel nearer to the player when their positions differ, and is the step to
`y + 1` when they coincide. -/
theorem slime_choice_progress (slime : Slime) (player : Player) :
    (((slime_stepped (slime_choice slime player) slime).x = slime.x ∧
        ((slime_stepped (slime_choice slime player) slime).y = slime.y + 1 ∨
          (slime_stepped (slime_choice slime player) slime).y = slime.y - 1)) ∨
      ((slime_stepped (slime_choice slime player) slime).y = slime.y ∧
        ((slime_stepped (slime_choice slime player) slime).x = slime.x + 1 ∨
          (slime_stepped (slime_choice slime player) slime).x = slime.x - 1))) ∧
    (player.x ≠ slime.x ∨ player.y ≠ slime.y →
      manhattan (slime_stepped (slime_choice slime player) slime) player + 1 =
        manhattan slime player) ∧
    (player.x = slime.x ∧ player.y = slime.y →
      (slime_stepped (slime_choice slime player) slime).x = slime.x ∧
      (slime_stepped (slime_choice slime player) slime).y = slime.y + 1 ∧
      manhattan (slime_stepped (slime_choice slime player) slime) player = 1) := by
  refine ⟨slime_stepped_moves _ slime, ?_, ?_⟩
  · unfold slime_choice
    split_ifs <;> simp only [slime_stepped, manhattan] <;> intro h <;> omega
  · unfold slime_choice
    split_ifs <;> simp only [slime_stepped, manhattan] <;> intro h <;>
      refine ⟨?_, ?_, ?_⟩ <;> first | omega | trivial

theorem slime_try_blocked (fuel : Nat) (env : Env) (x1 y1 x2 y2 xscroll yscroll wave : Int)
    (slime moved : Slime) (t1 : Nat)
    (h1 : forest_lookup fuel env x1 y1 xscroll yscroll = some t1) (hb : blocking t1 = true) :
    slime_try fuel env x1 y1 x2 y2 xscroll yscroll wave slime moved = some slime := by
  unfold slime_try
  simp only [h1, hb, if_true]

/-- C28: chase progress. For a `slime_move` call with `wait = 0` (the call reads the
player and does not write it; it returns the slime): if the first probed tile is blocking,
or it is not and the second probed tile is blocking, the slime is returned unchanged,
position and `wait` included, so the move is retried at the next call. If both probed
tiles are non-blocking, the position of the slime changes by exactly one pixel on exactly
one axis and `wait` becomes `6 - wave`; if the positions of slime and player differ, the
Manhattan distance `|player.x - slime.x| + |player.y - slime.y|` decreases by exactly 1;
if they coincide, the slime steps to `y + 1` and the distance becomes 1. -/
theorem chase_progress (fuel : Nat) (env : Env) (slime : Slime) (player : Player)
    (xscroll yscroll wave : Int) (t1 : Nat) (hwait : slime.wait = 0)
    (h1 : forest_lookup fuel env (slime_probe1 (slime_choice slime player) slime).1
      (slime_probe1 (slime_choice slime player) slime).2 xscroll yscroll = some t1) :
    (t1 ∈ blocking_set →
      slime_move fuel env slime player xscroll yscroll wave = some slime) ∧
    ∀ t2, forest_lookup fuel env (slime_probe2 (slime_choice slime player) player).1
        (slime_probe2 (slime_choice slime player) player).2 xscroll yscroll = some t2 →
      (t2 ∈ blocking_set →
        slime_move fuel env slime player xscroll yscroll wave = some slime) ∧
      (t1 ∉ blocking_set → t2 ∉ blocking_set →
        ∃ s1, slime_move fuel env slime player xscroll yscroll wave = some s1 ∧
          s1.wait = 6 - wave ∧
          ((s1.x = slime.x ∧ (s1.y = slime.y + 1 ∨ s1.y = slime.y - 1)) ∨
            (s1.y = slime.y ∧ (s1.x = slime.x + 1 ∨ s1.x = slime.x - 1))) ∧
          (player.x ≠ slime.x ∨ player.y ≠ slime.y →
            manhattan s1 player + 1 = manhattan slime player) ∧
          (player.x = slime.x ∧ player.y = slime.y →
            s1.x = slime.x ∧ s1.y = slime.y + 1 ∧ manhattan s1 player = 1)) := by
  have hw : ¬ slime.wait > 0 := by omega
  refine ⟨fun hb1 => ?_, fun t2 h2 => ⟨fun hb2 => ?_, fun hb1 hb2 => ?_⟩⟩
  · rw [slime_move_try fuel env slime player xscroll yscroll wave hw]
    exact slime_try_blocked fuel env _ _ _ _ xscroll yscroll wave slime _ t1 h1
      ((blocking_iff t1).2 hb1)
  · rw [slime_move_eq fuel env slime player xscroll yscroll wave t1 t2 hw h1 h2,
      if_pos (Or.inr ((blocking_iff t2).2 hb2))]
  · have hnb : ¬ (blocking t1 = true ∨ blocking t2 = true) := by
      simp only [blocking_iff]
      tauto
    rw [slime_move_eq fuel env slime player xscroll yscroll wave t1 t2 hw h1 h2, if_neg hnb]
    obtain ⟨p1, p2, p3⟩ := slime_choice_progress slime player
    exact ⟨_, rfl, rfl, p1, p2, p3⟩

/-- C28, at concrete inputs. On an open map the slime at (50, 50) with the player at
(60, 60) steps to (51, 50): the distance goes from 20 to 19. On a map of blocking tiles
the same call returns the slime unchanged. -/
theorem chase_progress_witness :
    (∃ s1, slime_move 50 open_env (slime_at 50 50 0) (player_at 60 60) 0 0 0 = some s1 ∧
      manhattan (slime_at 50 50 0) (player_at 60 60) = 20 ∧
      manhattan s1 (player_at 60 60) + 1 = manhattan (slime_at 50 50 0) (player_at 60 60)) ∧
    slime_move 50 walled_env (slime_at 50 50 0) (player_at 60 60) 0 0 0 =
      some (slime_at 50 50 0) := by
  constructor
  · obtain ⟨s1, hs, _, _, hd, _⟩ :=
      ((chase_progress 50 open_env (slime_at 50 50 0) (player_at 60 60) 0 0 0 0 rfl
        (open_env_lookup 50 _ _ 0 0 (by decide))).2 0
        (open_env_lookup 50 _ _ 0 0 (by decide))).2 (by decide) (by decide)
    exact ⟨s1, hs, by decide, hd (Or.inl (by decide))⟩
  · exact (chase_progress 50 walled_env (slime_at 50 50 0) (player_at 60 60) 0 0 0 1 rfl
      (walled_env_lookup 50 _ _ 0 0 (by decide))).1 (by decide)

end GBAGame
